import Mathlib

/-!
Verification of the theme-conversion core of the Theme_Editor repository.

The development shallowly embeds, over `List Char` / `String`:
  * `TerminalTheme.normalize_hex` (modules/theme_data.py),
  * `ColorPickerButton._normalize_color` (modules/color_picker.py),
  * `QSSPalette` with `validate`, `from_qss`, `generate_qss` (modules/theme_data.py),
  * `QtWidgetThemeEditor._parse_css_properties`, the `"; ".join(...)` property
    serializer of `_update_css_property`, and `_extract_color_from_value`
    (modules/qt_widget_theme_editor.py).

Python regular expressions are embedded as dedicated scanning functions whose
backtracking behaviour mirrors `re.search` / `re.match` / `re.findall` on the
specific patterns used by the source (leftmost starting position wins; a greedy
`[^}]*` or `.*` prefix makes the rightmost viable continuation win).  Strings
are modelled at the ASCII level (`str.upper`, `str.lower`, `str.strip`, `\s`,
`\w`, `\d` act on ASCII as in CPython).
-/

namespace ThemeEd

/-- ASCII whitespace recognised by Python's `str.strip` and by `\s`. -/
def isWsCh (c : Char) : Bool :=
  c = ' ' || c = '\t' || c = '\n' || c = '\r' || c = '\x0b' || c = '\x0c'

/-- ASCII decimal digit, the `\d` class. -/
def isDigitCh (c : Char) : Bool :=
  '0' ≤ c && c ≤ '9'

/-- The characters of the regex class `[0-9A-Fa-f]`. -/
def hexDigitChars : List Char :=
  ['a', 'b', 'c', 'd', 'e', 'f', 'A', 'B', 'C', 'D', 'E', 'F',
   '0', '1', '2', '3', '4', '5', '6', '7', '8', '9']

/-- Membership in the regex class `[0-9A-Fa-f]`. -/
def isHexDigitCh (c : Char) : Bool :=
  hexDigitChars.contains c

/-- The characters of the regex class `[0-9A-F]` (uppercase hex). -/
def upperHexChars : List Char :=
  ['0', '1', '2', '3', '4', '5', '6', '7', '8', '9', 'A', 'B', 'C', 'D', 'E', 'F']

/-- Membership in the regex class `[0-9A-F]`. -/
def isUpperHexCh (c : Char) : Bool :=
  upperHexChars.contains c

/-- Word characters of the `\b` boundary test (`[A-Za-z0-9_]`, ASCII model). -/
def isWordCh (c : Char) : Bool :=
  ('a' ≤ c && c ≤ 'z') || ('A' ≤ c && c ≤ 'Z') || ('0' ≤ c && c ≤ '9') || c = '_'

/-- ASCII model of Python `str.upper` on one character. -/
def upperChar : Char → Char
  | 'a' => 'A' | 'b' => 'B' | 'c' => 'C' | 'd' => 'D' | 'e' => 'E' | 'f' => 'F'
  | 'g' => 'G' | 'h' => 'H' | 'i' => 'I' | 'j' => 'J' | 'k' => 'K' | 'l' => 'L'
  | 'm' => 'M' | 'n' => 'N' | 'o' => 'O' | 'p' => 'P' | 'q' => 'Q' | 'r' => 'R'
  | 's' => 'S' | 't' => 'T' | 'u' => 'U' | 'v' => 'V' | 'w' => 'W' | 'x' => 'X'
  | 'y' => 'Y' | 'z' => 'Z'
  | c => c

/-- ASCII model of Python `str.lower` on one character. -/
def lowerChar : Char → Char
  | 'A' => 'a' | 'B' => 'b' | 'C' => 'c' | 'D' => 'd' | 'E' => 'e' | 'F' => 'f'
  | 'G' => 'g' | 'H' => 'h' | 'I' => 'i' | 'J' => 'j' | 'K' => 'k' | 'L' => 'l'
  | 'M' => 'm' | 'N' => 'n' | 'O' => 'o' | 'P' => 'p' | 'Q' => 'q' | 'R' => 'r'
  | 'S' => 's' | 'T' => 't' | 'U' => 'u' | 'V' => 'v' | 'W' => 'w' | 'X' => 'x'
  | 'Y' => 'y' | 'Z' => 'z'
  | c => c

/-- Python `str.strip`: drop whitespace from both ends. -/
def stripCh (l : List Char) : List Char :=
  ((l.dropWhile isWsCh).reverse.dropWhile isWsCh).reverse

/-- Match a literal character sequence at the head of the input, returning
the remaining input on success. -/
def matchLit : List Char → List Char → Option (List Char)
  | [], s => some s
  | _ :: _, [] => none
  | c :: cs, d :: ds => if c = d then matchLit cs ds else none

/-- Maximal-munch `\s*`.  This is the exact semantics of a greedy `\s*`
whenever the following regex atom cannot match a whitespace character. -/
def dropWs (s : List Char) : List Char :=
  s.dropWhile isWsCh

/-- Match `#[0-9A-Fa-f]{6}` at the head of the input and return the matched
seven characters. -/
def matchHex6 : List Char → Option (List Char)
  | '#' :: a :: b :: c :: d :: e :: f :: _ =>
      if isHexDigitCh a && isHexDigitCh b && isHexDigitCh c &&
         isHexDigitCh d && isHexDigitCh e && isHexDigitCh f then
        some ['#', a, b, c, d, e, f]
      else
        none
  | _ => none

/-- `re.search` for a pattern embedded as the matcher `m`: try every starting
position from left to right, first success wins. -/
def reSearch (m : List Char → Option (List Char)) : List Char → Option (List Char)
  | [] => m []
  | c :: cs =>
    match m (c :: cs) with
    | some r => some r
    | none => reSearch m cs

/-- The tail `[^}]*lit\s*(#[0-9A-Fa-f]{6})` of the block-scoped rules of
`QSSPalette.from_qss`: inside the current `{...}` block (never crossing a
closing brace) the greedy `[^}]*` makes the rightmost position at which
`lit` is followed by `\s*` and a six-digit hex colour win. -/
def scanBlockLast (lit : List Char) : List Char → Option (List Char)
  | [] => none
  | c :: cs =>
    if c = '}' then none
    else
      match scanBlockLast lit cs with
      | some r => some r
      | none => (matchLit lit (c :: cs)).bind fun rest => matchHex6 (dropWs rest)

/-- The tail `.*:\s*(#[0-9A-Fa-f]{6})` of the `border` rule: `.` does not
match a newline, so the colon must lie on the current line; the greedy `.*`
makes the rightmost viable colon win; the `\s*` after the colon may cross
newlines. -/
def scanLineLast : List Char → Option (List Char)
  | [] => none
  | c :: cs =>
    if c = '\n' then none
    else
      match scanLineLast cs with
      | some r => some r
      | none => if c = ':' then matchHex6 (dropWs cs) else none

/-- Matcher for `sel\s*\{[^}]*lit\s*(#[0-9A-Fa-f]{6})` at one position. -/
def blockMatcher (sel lit : List Char) (s : List Char) : Option (List Char) :=
  (matchLit sel s).bind fun r =>
    match dropWs r with
    | '{' :: body => scanBlockLast lit body
    | _ => none

/-- Matcher for `border.*:\s*(#[0-9A-Fa-f]{6})` at one position. -/
def borderMatcher (s : List Char) : Option (List Char) :=
  (matchLit ("border".data) s).bind scanLineLast

/-- `lit` occurs at the head of `s`. -/
def startsWithL : List Char → List Char → Bool
  | [], _ => true
  | _ :: _, [] => false
  | c :: cs, d :: ds => c = d && startsWithL cs ds

/-- `l` is clear of the literal `lit`: no suffix of `l` starts with `lit`,
and no proper suffix of `l` shorter than `lit` is a prefix of `lit` (so an
occurrence of `lit` cannot even straddle the right end of `l`, whatever
follows). -/
def clearB (lit : List Char) : List Char → Bool
  | [] => true
  | c :: cs =>
    (if (c :: cs).length < lit.length then !(startsWithL (c :: cs) lit)
     else !(startsWithL lit (c :: cs))) && clearB lit cs

theorem startsWithL_append_of_le (lit x r : List Char) (h : lit.length ≤ x.length) :
    startsWithL lit (x ++ r) = startsWithL lit x := by
  induction lit generalizing x with
  | nil => rfl
  | cons c cs ih =>
    cases x with
    | nil => simp at h
    | cons d ds =>
      simp only [List.cons_append, startsWithL, List.append_eq]
      rw [ih ds (by simpa using Nat.le_of_succ_le_succ h)]

theorem startsWithL_short_of_append (lit x r : List Char) (h : x.length < lit.length)
    (hs : startsWithL lit (x ++ r) = true) : startsWithL x lit = true := by
  induction lit generalizing x with
  | nil => simp at h
  | cons c cs ih =>
    cases x with
    | nil => rfl
    | cons d ds =>
      simp only [List.cons_append, startsWithL, Bool.and_eq_true, decide_eq_true_eq] at hs
      simp only [startsWithL, Bool.and_eq_true, decide_eq_true_eq]
      exact ⟨hs.1.symm, ih ds (by simpa using Nat.lt_of_succ_lt_succ h) hs.2⟩

theorem matchLit_eq_none (lit s : List Char) (h : startsWithL lit s = false) :
    matchLit lit s = none := by
  induction lit generalizing s with
  | nil => simp [startsWithL] at h
  | cons c cs ih =>
    cases s with
    | nil => rfl
    | cons d ds =>
      simp only [startsWithL, Bool.and_eq_false_iff] at h
      simp only [matchLit]
      rcases h with h | h
      · simp only [decide_eq_false_iff_not] at h
        simp [h]
      · by_cases hcd : c = d
        · simp [hcd, ih ds h]
        · simp [hcd]

theorem matchLit_self_append (lit r : List Char) : matchLit lit (lit ++ r) = some r := by
  induction lit with
  | nil => rfl
  | cons c cs ih => simp [matchLit, ih]

/-- A matcher built from a leading literal fails wherever the literal is absent. -/
theorem blockMatcher_none (sel lit s : List Char) (h : startsWithL sel s = false) :
    blockMatcher sel lit s = none := by
  simp [blockMatcher, matchLit_eq_none sel s h]

theorem borderMatcher_none (s : List Char) (h : startsWithL ("border".data) s = false) :
    borderMatcher s = none := by
  simp [borderMatcher, matchLit_eq_none _ s h]

theorem reSearch_hit (m : List Char → Option (List Char)) (s : List Char)
    (r : List Char) (h : m s = some r) : reSearch m s = some r := by
  cases s with
  | nil => simpa [reSearch] using h
  | cons c cs => simp [reSearch, h]

theorem reSearch_step (m : List Char → Option (List Char)) (c : Char) (cs : List Char)
    (h : m (c :: cs) = none) : reSearch m (c :: cs) = reSearch m cs := by
  simp [reSearch, h]

/-- Master skip lemma: if the matcher `m` can only succeed where the literal
`lit` is present, and `l` is clear of `lit`, then searching `l ++ r` is the
same as searching `r`, whatever `r` is. -/
theorem reSearch_skipClear (m : List Char → Option (List Char)) (lit : List Char)
    (hm : ∀ s, startsWithL lit s = false → m s = none)
    (l r : List Char) (hc : clearB lit l = true) :
    reSearch m (l ++ r) = reSearch m r := by
  induction l with
  | nil => rfl
  | cons c cs ih =>
    simp only [clearB, Bool.and_eq_true] at hc
    have hfail : startsWithL lit ((c :: cs) ++ r) = false := by
      by_cases hlen : (c :: cs).length < lit.length
      · simp only [if_pos hlen, Bool.not_eq_true'] at hc
        cases hsw : startsWithL lit ((c :: cs) ++ r) with
        | false => rfl
        | true =>
          exact absurd (startsWithL_short_of_append lit (c :: cs) r hlen hsw)
            (by simp [hc.1])
      · simp only [if_neg hlen, Bool.not_eq_true'] at hc
        rw [startsWithL_append_of_le lit (c :: cs) r (Nat.le_of_not_lt hlen)]
        exact hc.1
    rw [List.cons_append, reSearch_step m c (cs ++ r) (hm _ hfail)]
    exact ih hc.2

theorem reSearch_none_clear (m : List Char → Option (List Char)) (lit : List Char)
    (hm : ∀ s, startsWithL lit s = false → m s = none)
    (hnil : m [] = none)
    (l : List Char) (hc : clearB lit l = true) :
    reSearch m l = none := by
  have := reSearch_skipClear m lit hm l [] hc
  simpa [reSearch, hnil] using this

/-- If the scan of the tail of a block already yields a (rightmost) hit, a
prefix containing no closing brace cannot change the result. -/
theorem scanBlockLast_some_extend (lit l r x : List Char)
    (h : ∀ c ∈ l, c ≠ '}') (ht : scanBlockLast lit r = some x) :
    scanBlockLast lit (l ++ r) = some x := by
  induction l with
  | nil => simpa using ht
  | cons c cs ih =>
    have hc : c ≠ '}' := h c (by simp)
    have ih' := ih fun d hd => h d (by simp [hd])
    simp [scanBlockLast, hc, ih']

/-- A region clear of `lit` and closed by `}` yields no block-scoped hit. -/
theorem scanBlockLast_none_clear (lit l r : List Char) (hc : clearB lit l = true) :
    scanBlockLast lit (l ++ '}' :: r) = none := by
  induction l with
  | nil => simp [scanBlockLast]
  | cons c cs ih =>
    simp only [clearB, Bool.and_eq_true] at hc
    by_cases hcb : c = '}'
    · simp [scanBlockLast, hcb]
    · have hfail : startsWithL lit ((c :: cs) ++ '}' :: r) = false := by
        by_cases hlen : (c :: cs).length < lit.length
        · simp only [if_pos hlen, Bool.not_eq_true'] at hc
          cases hsw : startsWithL lit ((c :: cs) ++ '}' :: r) with
          | false => rfl
          | true =>
            exact absurd (startsWithL_short_of_append lit (c :: cs) ('}' :: r) hlen hsw)
              (by simp [hc.1])
        · simp only [if_neg hlen, Bool.not_eq_true'] at hc
          rw [startsWithL_append_of_le lit (c :: cs) ('}' :: r) (Nat.le_of_not_lt hlen)]
          exact hc.1
      have : matchLit lit (c :: (cs ++ '}' :: r)) = none :=
        matchLit_eq_none lit _ (by simpa using hfail)
      simp [scanBlockLast, hcb, ih hc.2, this]

/-- Evaluate the block scan at its rightmost hit: everything to the right of
the occurrence of `lit` has already been shown to yield nothing. -/
theorem scanBlockLast_hit (lit : List Char) (hlit : lit ≠ [])
    (hhd : lit.head? ≠ some '}')
    (rest : List Char)
    (hnone : scanBlockLast lit ((lit.tail) ++ rest) = none)
    (hattempt : matchHex6 (dropWs rest) = some x) :
    scanBlockLast lit (lit ++ rest) = some x := by
  cases lit with
  | nil => exact absurd rfl hlit
  | cons c cs =>
    have hc : c ≠ '}' := by simpa using hhd
    simp only [List.cons_append, scanBlockLast, if_neg hc, List.append_eq]
    simp only [List.tail] at hnone
    rw [hnone]
    rw [show c :: (cs ++ rest) = (c :: cs) ++ rest from rfl, matchLit_self_append]
    simpa using hattempt

theorem scanLineLast_newline (r : List Char) : scanLineLast ('\n' :: r) = none := by
  simp [scanLineLast]

/-- Every colon of `l` is followed, inside `l`, by optional whitespace and
then a character other than `#` (so a hex colour cannot follow it, even
taking into account what comes after `l`). -/
def lineColonsFail : List Char → Bool
  | [] => true
  | c :: cs =>
    (if c = ':' then
       match dropWs cs with
       | [] => false
       | d :: _ => d ≠ '#'
     else true) && lineColonsFail cs

theorem matchHex6_none_of_head (d : Char) (ds : List Char) (hd : d ≠ '#') :
    matchHex6 (d :: ds) = none := by
  unfold matchHex6
  split
  · rename_i a b c e f g heq
    injection heq with h1 _
    exact absurd h1 hd
  · rfl

theorem dropWs_append_of_ne_nil (l r : List Char) (h : dropWs l ≠ []) :
    dropWs (l ++ r) = dropWs l ++ r := by
  induction l with
  | nil => simp [dropWs] at h
  | cons c cs ih =>
    by_cases hw : isWsCh c
    · simp only [dropWs, List.dropWhile] at h ⊢
      rw [hw]
      rw [hw] at h
      exact ih h
    · simp only [dropWs, List.cons_append, List.dropWhile] at h ⊢
      simp [hw]

/-- A line region whose colons all fail contributes nothing to the
`border.*:\s*(#hex)` scan, whatever follows it. -/
theorem scanLineLast_skipMid (mid : List Char)
    (hD1 : lineColonsFail mid = true) (hD2 : ∀ c ∈ mid, c ≠ '\n') (rest : List Char) :
    scanLineLast (mid ++ rest) = scanLineLast rest := by
  induction mid with
  | nil => rfl
  | cons c cs ih =>
    have hcn : c ≠ '\n' := hD2 c (by simp)
    simp only [lineColonsFail, Bool.and_eq_true] at hD1
    have ih' := ih hD1.2 fun d hd => hD2 d (by simp [hd])
    simp only [List.cons_append, scanLineLast, if_neg hcn, List.append_eq]
    rw [ih']
    by_cases hcol : c = ':'
    · subst hcol
      rw [if_pos rfl] at hD1
      have hfail : matchHex6 (dropWs (cs ++ rest)) = none := by
        rcases hdw : dropWs cs with _ | ⟨d, ds⟩
        · rw [hdw] at hD1
          simp at hD1
        · have heq : dropWs (cs ++ rest) = dropWs cs ++ rest :=
            dropWs_append_of_ne_nil cs rest (by simp [hdw])
          rw [heq, hdw]
          rw [hdw] at hD1
          have hd : d ≠ '#' := by simpa using hD1.1
          exact matchHex6_none_of_head d (ds ++ rest) hd
      cases scanLineLast rest with
      | some r => rfl
      | none => simp [hfail]
    · cases scanLineLast rest with
      | some r => rfl
      | none => simp [hcol]

/-- The facts about an uppercase hex digit that the template walk needs. -/
theorem isUpperHexCh_facts (c : Char) (h : isUpperHexCh c = true) :
    c ≠ 'Q' ∧ c ≠ ':' ∧ c ≠ 'b' ∧ c ≠ 'c' ∧ c ≠ '#' ∧ c ≠ '}' ∧ c ≠ '\n' ∧
      isHexDigitCh c = true ∧ upperChar c = c ∧ isWsCh c = false := by
  simp [isUpperHexCh, upperHexChars] at h
  rcases h with rfl|rfl|rfl|rfl|rfl|rfl|rfl|rfl|rfl|rfl|rfl|rfl|rfl|rfl|rfl|rfl <;> decide

theorem startsWithL_append_left (x y lit : List Char)
    (h : startsWithL (x ++ y) lit = true) : startsWithL x lit = true := by
  induction x generalizing lit with
  | nil => rfl
  | cons c cs ih =>
    cases lit with
    | nil => simp [startsWithL] at h
    | cons d ds =>
      simp only [List.cons_append, startsWithL, Bool.and_eq_true] at h ⊢
      exact ⟨h.1, ih ds h.2⟩

theorem clearB_append (lit a b : List Char)
    (ha : clearB lit a = true) (hb : clearB lit b = true) :
    clearB lit (a ++ b) = true := by
  induction a with
  | nil => simpa using hb
  | cons c cs ih =>
    simp only [clearB, Bool.and_eq_true] at ha
    obtain ⟨ha1, ha2⟩ := ha
    have ih' := ih ha2
    simp only [List.cons_append, clearB, Bool.and_eq_true, List.append_eq]
    refine ⟨?_, ih'⟩
    have hshort : (c :: cs).length < lit.length → startsWithL (c :: cs) lit = false := by
      intro h
      rw [if_pos h] at ha1
      cases hsw : startsWithL (c :: cs) lit with
      | false => rfl
      | true =>
        rw [hsw] at ha1
        exact absurd ha1 (by decide)
    have hlong : ¬(c :: cs).length < lit.length → startsWithL lit (c :: cs) = false := by
      intro h
      rw [if_neg h] at ha1
      cases hsw : startsWithL lit (c :: cs) with
      | false => rfl
      | true =>
        rw [hsw] at ha1
        exact absurd ha1 (by decide)
    split
    · rename_i h1
      have h2 : (c :: cs).length < lit.length := by
        simp only [List.length_cons, List.append_eq, List.length_append] at h1 ⊢
        omega
      cases hsw : startsWithL (c :: (cs ++ b)) lit with
      | false => rfl
      | true =>
        have hpre : startsWithL (c :: cs) lit = true :=
          startsWithL_append_left (c :: cs) b lit (by simpa using hsw)
        rw [hshort h2] at hpre
        exact absurd hpre (by decide)
    · rename_i h1
      by_cases h2 : (c :: cs).length < lit.length
      · cases hsw : startsWithL lit (c :: (cs ++ b)) with
        | false => rfl
        | true =>
          have hpre : startsWithL (c :: cs) lit = true :=
            startsWithL_short_of_append lit (c :: cs) b h2 (by simpa using hsw)
          rw [hshort h2] at hpre
          exact absurd hpre (by decide)
      · rw [show c :: (cs ++ b) = (c :: cs) ++ b from rfl,
          startsWithL_append_of_le lit (c :: cs) b (Nat.le_of_not_lt h2), hlong h2]
        rfl

/-- A `#`-prefixed uppercase-hex token is clear of any literal whose first
character is neither `#` nor an uppercase hex digit. -/
theorem clearB_hexToken (lit : List Char) (c0 : Char) (lt : List Char)
    (hlit : lit = c0 :: lt) (h0 : c0 ≠ '#') (hh : ∀ c, isUpperHexCh c = true → c ≠ c0)
    (d1 d2 d3 d4 d5 d6 : Char)
    (h1 : isUpperHexCh d1 = true) (h2 : isUpperHexCh d2 = true)
    (h3 : isUpperHexCh d3 = true) (h4 : isUpperHexCh d4 = true)
    (h5 : isUpperHexCh d5 = true) (h6 : isUpperHexCh d6 = true) :
    clearB lit ['#', d1, d2, d3, d4, d5, d6] = true := by
  subst hlit
  have key : ∀ (x : Char) (xs : List Char), x ≠ c0 →
      (if (x :: xs).length < (c0 :: lt).length then !(startsWithL (x :: xs) (c0 :: lt))
       else !(startsWithL (c0 :: lt) (x :: xs))) = true := by
    intro x xs hx
    by_cases hl : (x :: xs).length < (c0 :: lt).length
    · rw [if_pos hl]
      have hsw : startsWithL (x :: xs) (c0 :: lt) = false := by
        simp only [startsWithL]
        rw [decide_eq_false hx, Bool.false_and]
      rw [hsw]
      rfl
    · rw [if_neg hl]
      have hsw : startsWithL (c0 :: lt) (x :: xs) = false := by
        simp only [startsWithL]
        rw [decide_eq_false fun h => hx h.symm, Bool.false_and]
      rw [hsw]
      rfl
  simp only [clearB, Bool.and_eq_true]
  refine ⟨key '#' _ (Ne.symm h0), key d1 _ (hh d1 h1), key d2 _ (hh d2 h2),
    key d3 _ (hh d3 h3), key d4 _ (hh d4 h4), key d5 _ (hh d5 h5), key d6 _ (hh d6 h6), ?_⟩
  trivial

theorem lineColonsFail_of_no_colon (l : List Char) (h : ∀ c ∈ l, c ≠ ':') :
    lineColonsFail l = true := by
  induction l with
  | nil => rfl
  | cons c cs ih =>
    simp only [lineColonsFail, Bool.and_eq_true]
    exact ⟨by simp [h c (by simp)], ih fun d hd => h d (by simp [hd])⟩

theorem scanLineLast_skip_hexToken (d1 d2 d3 d4 d5 d6 : Char)
    (h1 : isUpperHexCh d1 = true) (h2 : isUpperHexCh d2 = true)
    (h3 : isUpperHexCh d3 = true) (h4 : isUpperHexCh d4 = true)
    (h5 : isUpperHexCh d5 = true) (h6 : isUpperHexCh d6 = true) (r : List Char) :
    scanLineLast (['#', d1, d2, d3, d4, d5, d6] ++ r) = scanLineLast r := by
  refine scanLineLast_skipMid _ ?_ ?_ r
  · refine lineColonsFail_of_no_colon _ ?_
    intro c hc
    simp only [List.mem_cons, List.not_mem_nil, or_false] at hc
    rcases hc with rfl|rfl|rfl|rfl|rfl|rfl|rfl
    · decide
    · exact (isUpperHexCh_facts _ h1).2.1
    · exact (isUpperHexCh_facts _ h2).2.1
    · exact (isUpperHexCh_facts _ h3).2.1
    · exact (isUpperHexCh_facts _ h4).2.1
    · exact (isUpperHexCh_facts _ h5).2.1
    · exact (isUpperHexCh_facts _ h6).2.1
  · intro c hc
    simp only [List.mem_cons, List.not_mem_nil, or_false] at hc
    rcases hc with rfl|rfl|rfl|rfl|rfl|rfl|rfl
    · decide
    · exact (isUpperHexCh_facts _ h1).2.2.2.2.2.2.1
    · exact (isUpperHexCh_facts _ h2).2.2.2.2.2.2.1
    · exact (isUpperHexCh_facts _ h3).2.2.2.2.2.2.1
    · exact (isUpperHexCh_facts _ h4).2.2.2.2.2.2.1
    · exact (isUpperHexCh_facts _ h5).2.2.2.2.2.2.1
    · exact (isUpperHexCh_facts _ h6).2.2.2.2.2.2.1

/-- One position of `re.findall(r'#[0-9A-Fa-f]{6}\b', text)`: the pattern
matches here (the trailing `\b` succeeds when the seventh character is
followed by a non-word character or the end of the text). -/
def hexTokenAt : List Char → Bool
  | '#' :: a :: b :: c :: d :: e :: f :: rest =>
      isHexDigitCh a && isHexDigitCh b && isHexDigitCh c &&
      isHexDigitCh d && isHexDigitCh e && isHexDigitCh f &&
      (match rest with
       | [] => true
       | g :: _ => !(isWordCh g))
  | _ => false

/-- `re.findall(r'#[0-9A-Fa-f]{6}\b', text)` is nonempty. -/
def hasHexColor : List Char → Bool
  | [] => false
  | c :: cs => hexTokenAt (c :: cs) || hasHexColor cs

theorem hasHexColor_append_right (l r : List Char) (h : hasHexColor r = true) :
    hasHexColor (l ++ r) = true := by
  induction l with
  | nil => simpa using h
  | cons c cs ih => simp [hasHexColor, ih]

theorem hasHexColor_of_tokenAt (c : Char) (cs : List Char)
    (h : hexTokenAt (c :: cs) = true) : hasHexColor (c :: cs) = true := by
  simp [hasHexColor, h]

theorem dropWs_cons_ws (c : Char) (r : List Char) (h : isWsCh c = true) :
    dropWs (c :: r) = dropWs r := by
  simp [dropWs, List.dropWhile_cons, h]

theorem dropWs_cons_not (c : Char) (r : List Char) (h : isWsCh c = false) :
    dropWs (c :: r) = c :: r := by
  simp [dropWs, List.dropWhile_cons, h]

theorem matchHex6_token (d1 d2 d3 d4 d5 d6 : Char)
    (h1 : isHexDigitCh d1 = true) (h2 : isHexDigitCh d2 = true)
    (h3 : isHexDigitCh d3 = true) (h4 : isHexDigitCh d4 = true)
    (h5 : isHexDigitCh d5 = true) (h6 : isHexDigitCh d6 = true) (r : List Char) :
    matchHex6 ('#' :: d1 :: d2 :: d3 :: d4 :: d5 :: d6 :: r) =
      some ['#', d1, d2, d3, d4, d5, d6] := by
  simp [matchHex6, h1, h2, h3, h4, h5, h6]

theorem hexTokenAt_token (d1 d2 d3 d4 d5 d6 : Char)
    (h1 : isHexDigitCh d1 = true) (h2 : isHexDigitCh d2 = true)
    (h3 : isHexDigitCh d3 = true) (h4 : isHexDigitCh d4 = true)
    (h5 : isHexDigitCh d5 = true) (h6 : isHexDigitCh d6 = true)
    (g : Char) (hg : isWordCh g = false) (r : List Char) :
    hexTokenAt ('#' :: d1 :: d2 :: d3 :: d4 :: d5 :: d6 :: g :: r) = true := by
  simp [hexTokenAt, h1, h2, h3, h4, h5, h6, hg]

theorem mem_hexToken_ne_rbrace (d1 d2 d3 d4 d5 d6 : Char)
    (h1 : isUpperHexCh d1 = true) (h2 : isUpperHexCh d2 = true)
    (h3 : isUpperHexCh d3 = true) (h4 : isUpperHexCh d4 = true)
    (h5 : isUpperHexCh d5 = true) (h6 : isUpperHexCh d6 = true) :
    ∀ c ∈ ['#', d1, d2, d3, d4, d5, d6], c ≠ '}' := by
  intro c hc
  simp only [List.mem_cons, List.not_mem_nil, or_false] at hc
  rcases hc with rfl|rfl|rfl|rfl|rfl|rfl|rfl
  · decide
  · exact (isUpperHexCh_facts _ h1).2.2.2.2.2.1
  · exact (isUpperHexCh_facts _ h2).2.2.2.2.2.1
  · exact (isUpperHexCh_facts _ h3).2.2.2.2.2.1
  · exact (isUpperHexCh_facts _ h4).2.2.2.2.2.1
  · exact (isUpperHexCh_facts _ h5).2.2.2.2.2.1
  · exact (isUpperHexCh_facts _ h6).2.2.2.2.2.1

/-- Within one block body, a piece that is clear of `lit` contributes nothing
to the scan, whatever its suffix (a closing brace inside the piece only stops
the scan even earlier). -/
theorem scanBlockLast_none_piece (lit p rest : List Char)
    (hc : clearB lit p = true) (hrest : scanBlockLast lit rest = none) :
    scanBlockLast lit (p ++ rest) = none := by
  induction p with
  | nil => simpa using hrest
  | cons c cs ih =>
    simp only [clearB, Bool.and_eq_true] at hc
    obtain ⟨hc1, hc2⟩ := hc
    by_cases hcb : c = '}'
    · simp [scanBlockLast, hcb]
    · have hfail : startsWithL lit ((c :: cs) ++ rest) = false := by
        by_cases hlen : (c :: cs).length < lit.length
        · rw [if_pos hlen] at hc1
          cases hsw : startsWithL lit ((c :: cs) ++ rest) with
          | false => rfl
          | true =>
            have hpre := startsWithL_short_of_append lit (c :: cs) rest hlen hsw
            rw [hpre] at hc1
            exact absurd hc1 (by decide)
        · rw [if_neg hlen] at hc1
          rw [startsWithL_append_of_le lit (c :: cs) rest (Nat.le_of_not_lt hlen)]
          cases hsw : startsWithL lit (c :: cs) with
          | false => rfl
          | true =>
            rw [hsw] at hc1
            exact absurd hc1 (by decide)
      have hml : matchLit lit (c :: (cs ++ rest)) = none :=
        matchLit_eq_none lit _ (by simpa using hfail)
      simp [scanBlockLast, hcb, ih hc2, hml]

theorem scanBlockLast_rbrace (lit r : List Char) :
    scanBlockLast lit ('}' :: r) = none := by
  simp [scanBlockLast]

/-- A piece that is clear of `lit` and free of closing braces is transparent
to the block scan. -/
theorem scanBlockLast_skip_piece (lit p r : List Char)
    (hc : clearB lit p = true) (hb : ∀ c ∈ p, c ≠ '}') :
    scanBlockLast lit (p ++ r) = scanBlockLast lit r := by
  induction p with
  | nil => rfl
  | cons c cs ih =>
    simp only [clearB, Bool.and_eq_true] at hc
    obtain ⟨hc1, hc2⟩ := hc
    have hcb : c ≠ '}' := hb c (by simp)
    have hfail : startsWithL lit ((c :: cs) ++ r) = false := by
      by_cases hlen : (c :: cs).length < lit.length
      · rw [if_pos hlen] at hc1
        cases hsw : startsWithL lit ((c :: cs) ++ r) with
        | false => rfl
        | true =>
          have hpre := startsWithL_short_of_append lit (c :: cs) r hlen hsw
          rw [hpre] at hc1
          exact absurd hc1 (by decide)
      · rw [if_neg hlen] at hc1
        rw [startsWithL_append_of_le lit (c :: cs) r (Nat.le_of_not_lt hlen)]
        cases hsw : startsWithL lit (c :: cs) with
        | false => rfl
        | true =>
          rw [hsw] at hc1
          exact absurd hc1 (by decide)
    have hml : matchLit lit (c :: (cs ++ r)) = none :=
      matchLit_eq_none lit _ (by simpa using hfail)
    simp only [List.cons_append, List.append_eq, scanBlockLast, if_neg hcb,
      ih hc2 (fun d hd => hb d (by simp [hd])), hml, Option.none_bind]
    cases scanBlockLast lit r <;> rfl

/-- Evaluate `sel\s*\{[^}]*lit\s*(#hex)` at a position where the whole rule
matches. -/
theorem blockMatcher_hit (sel lit r body x : List Char)
    (hdw : dropWs r = '{' :: body) (hscan : scanBlockLast lit body = some x) :
    blockMatcher sel lit (sel ++ r) = some x := by
  simp [blockMatcher, matchLit_self_append, hdw, hscan]

/-- A position where the selector matches but no `{` follows the optional
whitespace does not match the block rule. -/
theorem blockMatcher_step_nonbrace (sel lit : List Char) (c : Char) (r : List Char)
    (hws : isWsCh c = false) (hbr : c ≠ '{') :
    blockMatcher sel lit (sel ++ c :: r) = none := by
  unfold blockMatcher
  rw [matchLit_self_append]
  simp only [Option.some_bind]
  rw [dropWs_cons_not c r hws]
  split
  · rename_i body heq
    injection heq with h1 _
    exact absurd h1 hbr
  · rfl

theorem borderMatcher_step (r : List Char) (h : scanLineLast r = none) :
    borderMatcher (("border".data) ++ r) = none := by
  unfold borderMatcher
  rw [matchLit_self_append]
  simpa using h

/-- Value of a digit string (Python `int` on a `\d+` match). -/
def digitsVal (l : List Char) : Nat :=
  l.foldl (fun n c => n * 10 + (c.toNat - '0'.toNat)) 0

/-- Greedy `\d+` at the head of the input. -/
def spanDigits (s : List Char) : List Char × List Char :=
  (s.takeWhile isDigitCh, s.dropWhile isDigitCh)

/-- Python's `re.match(r'rgb\((\d+),\s*(\d+),\s*(\d+)\)', s)`: anchored at
the start of `s`, trailing input ignored. -/
def parseRgb (s : List Char) : Option (Nat × Nat × Nat) :=
  (matchLit ("rgb(".data) s).bind fun r1 =>
    let p1 := spanDigits r1
    if p1.1 = [] then none
    else
      match p1.2 with
      | ',' :: r3 =>
        let p2 := spanDigits (dropWs r3)
        if p2.1 = [] then none
        else
          match p2.2 with
          | ',' :: r6 =>
            let p3 := spanDigits (dropWs r6)
            if p3.1 = [] then none
            else
              match p3.2 with
              | ')' :: _ => some (digitsVal p1.1, digitsVal p2.1, digitsVal p3.1)
              | _ => none
          | _ => none
      | _ => none

/-- The uppercase hex digit of a value below 16 (Python `%X` formatting). -/
def hexDig : Nat → Char
  | 0 => '0' | 1 => '1' | 2 => '2' | 3 => '3' | 4 => '4' | 5 => '5' | 6 => '6'
  | 7 => '7' | 8 => '8' | 9 => '9' | 10 => 'A' | 11 => 'B' | 12 => 'C' | 13 => 'D'
  | 14 => 'E' | _ => 'F'

/-- Uppercase hexadecimal digits of `n` (most significant first). -/
def hexStr (n : Nat) : List Char :=
  if n < 16 then [hexDig n] else hexStr (n / 16) ++ [hexDig (n % 16)]
decreasing_by exact Nat.div_lt_self (by omega) (by omega)

/-- Python `f"{n:02X}"`: at least two uppercase hex digits, zero padded. -/
def hex2 (n : Nat) : List Char :=
  if n < 16 then ['0', hexDig n] else hexStr n

/-- The anchored test `re.match(r'^#[0-9A-F]{3}$', s)` (on an uppercased
string). -/
def isShortHex : List Char → Bool
  | ['#', a, b, c] => isUpperHexCh a && isUpperHexCh b && isUpperHexCh c
  | _ => false

/-- The anchored test `re.match(r'^#[0-9A-F]{6}$', s)` (on an uppercased
string). -/
def isFullHex : List Char → Bool
  | ['#', a, b, c, d, e, f] =>
      isUpperHexCh a && isUpperHexCh b && isUpperHexCh c &&
      isUpperHexCh d && isUpperHexCh e && isUpperHexCh f
  | _ => false

/-- `#RGB` nibble doubling of `normalize_hex` / `_normalize_color`. -/
def expandShort : List Char → List Char
  | ['#', r, g, b] => ['#', r, r, g, g, b, b]
  | l => l

/-- The test `^#[0-9A-Fa-f]{6}$` (either case allowed). -/
def isFullHexAny : List Char → Bool
  | ['#', a, b, c, d, e, f] =>
      isHexDigitCh a && isHexDigitCh b && isHexDigitCh c &&
      isHexDigitCh d && isHexDigitCh e && isHexDigitCh f
  | _ => false

end ThemeEd

namespace TerminalTheme

open ThemeEd

/-- `TerminalTheme.normalize_hex` (modules/theme_data.py, lines 60-84):
strip and uppercase, then try `#RGB`, `#RRGGBB`, `rgb(r, g, b)` in that
order; unrecognized input is returned (stripped and uppercased) as-is. -/
def normalize_hex (color : String) : String :=
  let c := (stripCh color.data).map upperChar
  if isShortHex c then ⟨expandShort c⟩
  else if isFullHex c then ⟨c⟩
  else
    match parseRgb (c.map lowerChar) with
    | some (r, g, b) => ⟨'#' :: (hex2 r ++ hex2 g ++ hex2 b)⟩
    | none => ⟨c⟩

end TerminalTheme

namespace ColorPickerButton

open ThemeEd

/-- `ColorPickerButton._normalize_color` (modules/color_picker.py, lines
46-74): identical to `TerminalTheme.normalize_hex` except that unrecognized
input falls back to `"#000000"`. -/
def normalize_color (color : String) : String :=
  let c := (stripCh color.data).map upperChar
  if isShortHex c then ⟨expandShort c⟩
  else if isFullHex c then ⟨c⟩
  else
    match parseRgb (c.map lowerChar) with
    | some (r, g, b) => ⟨'#' :: (hex2 r ++ hex2 g ++ hex2 b)⟩
    | none => "#000000"

end ColorPickerButton

/-- The strict validation pattern `^#[0-9A-Fa-f]{6}$` used by
`TerminalTheme.validate` and `QSSPalette.validate`. -/
def isValidHexStr (v : String) : Bool :=
  ThemeEd.isFullHexAny v.data

/-- The `QSSPalette` dataclass (modules/theme_data.py, lines 87-97), with its
default field values, in source declaration order. -/
structure QSSPalette where
  background : String := "#FFFFFF"
  foreground : String := "#000000"
  primary : String := "#0078D4"
  secondary : String := "#6C757D"
  border : String := "#CCCCCC"
  hover : String := "#E5E5E5"
  selected : String := "#0078D4"
  disabled : String := "#999999"
deriving Repr, DecidableEq

/-- `QSSPalette.validate` (lines 108-116): check every field, in dataclass
order, against `^#[0-9A-Fa-f]{6}$`; report the first offending field. -/
def QSSPalette.validate (p : QSSPalette) : Bool × String :=
  if !(isValidHexStr p.background) then
    (false, "Invalid color format for 'background': " ++ p.background)
  else if !(isValidHexStr p.foreground) then
    (false, "Invalid color format for 'foreground': " ++ p.foreground)
  else if !(isValidHexStr p.primary) then
    (false, "Invalid color format for 'primary': " ++ p.primary)
  else if !(isValidHexStr p.secondary) then
    (false, "Invalid color format for 'secondary': " ++ p.secondary)
  else if !(isValidHexStr p.border) then
    (false, "Invalid color format for 'border': " ++ p.border)
  else if !(isValidHexStr p.hover) then
    (false, "Invalid color format for 'hover': " ++ p.hover)
  else if !(isValidHexStr p.selected) then
    (false, "Invalid color format for 'selected': " ++ p.selected)
  else if !(isValidHexStr p.disabled) then
    (false, "Invalid color format for 'disabled': " ++ p.disabled)
  else (true, "")

namespace ThemeEd

/-- `re.search(r'QWidget\s*\{[^}]*background-color:\s*(#[0-9A-Fa-f]{6})', s)`. -/
def searchWidgetBg (s : List Char) : Option (List Char) :=
  reSearch (blockMatcher ("QWidget".data) ("background-color:".data)) s

/-- `re.search(r'QWidget\s*\{[^}]*color:\s*(#[0-9A-Fa-f]{6})', s)`. -/
def searchWidgetFg (s : List Char) : Option (List Char) :=
  reSearch (blockMatcher ("QWidget".data) ("color:".data)) s

/-- `re.search(r'QPushButton\s*\{[^}]*background-color:\s*(#[0-9A-Fa-f]{6})', s)`. -/
def searchButtonBg (s : List Char) : Option (List Char) :=
  reSearch (blockMatcher ("QPushButton".data) ("background-color:".data)) s

/-- `re.search(r':hover\s*\{[^}]*background-color:\s*(#[0-9A-Fa-f]{6})', s)`. -/
def searchHoverBg (s : List Char) : Option (List Char) :=
  reSearch (blockMatcher (":hover".data) ("background-color:".data)) s

/-- `re.search(r'::item:selected\s*\{[^}]*background-color:\s*(#[0-9A-Fa-f]{6})', s)`. -/
def searchSelectedBg (s : List Char) : Option (List Char) :=
  reSearch (blockMatcher ("::item:selected".data) ("background-color:".data)) s

/-- `re.search(r'border.*:\s*(#[0-9A-Fa-f]{6})', s)`. -/
def searchBorder (s : List Char) : Option (List Char) :=
  reSearch borderMatcher s

/-- `palette.field = match.group(1).upper() if the rule matched, else keep
the default`. -/
def updField (o : Option (List Char)) (dflt : String) : String :=
  match o with
  | some tok => ⟨tok.map upperChar⟩
  | none => dflt

end ThemeEd

open ThemeEd in
/-- `QSSPalette.from_qss` (lines 118-169): if `re.findall(r'#[0-9A-Fa-f]{6}\b', qss_code)`
is empty, return the default palette; otherwise start from the default
palette and overwrite `background`, `foreground`, `primary`, `hover`,
`selected` and `border` with the (uppercased) capture of the corresponding
`re.search` rule when that rule matches.  (The source also counts colour
occurrences into `most_common`, but never uses the result; `secondary` and
`disabled` are never assigned.) -/
def QSSPalette.from_qss (qss_code : String) : QSSPalette :=
  let s := qss_code.data
  if hasHexColor s then
    { background := updField (searchWidgetBg s) "#FFFFFF"
      foreground := updField (searchWidgetFg s) "#000000"
      primary := updField (searchButtonBg s) "#0078D4"
      secondary := "#6C757D"
      border := updField (searchBorder s) "#CCCCCC"
      hover := updField (searchHoverBg s) "#E5E5E5"
      selected := updField (searchSelectedBg s) "#0078D4"
      disabled := "#999999" }
  else {}


namespace ThemeEd

/-- Template fragment 0 of `_generate_default_qss`. -/
def qp0 : String :=
  "/* Theme Editor - Generated QSS Theme */\n\n/* Main Window and Widgets */\n"

/-- Template fragment 1 of `_generate_default_qss`. -/
def qp1 : String :=
  "QWidget"

/-- Template fragment 2 of `_generate_default_qss`. -/
def qp2 : String :=
  " \x7b\n    background-color: "

/-- Template fragment 3 of `_generate_default_qss`. -/
def qp3 : String :=
  ";\n    color: "

/-- Template fragment 4 of `_generate_default_qss`. -/
def qp4 : String :=
  ";\n    font-size: 10pt;\n\x7d\n\n/* Buttons */\n"

/-- Template fragment 5 of `_generate_default_qss`. -/
def qp5 : String :=
  "QPushButton"

/-- Template fragment 6 of `_generate_default_qss`. -/
def qp6 : String :=
  ";\n    "

/-- Template fragment 7 of `_generate_default_qss`. -/
def qp7 : String :=
  "border"

/-- Template fragment 8 of `_generate_default_qss`. -/
def qp8 : String :=
  ": 1px solid "

/-- Template fragment 9 of `_generate_default_qss`. -/
def qp9 : String :=
  "-radius: 4px;\n    padding: 5px 15px;\n    min-width: 80px;\n\x7d\n\n"

/-- Template fragment 10 of `_generate_default_qss`. -/
def qp10 : String :=
  ":hover"

/-- Template fragment 11 of `_generate_default_qss`. -/
def qp11 : String :=
  ";\n\x7d\n\n"

/-- Template fragment 12 of `_generate_default_qss`. -/
def qp12 : String :=
  ":pressed \x7b\n    background-color: "

/-- Template fragment 13 of `_generate_default_qss`. -/
def qp13 : String :=
  ":disabled \x7b\n    background-color: "

/-- Template fragment 14 of `_generate_default_qss`. -/
def qp14 : String :=
  ";\n\x7d\n\n/* Input Fields */\nQLineEdit, QTextEdit, QPlainTextEdit \x7b\n    background-color: "

/-- Template fragment 15 of `_generate_default_qss`. -/
def qp15 : String :=
  "-radius: 3px;\n    padding: 4px;\n\x7d\n\nQLineEdit:focus, QTextEdit:focus, QPlainTextEdit:focus \x7b\n    "

/-- Template fragment 16 of `_generate_default_qss`. -/
def qp16 : String :=
  ": 2px solid "

/-- Template fragment 17 of `_generate_default_qss`. -/
def qp17 : String :=
  ";\n\x7d\n\n/* ComboBox */\nQComboBox \x7b\n    background-color: "

/-- Template fragment 18 of `_generate_default_qss`. -/
def qp18 : String :=
  "-radius: 3px;\n    padding: 4px;\n\x7d\n\nQComboBox"

/-- Template fragment 19 of `_generate_default_qss`. -/
def qp19 : String :=
  " \x7b\n    "

/-- Template fragment 20 of `_generate_default_qss`. -/
def qp20 : String :=
  ";\n\x7d\n\nQComboBox::drop-down \x7b\n    "

/-- Template fragment 21 of `_generate_default_qss`. -/
def qp21 : String :=
  ": none;\n\x7d\n\nQComboBox QAbstractItemView \x7b\n    background-color: "

/-- Template fragment 22 of `_generate_default_qss`. -/
def qp22 : String :=
  ";\n    selection-background-color: "

/-- Template fragment 23 of `_generate_default_qss`. -/
def qp23 : String :=
  ";\n    selection-color: "

/-- Template fragment 24 of `_generate_default_qss`. -/
def qp24 : String :=
  ";\n\x7d\n\n/* SpinBox */\nQSpinBox, QDoubleSpinBox \x7b\n    background-color: "

/-- Template fragment 25 of `_generate_default_qss`. -/
def qp25 : String :=
  "-radius: 3px;\n    padding: 3px;\n\x7d\n\n/* CheckBox and RadioButton */\nQCheckBox, QRadioButton \x7b\n    color: "

/-- Template fragment 26 of `_generate_default_qss`. -/
def qp26 : String :=
  ";\n    spacing: 5px;\n\x7d\n\nQCheckBox::indicator, QRadioButton::indicator \x7b\n    width: 16px;\n    height: 16px;\n    "

/-- Template fragment 27 of `_generate_default_qss`. -/
def qp27 : String :=
  ";\n    background-color: "

/-- Template fragment 28 of `_generate_default_qss`. -/
def qp28 : String :=
  ";\n\x7d\n\nQCheckBox::indicator:checked, QRadioButton::indicator:checked \x7b\n    background-color: "

/-- Template fragment 29 of `_generate_default_qss`. -/
def qp29 : String :=
  ";\n\x7d\n\n/* ProgressBar */\nQProgressBar \x7b\n    background-color: "

/-- Template fragment 30 of `_generate_default_qss`. -/
def qp30 : String :=
  "-radius: 3px;\n    text-align: center;\n\x7d\n\nQProgressBar::chunk \x7b\n    background-color: "

/-- Template fragment 31 of `_generate_default_qss`. -/
def qp31 : String :=
  "-radius: 2px;\n\x7d\n\n/* Slider */\nQSlider::groove:horizontal \x7b\n    background: "

/-- Template fragment 32 of `_generate_default_qss`. -/
def qp32 : String :=
  ";\n    height: 6px;\n    "

/-- Template fragment 33 of `_generate_default_qss`. -/
def qp33 : String :=
  "-radius: 3px;\n\x7d\n\nQSlider::handle:horizontal \x7b\n    background: "

/-- Template fragment 34 of `_generate_default_qss`. -/
def qp34 : String :=
  ";\n    width: 16px;\n    margin: -5px 0;\n    "

/-- Template fragment 35 of `_generate_default_qss`. -/
def qp35 : String :=
  "-radius: 8px;\n\x7d\n\n/* List, Tree, Table */\nQListWidget, QTreeWidget, QTableWidget \x7b\n    background-color: "

/-- Template fragment 36 of `_generate_default_qss`. -/
def qp36 : String :=
  ";\n    alternate-background-color: "

/-- Template fragment 37 of `_generate_default_qss`. -/
def qp37 : String :=
  ";\n\x7d\n\nQListWidget"

/-- Template fragment 38 of `_generate_default_qss`. -/
def qp38 : String :=
  "::item:selected"

/-- Template fragment 39 of `_generate_default_qss`. -/
def qp39 : String :=
  ", QTreeWidget"

/-- Template fragment 40 of `_generate_default_qss`. -/
def qp40 : String :=
  ", QTableWidget"

/-- Template fragment 41 of `_generate_default_qss`. -/
def qp41 : String :=
  ";\n\x7d\n\n/* TabWidget */\nQTabWidget::pane \x7b\n    "

/-- Template fragment 42 of `_generate_default_qss`. -/
def qp42 : String :=
  ";\n\x7d\n\nQTabBar::tab \x7b\n    background-color: "

/-- Template fragment 43 of `_generate_default_qss`. -/
def qp43 : String :=
  ";\n    padding: 6px 12px;\n\x7d\n\nQTabBar::tab:selected \x7b\n    background-color: "

/-- Template fragment 44 of `_generate_default_qss`. -/
def qp44 : String :=
  ";\n\x7d\n\n/* GroupBox */\nQGroupBox \x7b\n    "

/-- Template fragment 45 of `_generate_default_qss`. -/
def qp45 : String :=
  "-radius: 4px;\n    margin-top: 10px;\n    padding-top: 10px;\n    color: "

/-- Template fragment 46 of `_generate_default_qss`. -/
def qp46 : String :=
  ";\n\x7d\n\nQGroupBox::title \x7b\n    subcontrol-origin: margin;\n    subcontrol-position: top left;\n    padding: 0 5px;\n    color: "

/-- Template fragment 47 of `_generate_default_qss`. -/
def qp47 : String :=
  ";\n\x7d\n\n/* MenuBar and Menu */\nQMenuBar \x7b\n    background-color: "

/-- Template fragment 48 of `_generate_default_qss`. -/
def qp48 : String :=
  ";\n\x7d\n\nQMenuBar"

/-- Template fragment 49 of `_generate_default_qss`. -/
def qp49 : String :=
  ";\n\x7d\n\nQMenu \x7b\n    background-color: "

/-- Template fragment 50 of `_generate_default_qss`. -/
def qp50 : String :=
  ";\n\x7d\n\nQMenu"

/-- Template fragment 51 of `_generate_default_qss`. -/
def qp51 : String :=
  ";\n\x7d\n\n/* StatusBar */\nQStatusBar \x7b\n    background-color: "

/-- Template fragment 52 of `_generate_default_qss`. -/
def qp52 : String :=
  "-top: 1px solid "

/-- Template fragment 53 of `_generate_default_qss`. -/
def qp53 : String :=
  ";\n\x7d\n\n/* ScrollBar */\nQScrollBar:vertical \x7b\n    background: "

/-- Template fragment 54 of `_generate_default_qss`. -/
def qp54 : String :=
  ";\n    width: 12px;\n    "

/-- Template fragment 55 of `_generate_default_qss`. -/
def qp55 : String :=
  ";\n\x7d\n\nQScrollBar::handle:vertical \x7b\n    background: "

/-- Template fragment 56 of `_generate_default_qss`. -/
def qp56 : String :=
  ";\n    min-height: 20px;\n    "

/-- Template fragment 57 of `_generate_default_qss`. -/
def qp57 : String :=
  "-radius: 4px;\n\x7d\n\nQScrollBar::add-line:vertical, QScrollBar::sub-line:vertical \x7b\n    height: 0px;\n\x7d\n"

end ThemeEd

/-- `QSSPalette._generate_default_qss` (modules/theme_data.py, lines 185-402):
the fixed QSS template with the eight palette roles spliced in.  The
template text is split into the `ThemeEd.qp·` fragments (the concatenation
below restores it verbatim; see `generate_qss_default_value`). -/
def QSSPalette.generate_default_qss (p : QSSPalette) : String :=
  ThemeEd.qp0 ++ (ThemeEd.qp1 ++ (ThemeEd.qp2 ++ (p.background ++ (ThemeEd.qp3 ++ (p.foreground ++ (ThemeEd.qp4 ++ (ThemeEd.qp5 ++ (ThemeEd.qp2 ++ (p.primary ++ (ThemeEd.qp3 ++ (p.background ++ (ThemeEd.qp6 ++ (ThemeEd.qp7 ++ (ThemeEd.qp8 ++ (p.border ++ (ThemeEd.qp6 ++ (ThemeEd.qp7 ++ (ThemeEd.qp9 ++ (ThemeEd.qp5 ++ (ThemeEd.qp10 ++ (ThemeEd.qp2 ++ (p.hover ++ (ThemeEd.qp3 ++ (p.foreground ++ (ThemeEd.qp11 ++ (ThemeEd.qp5 ++ (ThemeEd.qp12 ++ (p.selected ++ (ThemeEd.qp3 ++ (p.background ++ (ThemeEd.qp11 ++ (ThemeEd.qp5 ++ (ThemeEd.qp13 ++ (p.disabled ++ (ThemeEd.qp3 ++ (p.border ++ (ThemeEd.qp14 ++ (p.background ++ (ThemeEd.qp3 ++ (p.foreground ++ (ThemeEd.qp6 ++ (ThemeEd.qp7 ++ (ThemeEd.qp8 ++ (p.border ++ (ThemeEd.qp6 ++ (ThemeEd.qp7 ++ (ThemeEd.qp15 ++ (ThemeEd.qp7 ++ (ThemeEd.qp16 ++ (p.primary ++ (ThemeEd.qp17 ++ (p.background ++ (ThemeEd.qp3 ++ (p.foreground ++ (ThemeEd.qp6 ++ (ThemeEd.qp7 ++ (ThemeEd.qp8 ++ (p.border ++ (ThemeEd.qp6 ++ (ThemeEd.qp7 ++ (ThemeEd.qp18 ++ (ThemeEd.qp10 ++ (ThemeEd.qp19 ++ (ThemeEd.qp7 ++ (ThemeEd.qp8 ++ (p.primary ++ (ThemeEd.qp20 ++ (ThemeEd.qp7 ++ (ThemeEd.qp21 ++ (p.background ++ (ThemeEd.qp3 ++ (p.foreground ++ (ThemeEd.qp22 ++ (p.selected ++ (ThemeEd.qp23 ++ (p.background ++ (ThemeEd.qp24 ++ (p.background ++ (ThemeEd.qp3 ++ (p.foreground ++ (ThemeEd.qp6 ++ (ThemeEd.qp7 ++ (ThemeEd.qp8 ++ (p.border ++ (ThemeEd.qp6 ++ (ThemeEd.qp7 ++ (ThemeEd.qp25 ++ (p.foreground ++ (ThemeEd.qp26 ++ (ThemeEd.qp7 ++ (ThemeEd.qp8 ++ (p.border ++ (ThemeEd.qp27 ++ (p.background ++ (ThemeEd.qp28 ++ (p.primary ++ (ThemeEd.qp29 ++ (p.background ++ (ThemeEd.qp6 ++ (ThemeEd.qp7 ++ (ThemeEd.qp8 ++ (p.border ++ (ThemeEd.qp6 ++ (ThemeEd.qp7 ++ (ThemeEd.qp30 ++ (p.primary ++ (ThemeEd.qp6 ++ (ThemeEd.qp7 ++ (ThemeEd.qp31 ++ (p.border ++ (ThemeEd.qp32 ++ (ThemeEd.qp7 ++ (ThemeEd.qp33 ++ (p.primary ++ (ThemeEd.qp34 ++ (ThemeEd.qp7 ++ (ThemeEd.qp35 ++ (p.background ++ (ThemeEd.qp3 ++ (p.foreground ++ (ThemeEd.qp6 ++ (ThemeEd.qp7 ++ (ThemeEd.qp8 ++ (p.border ++ (ThemeEd.qp36 ++ (p.hover ++ (ThemeEd.qp37 ++ (ThemeEd.qp38 ++ (ThemeEd.qp39 ++ (ThemeEd.qp38 ++ (ThemeEd.qp40 ++ (ThemeEd.qp38 ++ (ThemeEd.qp2 ++ (p.selected ++ (ThemeEd.qp3 ++ (p.background ++ (ThemeEd.qp41 ++ (ThemeEd.qp7 ++ (ThemeEd.qp8 ++ (p.border ++ (ThemeEd.qp27 ++ (p.background ++ (ThemeEd.qp42 ++ (p.hover ++ (ThemeEd.qp3 ++ (p.foreground ++ (ThemeEd.qp6 ++ (ThemeEd.qp7 ++ (ThemeEd.qp8 ++ (p.border ++ (ThemeEd.qp43 ++ (p.primary ++ (ThemeEd.qp3 ++ (p.background ++ (ThemeEd.qp44 ++ (ThemeEd.qp7 ++ (ThemeEd.qp8 ++ (p.border ++ (ThemeEd.qp6 ++ (ThemeEd.qp7 ++ (ThemeEd.qp45 ++ (p.foreground ++ (ThemeEd.qp46 ++ (p.foreground ++ (ThemeEd.qp47 ++ (p.background ++ (ThemeEd.qp3 ++ (p.foreground ++ (ThemeEd.qp48 ++ (ThemeEd.qp38 ++ (ThemeEd.qp2 ++ (p.hover ++ (ThemeEd.qp49 ++ (p.background ++ (ThemeEd.qp3 ++ (p.foreground ++ (ThemeEd.qp6 ++ (ThemeEd.qp7 ++ (ThemeEd.qp8 ++ (p.border ++ (ThemeEd.qp50 ++ (ThemeEd.qp38 ++ (ThemeEd.qp2 ++ (p.selected ++ (ThemeEd.qp3 ++ (p.background ++ (ThemeEd.qp51 ++ (p.background ++ (ThemeEd.qp3 ++ (p.foreground ++ (ThemeEd.qp6 ++ (ThemeEd.qp7 ++ (ThemeEd.qp52 ++ (p.border ++ (ThemeEd.qp53 ++ (p.background ++ (ThemeEd.qp54 ++ (ThemeEd.qp7 ++ (ThemeEd.qp8 ++ (p.border ++ (ThemeEd.qp55 ++ (p.primary ++ (ThemeEd.qp56 ++ (ThemeEd.qp7 ++ (ThemeEd.qp57)))))))))))))))))))))))))))))))))))))))))))))))))))))))))))))))))))))))))))))))))))))))))))))))))))))))))))))))))))))))))))))))))))))))))))))))))))))))))))))))))))))))))))))))))))))))))))))))))))))))))))))

/-- `_generate_material_qss` returns the default stylesheet (source comment:
simplified). -/
def QSSPalette.generate_material_qss (p : QSSPalette) : String :=
  p.generate_default_qss

/-- `_generate_flat_qss` returns the default stylesheet. -/
def QSSPalette.generate_flat_qss (p : QSSPalette) : String :=
  p.generate_default_qss

/-- `_generate_classic_qss` returns the default stylesheet. -/
def QSSPalette.generate_classic_qss (p : QSSPalette) : String :=
  p.generate_default_qss

/-- `QSSPalette.generate_qss` (lines 171-183) with its template argument. -/
def QSSPalette.generate_qss_with (p : QSSPalette) (template : String) : String :=
  if template = "material" then p.generate_material_qss
  else if template = "flat" then p.generate_flat_qss
  else if template = "classic" then p.generate_classic_qss
  else p.generate_default_qss

/-- `p.generate_qss()` with the default `template='default'` argument. -/
def QSSPalette.generate_qss (p : QSSPalette) : String :=
  p.generate_qss_with "default"

namespace ThemeEd

/-- The character stream of the generated stylesheet, with the six hex
digits of each spliced palette field abstracted. -/
def qssDocData (b1 b2 b3 b4 b5 b6 f1 f2 f3 f4 f5 f6 p1 p2 p3 p4 p5 p6 r1 r2 r3 r4 r5 r6 h1 h2 h3 h4 h5 h6 s1 s2 s3 s4 s5 s6 a1 a2 a3 a4 a5 a6 : Char) : List Char :=
  (qp0.data) ++ ((qp1.data) ++ ((qp2.data) ++ (['#', b1, b2, b3, b4, b5, b6] ++ ((qp3.data) ++ (['#', f1, f2, f3, f4, f5, f6] ++ ((qp4.data) ++ ((qp5.data) ++ ((qp2.data) ++ (['#', p1, p2, p3, p4, p5, p6] ++ ((qp3.data) ++ (['#', b1, b2, b3, b4, b5, b6] ++ ((qp6.data) ++ ((qp7.data) ++ ((qp8.data) ++ (['#', r1, r2, r3, r4, r5, r6] ++ ((qp6.data) ++ ((qp7.data) ++ ((qp9.data) ++ ((qp5.data) ++ ((qp10.data) ++ ((qp2.data) ++ (['#', h1, h2, h3, h4, h5, h6] ++ ((qp3.data) ++ (['#', f1, f2, f3, f4, f5, f6] ++ ((qp11.data) ++ ((qp5.data) ++ ((qp12.data) ++ (['#', s1, s2, s3, s4, s5, s6] ++ ((qp3.data) ++ (['#', b1, b2, b3, b4, b5, b6] ++ ((qp11.data) ++ ((qp5.data) ++ ((qp13.data) ++ (['#', a1, a2, a3, a4, a5, a6] ++ ((qp3.data) ++ (['#', r1, r2, r3, r4, r5, r6] ++ ((qp14.data) ++ (['#', b1, b2, b3, b4, b5, b6] ++ ((qp3.data) ++ (['#', f1, f2, f3, f4, f5, f6] ++ ((qp6.data) ++ ((qp7.data) ++ ((qp8.data) ++ (['#', r1, r2, r3, r4, r5, r6] ++ ((qp6.data) ++ ((qp7.data) ++ ((qp15.data) ++ ((qp7.data) ++ ((qp16.data) ++ (['#', p1, p2, p3, p4, p5, p6] ++ ((qp17.data) ++ (['#', b1, b2, b3, b4, b5, b6] ++ ((qp3.data) ++ (['#', f1, f2, f3, f4, f5, f6] ++ ((qp6.data) ++ ((qp7.data) ++ ((qp8.data) ++ (['#', r1, r2, r3, r4, r5, r6] ++ ((qp6.data) ++ ((qp7.data) ++ ((qp18.data) ++ ((qp10.data) ++ ((qp19.data) ++ ((qp7.data) ++ ((qp8.data) ++ (['#', p1, p2, p3, p4, p5, p6] ++ ((qp20.data) ++ ((qp7.data) ++ ((qp21.data) ++ (['#', b1, b2, b3, b4, b5, b6] ++ ((qp3.data) ++ (['#', f1, f2, f3, f4, f5, f6] ++ ((qp22.data) ++ (['#', s1, s2, s3, s4, s5, s6] ++ ((qp23.data) ++ (['#', b1, b2, b3, b4, b5, b6] ++ ((qp24.data) ++ (['#', b1, b2, b3, b4, b5, b6] ++ ((qp3.data) ++ (['#', f1, f2, f3, f4, f5, f6] ++ ((qp6.data) ++ ((qp7.data) ++ ((qp8.data) ++ (['#', r1, r2, r3, r4, r5, r6] ++ ((qp6.data) ++ ((qp7.data) ++ ((qp25.data) ++ (['#', f1, f2, f3, f4, f5, f6] ++ ((qp26.data) ++ ((qp7.data) ++ ((qp8.data) ++ (['#', r1, r2, r3, r4, r5, r6] ++ ((qp27.data) ++ (['#', b1, b2, b3, b4, b5, b6] ++ ((qp28.data) ++ (['#', p1, p2, p3, p4, p5, p6] ++ ((qp29.data) ++ (['#', b1, b2, b3, b4, b5, b6] ++ ((qp6.data) ++ ((qp7.data) ++ ((qp8.data) ++ (['#', r1, r2, r3, r4, r5, r6] ++ ((qp6.data) ++ ((qp7.data) ++ ((qp30.data) ++ (['#', p1, p2, p3, p4, p5, p6] ++ ((qp6.data) ++ ((qp7.data) ++ ((qp31.data) ++ (['#', r1, r2, r3, r4, r5, r6] ++ ((qp32.data) ++ ((qp7.data) ++ ((qp33.data) ++ (['#', p1, p2, p3, p4, p5, p6] ++ ((qp34.data) ++ ((qp7.data) ++ ((qp35.data) ++ (['#', b1, b2, b3, b4, b5, b6] ++ ((qp3.data) ++ (['#', f1, f2, f3, f4, f5, f6] ++ ((qp6.data) ++ ((qp7.data) ++ ((qp8.data) ++ (['#', r1, r2, r3, r4, r5, r6] ++ ((qp36.data) ++ (['#', h1, h2, h3, h4, h5, h6] ++ ((qp37.data) ++ ((qp38.data) ++ ((qp39.data) ++ ((qp38.data) ++ ((qp40.data) ++ ((qp38.data) ++ ((qp2.data) ++ (['#', s1, s2, s3, s4, s5, s6] ++ ((qp3.data) ++ (['#', b1, b2, b3, b4, b5, b6] ++ ((qp41.data) ++ ((qp7.data) ++ ((qp8.data) ++ (['#', r1, r2, r3, r4, r5, r6] ++ ((qp27.data) ++ (['#', b1, b2, b3, b4, b5, b6] ++ ((qp42.data) ++ (['#', h1, h2, h3, h4, h5, h6] ++ ((qp3.data) ++ (['#', f1, f2, f3, f4, f5, f6] ++ ((qp6.data) ++ ((qp7.data) ++ ((qp8.data) ++ (['#', r1, r2, r3, r4, r5, r6] ++ ((qp43.data) ++ (['#', p1, p2, p3, p4, p5, p6] ++ ((qp3.data) ++ (['#', b1, b2, b3, b4, b5, b6] ++ ((qp44.data) ++ ((qp7.data) ++ ((qp8.data) ++ (['#', r1, r2, r3, r4, r5, r6] ++ ((qp6.data) ++ ((qp7.data) ++ ((qp45.data) ++ (['#', f1, f2, f3, f4, f5, f6] ++ ((qp46.data) ++ (['#', f1, f2, f3, f4, f5, f6] ++ ((qp47.data) ++ (['#', b1, b2, b3, b4, b5, b6] ++ ((qp3.data) ++ (['#', f1, f2, f3, f4, f5, f6] ++ ((qp48.data) ++ ((qp38.data) ++ ((qp2.data) ++ (['#', h1, h2, h3, h4, h5, h6] ++ ((qp49.data) ++ (['#', b1, b2, b3, b4, b5, b6] ++ ((qp3.data) ++ (['#', f1, f2, f3, f4, f5, f6] ++ ((qp6.data) ++ ((qp7.data) ++ ((qp8.data) ++ (['#', r1, r2, r3, r4, r5, r6] ++ ((qp50.data) ++ ((qp38.data) ++ ((qp2.data) ++ (['#', s1, s2, s3, s4, s5, s6] ++ ((qp3.data) ++ (['#', b1, b2, b3, b4, b5, b6] ++ ((qp51.data) ++ (['#', b1, b2, b3, b4, b5, b6] ++ ((qp3.data) ++ (['#', f1, f2, f3, f4, f5, f6] ++ ((qp6.data) ++ ((qp7.data) ++ ((qp52.data) ++ (['#', r1, r2, r3, r4, r5, r6] ++ ((qp53.data) ++ (['#', b1, b2, b3, b4, b5, b6] ++ ((qp54.data) ++ ((qp7.data) ++ ((qp8.data) ++ (['#', r1, r2, r3, r4, r5, r6] ++ ((qp55.data) ++ (['#', p1, p2, p3, p4, p5, p6] ++ ((qp56.data) ++ ((qp7.data) ++ ((qp57.data))))))))))))))))))))))))))))))))))))))))))))))))))))))))))))))))))))))))))))))))))))))))))))))))))))))))))))))))))))))))))))))))))))))))))))))))))))))))))))))))))))))))))))))))))))))))))))))))))))))))))))))

end ThemeEd

namespace ThemeEd

set_option maxHeartbeats 1000000 in
theorem searchWidgetBg_gen
    (b1 b2 b3 b4 b5 b6 f1 f2 f3 f4 f5 f6 p1 p2 p3 p4 p5 p6 r1 r2 r3 r4 r5 r6 h1 h2 h3 h4 h5 h6 s1 s2 s3 s4 s5 s6 a1 a2 a3 a4 a5 a6 : Char)
    (hb1 : isUpperHexCh b1 = true) (hb2 : isUpperHexCh b2 = true) (hb3 : isUpperHexCh b3 = true) (hb4 : isUpperHexCh b4 = true) (hb5 : isUpperHexCh b5 = true) (hb6 : isUpperHexCh b6 = true)
    (hf1 : isUpperHexCh f1 = true) (hf2 : isUpperHexCh f2 = true) (hf3 : isUpperHexCh f3 = true) (hf4 : isUpperHexCh f4 = true) (hf5 : isUpperHexCh f5 = true) (hf6 : isUpperHexCh f6 = true)
    (hp1 : isUpperHexCh p1 = true) (hp2 : isUpperHexCh p2 = true) (hp3 : isUpperHexCh p3 = true) (hp4 : isUpperHexCh p4 = true) (hp5 : isUpperHexCh p5 = true) (hp6 : isUpperHexCh p6 = true)
    (hr1 : isUpperHexCh r1 = true) (hr2 : isUpperHexCh r2 = true) (hr3 : isUpperHexCh r3 = true) (hr4 : isUpperHexCh r4 = true) (hr5 : isUpperHexCh r5 = true) (hr6 : isUpperHexCh r6 = true)
    (hh1 : isUpperHexCh h1 = true) (hh2 : isUpperHexCh h2 = true) (hh3 : isUpperHexCh h3 = true) (hh4 : isUpperHexCh h4 = true) (hh5 : isUpperHexCh h5 = true) (hh6 : isUpperHexCh h6 = true)
    (hs1 : isUpperHexCh s1 = true) (hs2 : isUpperHexCh s2 = true) (hs3 : isUpperHexCh s3 = true) (hs4 : isUpperHexCh s4 = true) (hs5 : isUpperHexCh s5 = true) (hs6 : isUpperHexCh s6 = true)
    (ha1 : isUpperHexCh a1 = true) (ha2 : isUpperHexCh a2 = true) (ha3 : isUpperHexCh a3 = true) (ha4 : isUpperHexCh a4 = true) (ha5 : isUpperHexCh a5 = true) (ha6 : isUpperHexCh a6 = true)
    : searchWidgetBg (qssDocData b1 b2 b3 b4 b5 b6 f1 f2 f3 f4 f5 f6 p1 p2 p3 p4 p5 p6 r1 r2 r3 r4 r5 r6 h1 h2 h3 h4 h5 h6 s1 s2 s3 s4 s5 s6 a1 a2 a3 a4 a5 a6) = some ['#', b1, b2, b3, b4, b5, b6] := by
  unfold qssDocData searchWidgetBg
  have sk0 : ∀ rr, reSearch (blockMatcher ("QWidget".data) ("background-color:".data)) (qp0.data ++ rr) = reSearch (blockMatcher ("QWidget".data) ("background-color:".data)) rr :=
    fun rr => reSearch_skipClear _ ("QWidget".data) (blockMatcher_none ("QWidget".data) ("background-color:".data)) (qp0.data) rr (by decide)
  have hdwU : ∀ rr, dropWs (qp2.data ++ rr) = '\x7b' :: ((("\n    background-color: " : String).data) ++ rr) := fun rr => by
    rw [show (qp2.data ++ rr) = (' ' :: ('\x7b' :: ((("\n    background-color: " : String).data) ++ rr))) from rfl]
    rw [dropWs_cons_ws ' ' _ (by decide), dropWs_cons_not '\x7b' _ (by decide)]
  have hitU : ∀ rr, scanBlockLast ("background-color:".data) rr = none →
      scanBlockLast ("background-color:".data) ((("\n    background-color: " : String).data) ++ (['#', b1, b2, b3, b4, b5, b6] ++ rr)) = some ['#', b1, b2, b3, b4, b5, b6] := fun rr hrr => by
    have hnone : scanBlockLast ("background-color:".data) ((("ackground-color:" : String).data) ++ (' ' :: (['#', b1, b2, b3, b4, b5, b6] ++ rr))) = none := by
      rw [show ((("ackground-color:" : String).data) ++ (' ' :: (['#', b1, b2, b3, b4, b5, b6] ++ rr))) = ((("ackground-color: " : String).data) ++ (['#', b1, b2, b3, b4, b5, b6] ++ rr)) from rfl]
      rw [scanBlockLast_skip_piece ("background-color:".data) ((("ackground-color: " : String).data)) _ (by decide) (by decide)]
      rw [scanBlockLast_skip_piece ("background-color:".data) (['#', b1, b2, b3, b4, b5, b6]) _
        (clearB_hexToken ("background-color:".data) 'b' ("ackground-color:".data) rfl (by decide) (fun c hc => (isUpperHexCh_facts c hc).2.2.1) b1 b2 b3 b4 b5 b6 hb1 hb2 hb3 hb4 hb5 hb6) (mem_hexToken_ne_rbrace b1 b2 b3 b4 b5 b6 hb1 hb2 hb3 hb4 hb5 hb6)]
      exact hrr
    have hatt : matchHex6 (dropWs (' ' :: (['#', b1, b2, b3, b4, b5, b6] ++ rr))) = some ['#', b1, b2, b3, b4, b5, b6] := by
      rw [dropWs_cons_ws ' ' _ (by decide)]
      rw [show (['#', b1, b2, b3, b4, b5, b6] ++ rr) = ('#' :: b1 :: b2 :: b3 :: b4 :: b5 :: b6 :: rr) from rfl]
      rw [dropWs_cons_not '#' _ (by decide)]
      exact matchHex6_token b1 b2 b3 b4 b5 b6 (isUpperHexCh_facts b1 hb1).2.2.2.2.2.2.2.1 (isUpperHexCh_facts b2 hb2).2.2.2.2.2.2.2.1 (isUpperHexCh_facts b3 hb3).2.2.2.2.2.2.2.1 (isUpperHexCh_facts b4 hb4).2.2.2.2.2.2.2.1 (isUpperHexCh_facts b5 hb5).2.2.2.2.2.2.2.1 (isUpperHexCh_facts b6 hb6).2.2.2.2.2.2.2.1 _
    have he0 : scanBlockLast ("background-color:".data) ("background-color:".data ++ (' ' :: (['#', b1, b2, b3, b4, b5, b6] ++ rr))) = some ['#', b1, b2, b3, b4, b5, b6] :=
      scanBlockLast_hit ("background-color:".data) (by decide) (by decide) _ hnone hatt
    have he1 : scanBlockLast ("background-color:".data) ((("\n    " : String).data) ++ ("background-color:".data ++ (' ' :: (['#', b1, b2, b3, b4, b5, b6] ++ rr)))) = some ['#', b1, b2, b3, b4, b5, b6] :=
      scanBlockLast_some_extend ("background-color:".data) _ _ _ (by decide) he0
    rw [show ((("\n    background-color: " : String).data) ++ (['#', b1, b2, b3, b4, b5, b6] ++ rr)) = ((("\n    " : String).data) ++ ("background-color:".data ++ (' ' :: (['#', b1, b2, b3, b4, b5, b6] ++ rr)))) from rfl]
    exact he1
  simp only [sk0]
  refine reSearch_hit _ _ _ ?_
  refine blockMatcher_hit ("QWidget".data) ("background-color:".data) _ _ _ (hdwU _) (hitU _ ?_)
  have tl3 : ∀ rr, scanBlockLast ("background-color:".data) (qp3.data ++ rr) = scanBlockLast ("background-color:".data) rr := fun rr =>
    scanBlockLast_skip_piece ("background-color:".data) _ rr (by decide) (by decide)
  have tlff : ∀ rr, scanBlockLast ("background-color:".data) (['#', f1, f2, f3, f4, f5, f6] ++ rr) = scanBlockLast ("background-color:".data) rr := fun rr =>
    scanBlockLast_skip_piece ("background-color:".data) _ rr
      (clearB_hexToken ("background-color:".data) 'b' ("ackground-color:".data) rfl (by decide) (fun c hc => (isUpperHexCh_facts c hc).2.2.1) f1 f2 f3 f4 f5 f6 hf1 hf2 hf3 hf4 hf5 hf6) (mem_hexToken_ne_rbrace f1 f2 f3 f4 f5 f6 hf1 hf2 hf3 hf4 hf5 hf6)
  have tlend : ∀ rr, scanBlockLast ("background-color:".data) (qp4.data ++ rr) = none := fun rr => by
    rw [show (qp4.data ++ rr) = (((";\n    font-size: 10pt;\n" : String).data) ++ ('\x7d' :: ((("\n\n/* Buttons */\n" : String).data) ++ rr))) from rfl]
    exact scanBlockLast_none_piece ("background-color:".data) _ _ (by decide) (scanBlockLast_rbrace _ _)
  simp only [tl3, tlff, tlend]

set_option maxHeartbeats 1000000 in
theorem searchWidgetFg_gen
    (b1 b2 b3 b4 b5 b6 f1 f2 f3 f4 f5 f6 p1 p2 p3 p4 p5 p6 r1 r2 r3 r4 r5 r6 h1 h2 h3 h4 h5 h6 s1 s2 s3 s4 s5 s6 a1 a2 a3 a4 a5 a6 : Char)
    (hb1 : isUpperHexCh b1 = true) (hb2 : isUpperHexCh b2 = true) (hb3 : isUpperHexCh b3 = true) (hb4 : isUpperHexCh b4 = true) (hb5 : isUpperHexCh b5 = true) (hb6 : isUpperHexCh b6 = true)
    (hf1 : isUpperHexCh f1 = true) (hf2 : isUpperHexCh f2 = true) (hf3 : isUpperHexCh f3 = true) (hf4 : isUpperHexCh f4 = true) (hf5 : isUpperHexCh f5 = true) (hf6 : isUpperHexCh f6 = true)
    (hp1 : isUpperHexCh p1 = true) (hp2 : isUpperHexCh p2 = true) (hp3 : isUpperHexCh p3 = true) (hp4 : isUpperHexCh p4 = true) (hp5 : isUpperHexCh p5 = true) (hp6 : isUpperHexCh p6 = true)
    (hr1 : isUpperHexCh r1 = true) (hr2 : isUpperHexCh r2 = true) (hr3 : isUpperHexCh r3 = true) (hr4 : isUpperHexCh r4 = true) (hr5 : isUpperHexCh r5 = true) (hr6 : isUpperHexCh r6 = true)
    (hh1 : isUpperHexCh h1 = true) (hh2 : isUpperHexCh h2 = true) (hh3 : isUpperHexCh h3 = true) (hh4 : isUpperHexCh h4 = true) (hh5 : isUpperHexCh h5 = true) (hh6 : isUpperHexCh h6 = true)
    (hs1 : isUpperHexCh s1 = true) (hs2 : isUpperHexCh s2 = true) (hs3 : isUpperHexCh s3 = true) (hs4 : isUpperHexCh s4 = true) (hs5 : isUpperHexCh s5 = true) (hs6 : isUpperHexCh s6 = true)
    (ha1 : isUpperHexCh a1 = true) (ha2 : isUpperHexCh a2 = true) (ha3 : isUpperHexCh a3 = true) (ha4 : isUpperHexCh a4 = true) (ha5 : isUpperHexCh a5 = true) (ha6 : isUpperHexCh a6 = true)
    : searchWidgetFg (qssDocData b1 b2 b3 b4 b5 b6 f1 f2 f3 f4 f5 f6 p1 p2 p3 p4 p5 p6 r1 r2 r3 r4 r5 r6 h1 h2 h3 h4 h5 h6 s1 s2 s3 s4 s5 s6 a1 a2 a3 a4 a5 a6) = some ['#', f1, f2, f3, f4, f5, f6] := by
  unfold qssDocData searchWidgetFg
  have sk0 : ∀ rr, reSearch (blockMatcher ("QWidget".data) ("color:".data)) (qp0.data ++ rr) = reSearch (blockMatcher ("QWidget".data) ("color:".data)) rr :=
    fun rr => reSearch_skipClear _ ("QWidget".data) (blockMatcher_none ("QWidget".data) ("color:".data)) (qp0.data) rr (by decide)
  have hdwU : ∀ rr, dropWs (qp2.data ++ rr) = '\x7b' :: ((("\n    background-color: " : String).data) ++ rr) := fun rr => by
    rw [show (qp2.data ++ rr) = (' ' :: ('\x7b' :: ((("\n    background-color: " : String).data) ++ rr))) from rfl]
    rw [dropWs_cons_ws ' ' _ (by decide), dropWs_cons_not '\x7b' _ (by decide)]
  have hitU : ∀ rr, scanBlockLast ("color:".data) rr = none →
      scanBlockLast ("color:".data) ((("\n    background-color: " : String).data) ++ (['#', b1, b2, b3, b4, b5, b6] ++ ((qp3.data) ++ (['#', f1, f2, f3, f4, f5, f6] ++ rr)))) = some ['#', f1, f2, f3, f4, f5, f6] := fun rr hrr => by
    have hnone : scanBlockLast ("color:".data) ((("olor:" : String).data) ++ (' ' :: (['#', f1, f2, f3, f4, f5, f6] ++ rr))) = none := by
      rw [show ((("olor:" : String).data) ++ (' ' :: (['#', f1, f2, f3, f4, f5, f6] ++ rr))) = ((("olor: " : String).data) ++ (['#', f1, f2, f3, f4, f5, f6] ++ rr)) from rfl]
      rw [scanBlockLast_skip_piece ("color:".data) ((("olor: " : String).data)) _ (by decide) (by decide)]
      rw [scanBlockLast_skip_piece ("color:".data) (['#', f1, f2, f3, f4, f5, f6]) _
        (clearB_hexToken ("color:".data) 'c' ("olor:".data) rfl (by decide) (fun c hc => (isUpperHexCh_facts c hc).2.2.2.1) f1 f2 f3 f4 f5 f6 hf1 hf2 hf3 hf4 hf5 hf6) (mem_hexToken_ne_rbrace f1 f2 f3 f4 f5 f6 hf1 hf2 hf3 hf4 hf5 hf6)]
      exact hrr
    have hatt : matchHex6 (dropWs (' ' :: (['#', f1, f2, f3, f4, f5, f6] ++ rr))) = some ['#', f1, f2, f3, f4, f5, f6] := by
      rw [dropWs_cons_ws ' ' _ (by decide)]
      rw [show (['#', f1, f2, f3, f4, f5, f6] ++ rr) = ('#' :: f1 :: f2 :: f3 :: f4 :: f5 :: f6 :: rr) from rfl]
      rw [dropWs_cons_not '#' _ (by decide)]
      exact matchHex6_token f1 f2 f3 f4 f5 f6 (isUpperHexCh_facts f1 hf1).2.2.2.2.2.2.2.1 (isUpperHexCh_facts f2 hf2).2.2.2.2.2.2.2.1 (isUpperHexCh_facts f3 hf3).2.2.2.2.2.2.2.1 (isUpperHexCh_facts f4 hf4).2.2.2.2.2.2.2.1 (isUpperHexCh_facts f5 hf5).2.2.2.2.2.2.2.1 (isUpperHexCh_facts f6 hf6).2.2.2.2.2.2.2.1 _
    have he0 : scanBlockLast ("color:".data) ("color:".data ++ (' ' :: (['#', f1, f2, f3, f4, f5, f6] ++ rr))) = some ['#', f1, f2, f3, f4, f5, f6] :=
      scanBlockLast_hit ("color:".data) (by decide) (by decide) _ hnone hatt
    have he1 : scanBlockLast ("color:".data) (((";\n    " : String).data) ++ ("color:".data ++ (' ' :: (['#', f1, f2, f3, f4, f5, f6] ++ rr)))) = some ['#', f1, f2, f3, f4, f5, f6] :=
      scanBlockLast_some_extend ("color:".data) _ _ _ (by decide) he0
    have he2 : scanBlockLast ("color:".data) (['#', b1, b2, b3, b4, b5, b6] ++ (((";\n    " : String).data) ++ ("color:".data ++ (' ' :: (['#', f1, f2, f3, f4, f5, f6] ++ rr))))) = some ['#', f1, f2, f3, f4, f5, f6] :=
      scanBlockLast_some_extend ("color:".data) _ _ _ (mem_hexToken_ne_rbrace b1 b2 b3 b4 b5 b6 hb1 hb2 hb3 hb4 hb5 hb6) he1
    have he3 : scanBlockLast ("color:".data) ((("\n    background-color: " : String).data) ++ (['#', b1, b2, b3, b4, b5, b6] ++ (((";\n    " : String).data) ++ ("color:".data ++ (' ' :: (['#', f1, f2, f3, f4, f5, f6] ++ rr)))))) = some ['#', f1, f2, f3, f4, f5, f6] :=
      scanBlockLast_some_extend ("color:".data) _ _ _ (by decide) he2
    rw [show ((("\n    background-color: " : String).data) ++ (['#', b1, b2, b3, b4, b5, b6] ++ ((qp3.data) ++ (['#', f1, f2, f3, f4, f5, f6] ++ rr)))) = ((("\n    background-color: " : String).data) ++ (['#', b1, b2, b3, b4, b5, b6] ++ (((";\n    " : String).data) ++ ("color:".data ++ (' ' :: (['#', f1, f2, f3, f4, f5, f6] ++ rr)))))) from rfl]
    exact he3
  simp only [sk0]
  refine reSearch_hit _ _ _ ?_
  refine blockMatcher_hit ("QWidget".data) ("color:".data) _ _ _ (hdwU _) (hitU _ ?_)
  have tlend : ∀ rr, scanBlockLast ("color:".data) (qp4.data ++ rr) = none := fun rr => by
    rw [show (qp4.data ++ rr) = (((";\n    font-size: 10pt;\n" : String).data) ++ ('\x7d' :: ((("\n\n/* Buttons */\n" : String).data) ++ rr))) from rfl]
    exact scanBlockLast_none_piece ("color:".data) _ _ (by decide) (scanBlockLast_rbrace _ _)
  simp only [tlend]

set_option maxHeartbeats 1000000 in
theorem searchButtonBg_gen
    (b1 b2 b3 b4 b5 b6 f1 f2 f3 f4 f5 f6 p1 p2 p3 p4 p5 p6 r1 r2 r3 r4 r5 r6 h1 h2 h3 h4 h5 h6 s1 s2 s3 s4 s5 s6 a1 a2 a3 a4 a5 a6 : Char)
    (hb1 : isUpperHexCh b1 = true) (hb2 : isUpperHexCh b2 = true) (hb3 : isUpperHexCh b3 = true) (hb4 : isUpperHexCh b4 = true) (hb5 : isUpperHexCh b5 = true) (hb6 : isUpperHexCh b6 = true)
    (hf1 : isUpperHexCh f1 = true) (hf2 : isUpperHexCh f2 = true) (hf3 : isUpperHexCh f3 = true) (hf4 : isUpperHexCh f4 = true) (hf5 : isUpperHexCh f5 = true) (hf6 : isUpperHexCh f6 = true)
    (hp1 : isUpperHexCh p1 = true) (hp2 : isUpperHexCh p2 = true) (hp3 : isUpperHexCh p3 = true) (hp4 : isUpperHexCh p4 = true) (hp5 : isUpperHexCh p5 = true) (hp6 : isUpperHexCh p6 = true)
    (hr1 : isUpperHexCh r1 = true) (hr2 : isUpperHexCh r2 = true) (hr3 : isUpperHexCh r3 = true) (hr4 : isUpperHexCh r4 = true) (hr5 : isUpperHexCh r5 = true) (hr6 : isUpperHexCh r6 = true)
    (hh1 : isUpperHexCh h1 = true) (hh2 : isUpperHexCh h2 = true) (hh3 : isUpperHexCh h3 = true) (hh4 : isUpperHexCh h4 = true) (hh5 : isUpperHexCh h5 = true) (hh6 : isUpperHexCh h6 = true)
    (hs1 : isUpperHexCh s1 = true) (hs2 : isUpperHexCh s2 = true) (hs3 : isUpperHexCh s3 = true) (hs4 : isUpperHexCh s4 = true) (hs5 : isUpperHexCh s5 = true) (hs6 : isUpperHexCh s6 = true)
    (ha1 : isUpperHexCh a1 = true) (ha2 : isUpperHexCh a2 = true) (ha3 : isUpperHexCh a3 = true) (ha4 : isUpperHexCh a4 = true) (ha5 : isUpperHexCh a5 = true) (ha6 : isUpperHexCh a6 = true)
    : searchButtonBg (qssDocData b1 b2 b3 b4 b5 b6 f1 f2 f3 f4 f5 f6 p1 p2 p3 p4 p5 p6 r1 r2 r3 r4 r5 r6 h1 h2 h3 h4 h5 h6 s1 s2 s3 s4 s5 s6 a1 a2 a3 a4 a5 a6) = some ['#', p1, p2, p3, p4, p5, p6] := by
  unfold qssDocData searchButtonBg
  have sk0 : ∀ rr, reSearch (blockMatcher ("QPushButton".data) ("background-color:".data)) (qp0.data ++ rr) = reSearch (blockMatcher ("QPushButton".data) ("background-color:".data)) rr :=
    fun rr => reSearch_skipClear _ ("QPushButton".data) (blockMatcher_none ("QPushButton".data) ("background-color:".data)) (qp0.data) rr (by decide)
  have sk1 : ∀ rr, reSearch (blockMatcher ("QPushButton".data) ("background-color:".data)) (qp1.data ++ rr) = reSearch (blockMatcher ("QPushButton".data) ("background-color:".data)) rr :=
    fun rr => reSearch_skipClear _ ("QPushButton".data) (blockMatcher_none ("QPushButton".data) ("background-color:".data)) (qp1.data) rr (by decide)
  have sk2 : ∀ rr, reSearch (blockMatcher ("QPushButton".data) ("background-color:".data)) (qp2.data ++ rr) = reSearch (blockMatcher ("QPushButton".data) ("background-color:".data)) rr :=
    fun rr => reSearch_skipClear _ ("QPushButton".data) (blockMatcher_none ("QPushButton".data) ("background-color:".data)) (qp2.data) rr (by decide)
  have sk3 : ∀ rr, reSearch (blockMatcher ("QPushButton".data) ("background-color:".data)) (qp3.data ++ rr) = reSearch (blockMatcher ("QPushButton".data) ("background-color:".data)) rr :=
    fun rr => reSearch_skipClear _ ("QPushButton".data) (blockMatcher_none ("QPushButton".data) ("background-color:".data)) (qp3.data) rr (by decide)
  have sk4 : ∀ rr, reSearch (blockMatcher ("QPushButton".data) ("background-color:".data)) (qp4.data ++ rr) = reSearch (blockMatcher ("QPushButton".data) ("background-color:".data)) rr :=
    fun rr => reSearch_skipClear _ ("QPushButton".data) (blockMatcher_none ("QPushButton".data) ("background-color:".data)) (qp4.data) rr (by decide)
  have skfb : ∀ rr, reSearch (blockMatcher ("QPushButton".data) ("background-color:".data)) (['#', b1, b2, b3, b4, b5, b6] ++ rr) = reSearch (blockMatcher ("QPushButton".data) ("background-color:".data)) rr :=
    fun rr => reSearch_skipClear _ ("QPushButton".data) (blockMatcher_none ("QPushButton".data) ("background-color:".data)) (['#', b1, b2, b3, b4, b5, b6]) rr
      (clearB_hexToken ("QPushButton".data) 'Q' ("PushButton".data) rfl (by decide) (fun c hc => (isUpperHexCh_facts c hc).1) b1 b2 b3 b4 b5 b6 hb1 hb2 hb3 hb4 hb5 hb6)
  have skff : ∀ rr, reSearch (blockMatcher ("QPushButton".data) ("background-color:".data)) (['#', f1, f2, f3, f4, f5, f6] ++ rr) = reSearch (blockMatcher ("QPushButton".data) ("background-color:".data)) rr :=
    fun rr => reSearch_skipClear _ ("QPushButton".data) (blockMatcher_none ("QPushButton".data) ("background-color:".data)) (['#', f1, f2, f3, f4, f5, f6]) rr
      (clearB_hexToken ("QPushButton".data) 'Q' ("PushButton".data) rfl (by decide) (fun c hc => (isUpperHexCh_facts c hc).1) f1 f2 f3 f4 f5 f6 hf1 hf2 hf3 hf4 hf5 hf6)
  have hdwU : ∀ rr, dropWs (qp2.data ++ rr) = '\x7b' :: ((("\n    background-color: " : String).data) ++ rr) := fun rr => by
    rw [show (qp2.data ++ rr) = (' ' :: ('\x7b' :: ((("\n    background-color: " : String).data) ++ rr))) from rfl]
    rw [dropWs_cons_ws ' ' _ (by decide), dropWs_cons_not '\x7b' _ (by decide)]
  have hitU : ∀ rr, scanBlockLast ("background-color:".data) rr = none →
      scanBlockLast ("background-color:".data) ((("\n    background-color: " : String).data) ++ (['#', p1, p2, p3, p4, p5, p6] ++ rr)) = some ['#', p1, p2, p3, p4, p5, p6] := fun rr hrr => by
    have hnone : scanBlockLast ("background-color:".data) ((("ackground-color:" : String).data) ++ (' ' :: (['#', p1, p2, p3, p4, p5, p6] ++ rr))) = none := by
      rw [show ((("ackground-color:" : String).data) ++ (' ' :: (['#', p1, p2, p3, p4, p5, p6] ++ rr))) = ((("ackground-color: " : String).data) ++ (['#', p1, p2, p3, p4, p5, p6] ++ rr)) from rfl]
      rw [scanBlockLast_skip_piece ("background-color:".data) ((("ackground-color: " : String).data)) _ (by decide) (by decide)]
      rw [scanBlockLast_skip_piece ("background-color:".data) (['#', p1, p2, p3, p4, p5, p6]) _
        (clearB_hexToken ("background-color:".data) 'b' ("ackground-color:".data) rfl (by decide) (fun c hc => (isUpperHexCh_facts c hc).2.2.1) p1 p2 p3 p4 p5 p6 hp1 hp2 hp3 hp4 hp5 hp6) (mem_hexToken_ne_rbrace p1 p2 p3 p4 p5 p6 hp1 hp2 hp3 hp4 hp5 hp6)]
      exact hrr
    have hatt : matchHex6 (dropWs (' ' :: (['#', p1, p2, p3, p4, p5, p6] ++ rr))) = some ['#', p1, p2, p3, p4, p5, p6] := by
      rw [dropWs_cons_ws ' ' _ (by decide)]
      rw [show (['#', p1, p2, p3, p4, p5, p6] ++ rr) = ('#' :: p1 :: p2 :: p3 :: p4 :: p5 :: p6 :: rr) from rfl]
      rw [dropWs_cons_not '#' _ (by decide)]
      exact matchHex6_token p1 p2 p3 p4 p5 p6 (isUpperHexCh_facts p1 hp1).2.2.2.2.2.2.2.1 (isUpperHexCh_facts p2 hp2).2.2.2.2.2.2.2.1 (isUpperHexCh_facts p3 hp3).2.2.2.2.2.2.2.1 (isUpperHexCh_facts p4 hp4).2.2.2.2.2.2.2.1 (isUpperHexCh_facts p5 hp5).2.2.2.2.2.2.2.1 (isUpperHexCh_facts p6 hp6).2.2.2.2.2.2.2.1 _
    have he0 : scanBlockLast ("background-color:".data) ("background-color:".data ++ (' ' :: (['#', p1, p2, p3, p4, p5, p6] ++ rr))) = some ['#', p1, p2, p3, p4, p5, p6] :=
      scanBlockLast_hit ("background-color:".data) (by decide) (by decide) _ hnone hatt
    have he1 : scanBlockLast ("background-color:".data) ((("\n    " : String).data) ++ ("background-color:".data ++ (' ' :: (['#', p1, p2, p3, p4, p5, p6] ++ rr)))) = some ['#', p1, p2, p3, p4, p5, p6] :=
      scanBlockLast_some_extend ("background-color:".data) _ _ _ (by decide) he0
    rw [show ((("\n    background-color: " : String).data) ++ (['#', p1, p2, p3, p4, p5, p6] ++ rr)) = ((("\n    " : String).data) ++ ("background-color:".data ++ (' ' :: (['#', p1, p2, p3, p4, p5, p6] ++ rr)))) from rfl]
    exact he1
  simp only [sk0, sk1, sk2, sk3, sk4, skfb, skff]
  refine reSearch_hit _ _ _ ?_
  refine blockMatcher_hit ("QPushButton".data) ("background-color:".data) _ _ _ (hdwU _) (hitU _ ?_)
  have tl3 : ∀ rr, scanBlockLast ("background-color:".data) (qp3.data ++ rr) = scanBlockLast ("background-color:".data) rr := fun rr =>
    scanBlockLast_skip_piece ("background-color:".data) _ rr (by decide) (by decide)
  have tlfb : ∀ rr, scanBlockLast ("background-color:".data) (['#', b1, b2, b3, b4, b5, b6] ++ rr) = scanBlockLast ("background-color:".data) rr := fun rr =>
    scanBlockLast_skip_piece ("background-color:".data) _ rr
      (clearB_hexToken ("background-color:".data) 'b' ("ackground-color:".data) rfl (by decide) (fun c hc => (isUpperHexCh_facts c hc).2.2.1) b1 b2 b3 b4 b5 b6 hb1 hb2 hb3 hb4 hb5 hb6) (mem_hexToken_ne_rbrace b1 b2 b3 b4 b5 b6 hb1 hb2 hb3 hb4 hb5 hb6)
  have tl6 : ∀ rr, scanBlockLast ("background-color:".data) (qp6.data ++ rr) = scanBlockLast ("background-color:".data) rr := fun rr =>
    scanBlockLast_skip_piece ("background-color:".data) _ rr (by decide) (by decide)
  have tl7 : ∀ rr, scanBlockLast ("background-color:".data) (qp7.data ++ rr) = scanBlockLast ("background-color:".data) rr := fun rr =>
    scanBlockLast_skip_piece ("background-color:".data) _ rr (by decide) (by decide)
  have tl8 : ∀ rr, scanBlockLast ("background-color:".data) (qp8.data ++ rr) = scanBlockLast ("background-color:".data) rr := fun rr =>
    scanBlockLast_skip_piece ("background-color:".data) _ rr (by decide) (by decide)
  have tlfr : ∀ rr, scanBlockLast ("background-color:".data) (['#', r1, r2, r3, r4, r5, r6] ++ rr) = scanBlockLast ("background-color:".data) rr := fun rr =>
    scanBlockLast_skip_piece ("background-color:".data) _ rr
      (clearB_hexToken ("background-color:".data) 'b' ("ackground-color:".data) rfl (by decide) (fun c hc => (isUpperHexCh_facts c hc).2.2.1) r1 r2 r3 r4 r5 r6 hr1 hr2 hr3 hr4 hr5 hr6) (mem_hexToken_ne_rbrace r1 r2 r3 r4 r5 r6 hr1 hr2 hr3 hr4 hr5 hr6)
  have tlend : ∀ rr, scanBlockLast ("background-color:".data) (qp9.data ++ rr) = none := fun rr => by
    rw [show (qp9.data ++ rr) = ((("-radius: 4px;\n    padding: 5px 15px;\n    min-width: 80px;\n" : String).data) ++ ('\x7d' :: ((("\n\n" : String).data) ++ rr))) from rfl]
    exact scanBlockLast_none_piece ("background-color:".data) _ _ (by decide) (scanBlockLast_rbrace _ _)
  simp only [tl3, tlfb, tl6, tl7, tl8, tlfr, tlend]

set_option maxHeartbeats 1000000 in
theorem searchHoverBg_gen
    (b1 b2 b3 b4 b5 b6 f1 f2 f3 f4 f5 f6 p1 p2 p3 p4 p5 p6 r1 r2 r3 r4 r5 r6 h1 h2 h3 h4 h5 h6 s1 s2 s3 s4 s5 s6 a1 a2 a3 a4 a5 a6 : Char)
    (hb1 : isUpperHexCh b1 = true) (hb2 : isUpperHexCh b2 = true) (hb3 : isUpperHexCh b3 = true) (hb4 : isUpperHexCh b4 = true) (hb5 : isUpperHexCh b5 = true) (hb6 : isUpperHexCh b6 = true)
    (hf1 : isUpperHexCh f1 = true) (hf2 : isUpperHexCh f2 = true) (hf3 : isUpperHexCh f3 = true) (hf4 : isUpperHexCh f4 = true) (hf5 : isUpperHexCh f5 = true) (hf6 : isUpperHexCh f6 = true)
    (hp1 : isUpperHexCh p1 = true) (hp2 : isUpperHexCh p2 = true) (hp3 : isUpperHexCh p3 = true) (hp4 : isUpperHexCh p4 = true) (hp5 : isUpperHexCh p5 = true) (hp6 : isUpperHexCh p6 = true)
    (hr1 : isUpperHexCh r1 = true) (hr2 : isUpperHexCh r2 = true) (hr3 : isUpperHexCh r3 = true) (hr4 : isUpperHexCh r4 = true) (hr5 : isUpperHexCh r5 = true) (hr6 : isUpperHexCh r6 = true)
    (hh1 : isUpperHexCh h1 = true) (hh2 : isUpperHexCh h2 = true) (hh3 : isUpperHexCh h3 = true) (hh4 : isUpperHexCh h4 = true) (hh5 : isUpperHexCh h5 = true) (hh6 : isUpperHexCh h6 = true)
    (hs1 : isUpperHexCh s1 = true) (hs2 : isUpperHexCh s2 = true) (hs3 : isUpperHexCh s3 = true) (hs4 : isUpperHexCh s4 = true) (hs5 : isUpperHexCh s5 = true) (hs6 : isUpperHexCh s6 = true)
    (ha1 : isUpperHexCh a1 = true) (ha2 : isUpperHexCh a2 = true) (ha3 : isUpperHexCh a3 = true) (ha4 : isUpperHexCh a4 = true) (ha5 : isUpperHexCh a5 = true) (ha6 : isUpperHexCh a6 = true)
    : searchHoverBg (qssDocData b1 b2 b3 b4 b5 b6 f1 f2 f3 f4 f5 f6 p1 p2 p3 p4 p5 p6 r1 r2 r3 r4 r5 r6 h1 h2 h3 h4 h5 h6 s1 s2 s3 s4 s5 s6 a1 a2 a3 a4 a5 a6) = some ['#', h1, h2, h3, h4, h5, h6] := by
  unfold qssDocData searchHoverBg
  have sk0 : ∀ rr, reSearch (blockMatcher (":hover".data) ("background-color:".data)) (qp0.data ++ rr) = reSearch (blockMatcher (":hover".data) ("background-color:".data)) rr :=
    fun rr => reSearch_skipClear _ (":hover".data) (blockMatcher_none (":hover".data) ("background-color:".data)) (qp0.data) rr (by decide)
  have sk1 : ∀ rr, reSearch (blockMatcher (":hover".data) ("background-color:".data)) (qp1.data ++ rr) = reSearch (blockMatcher (":hover".data) ("background-color:".data)) rr :=
    fun rr => reSearch_skipClear _ (":hover".data) (blockMatcher_none (":hover".data) ("background-color:".data)) (qp1.data) rr (by decide)
  have sk2 : ∀ rr, reSearch (blockMatcher (":hover".data) ("background-color:".data)) (qp2.data ++ rr) = reSearch (blockMatcher (":hover".data) ("background-color:".data)) rr :=
    fun rr => reSearch_skipClear _ (":hover".data) (blockMatcher_none (":hover".data) ("background-color:".data)) (qp2.data) rr (by decide)
  have sk3 : ∀ rr, reSearch (blockMatcher (":hover".data) ("background-color:".data)) (qp3.data ++ rr) = reSearch (blockMatcher (":hover".data) ("background-color:".data)) rr :=
    fun rr => reSearch_skipClear _ (":hover".data) (blockMatcher_none (":hover".data) ("background-color:".data)) (qp3.data) rr (by decide)
  have sk4 : ∀ rr, reSearch (blockMatcher (":hover".data) ("background-color:".data)) (qp4.data ++ rr) = reSearch (blockMatcher (":hover".data) ("background-color:".data)) rr :=
    fun rr => reSearch_skipClear _ (":hover".data) (blockMatcher_none (":hover".data) ("background-color:".data)) (qp4.data) rr (by decide)
  have sk5 : ∀ rr, reSearch (blockMatcher (":hover".data) ("background-color:".data)) (qp5.data ++ rr) = reSearch (blockMatcher (":hover".data) ("background-color:".data)) rr :=
    fun rr => reSearch_skipClear _ (":hover".data) (blockMatcher_none (":hover".data) ("background-color:".data)) (qp5.data) rr (by decide)
  have sk6 : ∀ rr, reSearch (blockMatcher (":hover".data) ("background-color:".data)) (qp6.data ++ rr) = reSearch (blockMatcher (":hover".data) ("background-color:".data)) rr :=
    fun rr => reSearch_skipClear _ (":hover".data) (blockMatcher_none (":hover".data) ("background-color:".data)) (qp6.data) rr (by decide)
  have sk7 : ∀ rr, reSearch (blockMatcher (":hover".data) ("background-color:".data)) (qp7.data ++ rr) = reSearch (blockMatcher (":hover".data) ("background-color:".data)) rr :=
    fun rr => reSearch_skipClear _ (":hover".data) (blockMatcher_none (":hover".data) ("background-color:".data)) (qp7.data) rr (by decide)
  have sk8 : ∀ rr, reSearch (blockMatcher (":hover".data) ("background-color:".data)) (qp8.data ++ rr) = reSearch (blockMatcher (":hover".data) ("background-color:".data)) rr :=
    fun rr => reSearch_skipClear _ (":hover".data) (blockMatcher_none (":hover".data) ("background-color:".data)) (qp8.data) rr (by decide)
  have sk9 : ∀ rr, reSearch (blockMatcher (":hover".data) ("background-color:".data)) (qp9.data ++ rr) = reSearch (blockMatcher (":hover".data) ("background-color:".data)) rr :=
    fun rr => reSearch_skipClear _ (":hover".data) (blockMatcher_none (":hover".data) ("background-color:".data)) (qp9.data) rr (by decide)
  have skfb : ∀ rr, reSearch (blockMatcher (":hover".data) ("background-color:".data)) (['#', b1, b2, b3, b4, b5, b6] ++ rr) = reSearch (blockMatcher (":hover".data) ("background-color:".data)) rr :=
    fun rr => reSearch_skipClear _ (":hover".data) (blockMatcher_none (":hover".data) ("background-color:".data)) (['#', b1, b2, b3, b4, b5, b6]) rr
      (clearB_hexToken (":hover".data) ':' ("hover".data) rfl (by decide) (fun c hc => (isUpperHexCh_facts c hc).2.1) b1 b2 b3 b4 b5 b6 hb1 hb2 hb3 hb4 hb5 hb6)
  have skff : ∀ rr, reSearch (blockMatcher (":hover".data) ("background-color:".data)) (['#', f1, f2, f3, f4, f5, f6] ++ rr) = reSearch (blockMatcher (":hover".data) ("background-color:".data)) rr :=
    fun rr => reSearch_skipClear _ (":hover".data) (blockMatcher_none (":hover".data) ("background-color:".data)) (['#', f1, f2, f3, f4, f5, f6]) rr
      (clearB_hexToken (":hover".data) ':' ("hover".data) rfl (by decide) (fun c hc => (isUpperHexCh_facts c hc).2.1) f1 f2 f3 f4 f5 f6 hf1 hf2 hf3 hf4 hf5 hf6)
  have skfp : ∀ rr, reSearch (blockMatcher (":hover".data) ("background-color:".data)) (['#', p1, p2, p3, p4, p5, p6] ++ rr) = reSearch (blockMatcher (":hover".data) ("background-color:".data)) rr :=
    fun rr => reSearch_skipClear _ (":hover".data) (blockMatcher_none (":hover".data) ("background-color:".data)) (['#', p1, p2, p3, p4, p5, p6]) rr
      (clearB_hexToken (":hover".data) ':' ("hover".data) rfl (by decide) (fun c hc => (isUpperHexCh_facts c hc).2.1) p1 p2 p3 p4 p5 p6 hp1 hp2 hp3 hp4 hp5 hp6)
  have skfr : ∀ rr, reSearch (blockMatcher (":hover".data) ("background-color:".data)) (['#', r1, r2, r3, r4, r5, r6] ++ rr) = reSearch (blockMatcher (":hover".data) ("background-color:".data)) rr :=
    fun rr => reSearch_skipClear _ (":hover".data) (blockMatcher_none (":hover".data) ("background-color:".data)) (['#', r1, r2, r3, r4, r5, r6]) rr
      (clearB_hexToken (":hover".data) ':' ("hover".data) rfl (by decide) (fun c hc => (isUpperHexCh_facts c hc).2.1) r1 r2 r3 r4 r5 r6 hr1 hr2 hr3 hr4 hr5 hr6)
  have hdwU : ∀ rr, dropWs (qp2.data ++ rr) = '\x7b' :: ((("\n    background-color: " : String).data) ++ rr) := fun rr => by
    rw [show (qp2.data ++ rr) = (' ' :: ('\x7b' :: ((("\n    background-color: " : String).data) ++ rr))) from rfl]
    rw [dropWs_cons_ws ' ' _ (by decide), dropWs_cons_not '\x7b' _ (by decide)]
  have hitU : ∀ rr, scanBlockLast ("background-color:".data) rr = none →
      scanBlockLast ("background-color:".data) ((("\n    background-color: " : String).data) ++ (['#', h1, h2, h3, h4, h5, h6] ++ rr)) = some ['#', h1, h2, h3, h4, h5, h6] := fun rr hrr => by
    have hnone : scanBlockLast ("background-color:".data) ((("ackground-color:" : String).data) ++ (' ' :: (['#', h1, h2, h3, h4, h5, h6] ++ rr))) = none := by
      rw [show ((("ackground-color:" : String).data) ++ (' ' :: (['#', h1, h2, h3, h4, h5, h6] ++ rr))) = ((("ackground-color: " : String).data) ++ (['#', h1, h2, h3, h4, h5, h6] ++ rr)) from rfl]
      rw [scanBlockLast_skip_piece ("background-color:".data) ((("ackground-color: " : String).data)) _ (by decide) (by decide)]
      rw [scanBlockLast_skip_piece ("background-color:".data) (['#', h1, h2, h3, h4, h5, h6]) _
        (clearB_hexToken ("background-color:".data) 'b' ("ackground-color:".data) rfl (by decide) (fun c hc => (isUpperHexCh_facts c hc).2.2.1) h1 h2 h3 h4 h5 h6 hh1 hh2 hh3 hh4 hh5 hh6) (mem_hexToken_ne_rbrace h1 h2 h3 h4 h5 h6 hh1 hh2 hh3 hh4 hh5 hh6)]
      exact hrr
    have hatt : matchHex6 (dropWs (' ' :: (['#', h1, h2, h3, h4, h5, h6] ++ rr))) = some ['#', h1, h2, h3, h4, h5, h6] := by
      rw [dropWs_cons_ws ' ' _ (by decide)]
      rw [show (['#', h1, h2, h3, h4, h5, h6] ++ rr) = ('#' :: h1 :: h2 :: h3 :: h4 :: h5 :: h6 :: rr) from rfl]
      rw [dropWs_cons_not '#' _ (by decide)]
      exact matchHex6_token h1 h2 h3 h4 h5 h6 (isUpperHexCh_facts h1 hh1).2.2.2.2.2.2.2.1 (isUpperHexCh_facts h2 hh2).2.2.2.2.2.2.2.1 (isUpperHexCh_facts h3 hh3).2.2.2.2.2.2.2.1 (isUpperHexCh_facts h4 hh4).2.2.2.2.2.2.2.1 (isUpperHexCh_facts h5 hh5).2.2.2.2.2.2.2.1 (isUpperHexCh_facts h6 hh6).2.2.2.2.2.2.2.1 _
    have he0 : scanBlockLast ("background-color:".data) ("background-color:".data ++ (' ' :: (['#', h1, h2, h3, h4, h5, h6] ++ rr))) = some ['#', h1, h2, h3, h4, h5, h6] :=
      scanBlockLast_hit ("background-color:".data) (by decide) (by decide) _ hnone hatt
    have he1 : scanBlockLast ("background-color:".data) ((("\n    " : String).data) ++ ("background-color:".data ++ (' ' :: (['#', h1, h2, h3, h4, h5, h6] ++ rr)))) = some ['#', h1, h2, h3, h4, h5, h6] :=
      scanBlockLast_some_extend ("background-color:".data) _ _ _ (by decide) he0
    rw [show ((("\n    background-color: " : String).data) ++ (['#', h1, h2, h3, h4, h5, h6] ++ rr)) = ((("\n    " : String).data) ++ ("background-color:".data ++ (' ' :: (['#', h1, h2, h3, h4, h5, h6] ++ rr)))) from rfl]
    exact he1
  simp only [sk0, sk1, sk2, sk3, sk4, sk5, sk6, sk7, sk8, sk9, skfb, skff, skfp, skfr]
  refine reSearch_hit _ _ _ ?_
  refine blockMatcher_hit (":hover".data) ("background-color:".data) _ _ _ (hdwU _) (hitU _ ?_)
  have tl3 : ∀ rr, scanBlockLast ("background-color:".data) (qp3.data ++ rr) = scanBlockLast ("background-color:".data) rr := fun rr =>
    scanBlockLast_skip_piece ("background-color:".data) _ rr (by decide) (by decide)
  have tlff : ∀ rr, scanBlockLast ("background-color:".data) (['#', f1, f2, f3, f4, f5, f6] ++ rr) = scanBlockLast ("background-color:".data) rr := fun rr =>
    scanBlockLast_skip_piece ("background-color:".data) _ rr
      (clearB_hexToken ("background-color:".data) 'b' ("ackground-color:".data) rfl (by decide) (fun c hc => (isUpperHexCh_facts c hc).2.2.1) f1 f2 f3 f4 f5 f6 hf1 hf2 hf3 hf4 hf5 hf6) (mem_hexToken_ne_rbrace f1 f2 f3 f4 f5 f6 hf1 hf2 hf3 hf4 hf5 hf6)
  have tlend : ∀ rr, scanBlockLast ("background-color:".data) (qp11.data ++ rr) = none := fun rr => by
    rw [show (qp11.data ++ rr) = (((";\n" : String).data) ++ ('\x7d' :: ((("\n\n" : String).data) ++ rr))) from rfl]
    exact scanBlockLast_none_piece ("background-color:".data) _ _ (by decide) (scanBlockLast_rbrace _ _)
  simp only [tl3, tlff, tlend]

set_option maxHeartbeats 1000000 in
theorem searchSelectedBg_gen
    (b1 b2 b3 b4 b5 b6 f1 f2 f3 f4 f5 f6 p1 p2 p3 p4 p5 p6 r1 r2 r3 r4 r5 r6 h1 h2 h3 h4 h5 h6 s1 s2 s3 s4 s5 s6 a1 a2 a3 a4 a5 a6 : Char)
    (hb1 : isUpperHexCh b1 = true) (hb2 : isUpperHexCh b2 = true) (hb3 : isUpperHexCh b3 = true) (hb4 : isUpperHexCh b4 = true) (hb5 : isUpperHexCh b5 = true) (hb6 : isUpperHexCh b6 = true)
    (hf1 : isUpperHexCh f1 = true) (hf2 : isUpperHexCh f2 = true) (hf3 : isUpperHexCh f3 = true) (hf4 : isUpperHexCh f4 = true) (hf5 : isUpperHexCh f5 = true) (hf6 : isUpperHexCh f6 = true)
    (hp1 : isUpperHexCh p1 = true) (hp2 : isUpperHexCh p2 = true) (hp3 : isUpperHexCh p3 = true) (hp4 : isUpperHexCh p4 = true) (hp5 : isUpperHexCh p5 = true) (hp6 : isUpperHexCh p6 = true)
    (hr1 : isUpperHexCh r1 = true) (hr2 : isUpperHexCh r2 = true) (hr3 : isUpperHexCh r3 = true) (hr4 : isUpperHexCh r4 = true) (hr5 : isUpperHexCh r5 = true) (hr6 : isUpperHexCh r6 = true)
    (hh1 : isUpperHexCh h1 = true) (hh2 : isUpperHexCh h2 = true) (hh3 : isUpperHexCh h3 = true) (hh4 : isUpperHexCh h4 = true) (hh5 : isUpperHexCh h5 = true) (hh6 : isUpperHexCh h6 = true)
    (hs1 : isUpperHexCh s1 = true) (hs2 : isUpperHexCh s2 = true) (hs3 : isUpperHexCh s3 = true) (hs4 : isUpperHexCh s4 = true) (hs5 : isUpperHexCh s5 = true) (hs6 : isUpperHexCh s6 = true)
    (ha1 : isUpperHexCh a1 = true) (ha2 : isUpperHexCh a2 = true) (ha3 : isUpperHexCh a3 = true) (ha4 : isUpperHexCh a4 = true) (ha5 : isUpperHexCh a5 = true) (ha6 : isUpperHexCh a6 = true)
    : searchSelectedBg (qssDocData b1 b2 b3 b4 b5 b6 f1 f2 f3 f4 f5 f6 p1 p2 p3 p4 p5 p6 r1 r2 r3 r4 r5 r6 h1 h2 h3 h4 h5 h6 s1 s2 s3 s4 s5 s6 a1 a2 a3 a4 a5 a6) = some ['#', s1, s2, s3, s4, s5, s6] := by
  unfold qssDocData searchSelectedBg
  have sk0 : ∀ rr, reSearch (blockMatcher ("::item:selected".data) ("background-color:".data)) (qp0.data ++ rr) = reSearch (blockMatcher ("::item:selected".data) ("background-color:".data)) rr :=
    fun rr => reSearch_skipClear _ ("::item:selected".data) (blockMatcher_none ("::item:selected".data) ("background-color:".data)) (qp0.data) rr (by decide)
  have sk1 : ∀ rr, reSearch (blockMatcher ("::item:selected".data) ("background-color:".data)) (qp1.data ++ rr) = reSearch (blockMatcher ("::item:selected".data) ("background-color:".data)) rr :=
    fun rr => reSearch_skipClear _ ("::item:selected".data) (blockMatcher_none ("::item:selected".data) ("background-color:".data)) (qp1.data) rr (by decide)
  have sk2 : ∀ rr, reSearch (blockMatcher ("::item:selected".data) ("background-color:".data)) (qp2.data ++ rr) = reSearch (blockMatcher ("::item:selected".data) ("background-color:".data)) rr :=
    fun rr => reSearch_skipClear _ ("::item:selected".data) (blockMatcher_none ("::item:selected".data) ("background-color:".data)) (qp2.data) rr (by decide)
  have sk3 : ∀ rr, reSearch (blockMatcher ("::item:selected".data) ("background-color:".data)) (qp3.data ++ rr) = reSearch (blockMatcher ("::item:selected".data) ("background-color:".data)) rr :=
    fun rr => reSearch_skipClear _ ("::item:selected".data) (blockMatcher_none ("::item:selected".data) ("background-color:".data)) (qp3.data) rr (by decide)
  have sk4 : ∀ rr, reSearch (blockMatcher ("::item:selected".data) ("background-color:".data)) (qp4.data ++ rr) = reSearch (blockMatcher ("::item:selected".data) ("background-color:".data)) rr :=
    fun rr => reSearch_skipClear _ ("::item:selected".data) (blockMatcher_none ("::item:selected".data) ("background-color:".data)) (qp4.data) rr (by decide)
  have sk5 : ∀ rr, reSearch (blockMatcher ("::item:selected".data) ("background-color:".data)) (qp5.data ++ rr) = reSearch (blockMatcher ("::item:selected".data) ("background-color:".data)) rr :=
    fun rr => reSearch_skipClear _ ("::item:selected".data) (blockMatcher_none ("::item:selected".data) ("background-color:".data)) (qp5.data) rr (by decide)
  have sk6 : ∀ rr, reSearch (blockMatcher ("::item:selected".data) ("background-color:".data)) (qp6.data ++ rr) = reSearch (blockMatcher ("::item:selected".data) ("background-color:".data)) rr :=
    fun rr => reSearch_skipClear _ ("::item:selected".data) (blockMatcher_none ("::item:selected".data) ("background-color:".data)) (qp6.data) rr (by decide)
  have sk7 : ∀ rr, reSearch (blockMatcher ("::item:selected".data) ("background-color:".data)) (qp7.data ++ rr) = reSearch (blockMatcher ("::item:selected".data) ("background-color:".data)) rr :=
    fun rr => reSearch_skipClear _ ("::item:selected".data) (blockMatcher_none ("::item:selected".data) ("background-color:".data)) (qp7.data) rr (by decide)
  have sk8 : ∀ rr, reSearch (blockMatcher ("::item:selected".data) ("background-color:".data)) (qp8.data ++ rr) = reSearch (blockMatcher ("::item:selected".data) ("background-color:".data)) rr :=
    fun rr => reSearch_skipClear _ ("::item:selected".data) (blockMatcher_none ("::item:selected".data) ("background-color:".data)) (qp8.data) rr (by decide)
  have sk9 : ∀ rr, reSearch (blockMatcher ("::item:selected".data) ("background-color:".data)) (qp9.data ++ rr) = reSearch (blockMatcher ("::item:selected".data) ("background-color:".data)) rr :=
    fun rr => reSearch_skipClear _ ("::item:selected".data) (blockMatcher_none ("::item:selected".data) ("background-color:".data)) (qp9.data) rr (by decide)
  have sk10 : ∀ rr, reSearch (blockMatcher ("::item:selected".data) ("background-color:".data)) (qp10.data ++ rr) = reSearch (blockMatcher ("::item:selected".data) ("background-color:".data)) rr :=
    fun rr => reSearch_skipClear _ ("::item:selected".data) (blockMatcher_none ("::item:selected".data) ("background-color:".data)) (qp10.data) rr (by decide)
  have sk11 : ∀ rr, reSearch (blockMatcher ("::item:selected".data) ("background-color:".data)) (qp11.data ++ rr) = reSearch (blockMatcher ("::item:selected".data) ("background-color:".data)) rr :=
    fun rr => reSearch_skipClear _ ("::item:selected".data) (blockMatcher_none ("::item:selected".data) ("background-color:".data)) (qp11.data) rr (by decide)
  have sk12 : ∀ rr, reSearch (blockMatcher ("::item:selected".data) ("background-color:".data)) (qp12.data ++ rr) = reSearch (blockMatcher ("::item:selected".data) ("background-color:".data)) rr :=
    fun rr => reSearch_skipClear _ ("::item:selected".data) (blockMatcher_none ("::item:selected".data) ("background-color:".data)) (qp12.data) rr (by decide)
  have sk13 : ∀ rr, reSearch (blockMatcher ("::item:selected".data) ("background-color:".data)) (qp13.data ++ rr) = reSearch (blockMatcher ("::item:selected".data) ("background-color:".data)) rr :=
    fun rr => reSearch_skipClear _ ("::item:selected".data) (blockMatcher_none ("::item:selected".data) ("background-color:".data)) (qp13.data) rr (by decide)
  have sk14 : ∀ rr, reSearch (blockMatcher ("::item:selected".data) ("background-color:".data)) (qp14.data ++ rr) = reSearch (blockMatcher ("::item:selected".data) ("background-color:".data)) rr :=
    fun rr => reSearch_skipClear _ ("::item:selected".data) (blockMatcher_none ("::item:selected".data) ("background-color:".data)) (qp14.data) rr (by decide)
  have sk15 : ∀ rr, reSearch (blockMatcher ("::item:selected".data) ("background-color:".data)) (qp15.data ++ rr) = reSearch (blockMatcher ("::item:selected".data) ("background-color:".data)) rr :=
    fun rr => reSearch_skipClear _ ("::item:selected".data) (blockMatcher_none ("::item:selected".data) ("background-color:".data)) (qp15.data) rr (by decide)
  have sk16 : ∀ rr, reSearch (blockMatcher ("::item:selected".data) ("background-color:".data)) (qp16.data ++ rr) = reSearch (blockMatcher ("::item:selected".data) ("background-color:".data)) rr :=
    fun rr => reSearch_skipClear _ ("::item:selected".data) (blockMatcher_none ("::item:selected".data) ("background-color:".data)) (qp16.data) rr (by decide)
  have sk17 : ∀ rr, reSearch (blockMatcher ("::item:selected".data) ("background-color:".data)) (qp17.data ++ rr) = reSearch (blockMatcher ("::item:selected".data) ("background-color:".data)) rr :=
    fun rr => reSearch_skipClear _ ("::item:selected".data) (blockMatcher_none ("::item:selected".data) ("background-color:".data)) (qp17.data) rr (by decide)
  have sk18 : ∀ rr, reSearch (blockMatcher ("::item:selected".data) ("background-color:".data)) (qp18.data ++ rr) = reSearch (blockMatcher ("::item:selected".data) ("background-color:".data)) rr :=
    fun rr => reSearch_skipClear _ ("::item:selected".data) (blockMatcher_none ("::item:selected".data) ("background-color:".data)) (qp18.data) rr (by decide)
  have sk19 : ∀ rr, reSearch (blockMatcher ("::item:selected".data) ("background-color:".data)) (qp19.data ++ rr) = reSearch (blockMatcher ("::item:selected".data) ("background-color:".data)) rr :=
    fun rr => reSearch_skipClear _ ("::item:selected".data) (blockMatcher_none ("::item:selected".data) ("background-color:".data)) (qp19.data) rr (by decide)
  have sk20 : ∀ rr, reSearch (blockMatcher ("::item:selected".data) ("background-color:".data)) (qp20.data ++ rr) = reSearch (blockMatcher ("::item:selected".data) ("background-color:".data)) rr :=
    fun rr => reSearch_skipClear _ ("::item:selected".data) (blockMatcher_none ("::item:selected".data) ("background-color:".data)) (qp20.data) rr (by decide)
  have sk21 : ∀ rr, reSearch (blockMatcher ("::item:selected".data) ("background-color:".data)) (qp21.data ++ rr) = reSearch (blockMatcher ("::item:selected".data) ("background-color:".data)) rr :=
    fun rr => reSearch_skipClear _ ("::item:selected".data) (blockMatcher_none ("::item:selected".data) ("background-color:".data)) (qp21.data) rr (by decide)
  have sk22 : ∀ rr, reSearch (blockMatcher ("::item:selected".data) ("background-color:".data)) (qp22.data ++ rr) = reSearch (blockMatcher ("::item:selected".data) ("background-color:".data)) rr :=
    fun rr => reSearch_skipClear _ ("::item:selected".data) (blockMatcher_none ("::item:selected".data) ("background-color:".data)) (qp22.data) rr (by decide)
  have sk23 : ∀ rr, reSearch (blockMatcher ("::item:selected".data) ("background-color:".data)) (qp23.data ++ rr) = reSearch (blockMatcher ("::item:selected".data) ("background-color:".data)) rr :=
    fun rr => reSearch_skipClear _ ("::item:selected".data) (blockMatcher_none ("::item:selected".data) ("background-color:".data)) (qp23.data) rr (by decide)
  have sk24 : ∀ rr, reSearch (blockMatcher ("::item:selected".data) ("background-color:".data)) (qp24.data ++ rr) = reSearch (blockMatcher ("::item:selected".data) ("background-color:".data)) rr :=
    fun rr => reSearch_skipClear _ ("::item:selected".data) (blockMatcher_none ("::item:selected".data) ("background-color:".data)) (qp24.data) rr (by decide)
  have sk25 : ∀ rr, reSearch (blockMatcher ("::item:selected".data) ("background-color:".data)) (qp25.data ++ rr) = reSearch (blockMatcher ("::item:selected".data) ("background-color:".data)) rr :=
    fun rr => reSearch_skipClear _ ("::item:selected".data) (blockMatcher_none ("::item:selected".data) ("background-color:".data)) (qp25.data) rr (by decide)
  have sk26 : ∀ rr, reSearch (blockMatcher ("::item:selected".data) ("background-color:".data)) (qp26.data ++ rr) = reSearch (blockMatcher ("::item:selected".data) ("background-color:".data)) rr :=
    fun rr => reSearch_skipClear _ ("::item:selected".data) (blockMatcher_none ("::item:selected".data) ("background-color:".data)) (qp26.data) rr (by decide)
  have sk27 : ∀ rr, reSearch (blockMatcher ("::item:selected".data) ("background-color:".data)) (qp27.data ++ rr) = reSearch (blockMatcher ("::item:selected".data) ("background-color:".data)) rr :=
    fun rr => reSearch_skipClear _ ("::item:selected".data) (blockMatcher_none ("::item:selected".data) ("background-color:".data)) (qp27.data) rr (by decide)
  have sk28 : ∀ rr, reSearch (blockMatcher ("::item:selected".data) ("background-color:".data)) (qp28.data ++ rr) = reSearch (blockMatcher ("::item:selected".data) ("background-color:".data)) rr :=
    fun rr => reSearch_skipClear _ ("::item:selected".data) (blockMatcher_none ("::item:selected".data) ("background-color:".data)) (qp28.data) rr (by decide)
  have sk29 : ∀ rr, reSearch (blockMatcher ("::item:selected".data) ("background-color:".data)) (qp29.data ++ rr) = reSearch (blockMatcher ("::item:selected".data) ("background-color:".data)) rr :=
    fun rr => reSearch_skipClear _ ("::item:selected".data) (blockMatcher_none ("::item:selected".data) ("background-color:".data)) (qp29.data) rr (by decide)
  have sk30 : ∀ rr, reSearch (blockMatcher ("::item:selected".data) ("background-color:".data)) (qp30.data ++ rr) = reSearch (blockMatcher ("::item:selected".data) ("background-color:".data)) rr :=
    fun rr => reSearch_skipClear _ ("::item:selected".data) (blockMatcher_none ("::item:selected".data) ("background-color:".data)) (qp30.data) rr (by decide)
  have sk31 : ∀ rr, reSearch (blockMatcher ("::item:selected".data) ("background-color:".data)) (qp31.data ++ rr) = reSearch (blockMatcher ("::item:selected".data) ("background-color:".data)) rr :=
    fun rr => reSearch_skipClear _ ("::item:selected".data) (blockMatcher_none ("::item:selected".data) ("background-color:".data)) (qp31.data) rr (by decide)
  have sk32 : ∀ rr, reSearch (blockMatcher ("::item:selected".data) ("background-color:".data)) (qp32.data ++ rr) = reSearch (blockMatcher ("::item:selected".data) ("background-color:".data)) rr :=
    fun rr => reSearch_skipClear _ ("::item:selected".data) (blockMatcher_none ("::item:selected".data) ("background-color:".data)) (qp32.data) rr (by decide)
  have sk33 : ∀ rr, reSearch (blockMatcher ("::item:selected".data) ("background-color:".data)) (qp33.data ++ rr) = reSearch (blockMatcher ("::item:selected".data) ("background-color:".data)) rr :=
    fun rr => reSearch_skipClear _ ("::item:selected".data) (blockMatcher_none ("::item:selected".data) ("background-color:".data)) (qp33.data) rr (by decide)
  have sk34 : ∀ rr, reSearch (blockMatcher ("::item:selected".data) ("background-color:".data)) (qp34.data ++ rr) = reSearch (blockMatcher ("::item:selected".data) ("background-color:".data)) rr :=
    fun rr => reSearch_skipClear _ ("::item:selected".data) (blockMatcher_none ("::item:selected".data) ("background-color:".data)) (qp34.data) rr (by decide)
  have sk35 : ∀ rr, reSearch (blockMatcher ("::item:selected".data) ("background-color:".data)) (qp35.data ++ rr) = reSearch (blockMatcher ("::item:selected".data) ("background-color:".data)) rr :=
    fun rr => reSearch_skipClear _ ("::item:selected".data) (blockMatcher_none ("::item:selected".data) ("background-color:".data)) (qp35.data) rr (by decide)
  have sk36 : ∀ rr, reSearch (blockMatcher ("::item:selected".data) ("background-color:".data)) (qp36.data ++ rr) = reSearch (blockMatcher ("::item:selected".data) ("background-color:".data)) rr :=
    fun rr => reSearch_skipClear _ ("::item:selected".data) (blockMatcher_none ("::item:selected".data) ("background-color:".data)) (qp36.data) rr (by decide)
  have sk37 : ∀ rr, reSearch (blockMatcher ("::item:selected".data) ("background-color:".data)) (qp37.data ++ rr) = reSearch (blockMatcher ("::item:selected".data) ("background-color:".data)) rr :=
    fun rr => reSearch_skipClear _ ("::item:selected".data) (blockMatcher_none ("::item:selected".data) ("background-color:".data)) (qp37.data) rr (by decide)
  have sk39 : ∀ rr, reSearch (blockMatcher ("::item:selected".data) ("background-color:".data)) (qp39.data ++ rr) = reSearch (blockMatcher ("::item:selected".data) ("background-color:".data)) rr :=
    fun rr => reSearch_skipClear _ ("::item:selected".data) (blockMatcher_none ("::item:selected".data) ("background-color:".data)) (qp39.data) rr (by decide)
  have sk40 : ∀ rr, reSearch (blockMatcher ("::item:selected".data) ("background-color:".data)) (qp40.data ++ rr) = reSearch (blockMatcher ("::item:selected".data) ("background-color:".data)) rr :=
    fun rr => reSearch_skipClear _ ("::item:selected".data) (blockMatcher_none ("::item:selected".data) ("background-color:".data)) (qp40.data) rr (by decide)
  have skfb : ∀ rr, reSearch (blockMatcher ("::item:selected".data) ("background-color:".data)) (['#', b1, b2, b3, b4, b5, b6] ++ rr) = reSearch (blockMatcher ("::item:selected".data) ("background-color:".data)) rr :=
    fun rr => reSearch_skipClear _ ("::item:selected".data) (blockMatcher_none ("::item:selected".data) ("background-color:".data)) (['#', b1, b2, b3, b4, b5, b6]) rr
      (clearB_hexToken ("::item:selected".data) ':' (":item:selected".data) rfl (by decide) (fun c hc => (isUpperHexCh_facts c hc).2.1) b1 b2 b3 b4 b5 b6 hb1 hb2 hb3 hb4 hb5 hb6)
  have skff : ∀ rr, reSearch (blockMatcher ("::item:selected".data) ("background-color:".data)) (['#', f1, f2, f3, f4, f5, f6] ++ rr) = reSearch (blockMatcher ("::item:selected".data) ("background-color:".data)) rr :=
    fun rr => reSearch_skipClear _ ("::item:selected".data) (blockMatcher_none ("::item:selected".data) ("background-color:".data)) (['#', f1, f2, f3, f4, f5, f6]) rr
      (clearB_hexToken ("::item:selected".data) ':' (":item:selected".data) rfl (by decide) (fun c hc => (isUpperHexCh_facts c hc).2.1) f1 f2 f3 f4 f5 f6 hf1 hf2 hf3 hf4 hf5 hf6)
  have skfp : ∀ rr, reSearch (blockMatcher ("::item:selected".data) ("background-color:".data)) (['#', p1, p2, p3, p4, p5, p6] ++ rr) = reSearch (blockMatcher ("::item:selected".data) ("background-color:".data)) rr :=
    fun rr => reSearch_skipClear _ ("::item:selected".data) (blockMatcher_none ("::item:selected".data) ("background-color:".data)) (['#', p1, p2, p3, p4, p5, p6]) rr
      (clearB_hexToken ("::item:selected".data) ':' (":item:selected".data) rfl (by decide) (fun c hc => (isUpperHexCh_facts c hc).2.1) p1 p2 p3 p4 p5 p6 hp1 hp2 hp3 hp4 hp5 hp6)
  have skfr : ∀ rr, reSearch (blockMatcher ("::item:selected".data) ("background-color:".data)) (['#', r1, r2, r3, r4, r5, r6] ++ rr) = reSearch (blockMatcher ("::item:selected".data) ("background-color:".data)) rr :=
    fun rr => reSearch_skipClear _ ("::item:selected".data) (blockMatcher_none ("::item:selected".data) ("background-color:".data)) (['#', r1, r2, r3, r4, r5, r6]) rr
      (clearB_hexToken ("::item:selected".data) ':' (":item:selected".data) rfl (by decide) (fun c hc => (isUpperHexCh_facts c hc).2.1) r1 r2 r3 r4 r5 r6 hr1 hr2 hr3 hr4 hr5 hr6)
  have skfh : ∀ rr, reSearch (blockMatcher ("::item:selected".data) ("background-color:".data)) (['#', h1, h2, h3, h4, h5, h6] ++ rr) = reSearch (blockMatcher ("::item:selected".data) ("background-color:".data)) rr :=
    fun rr => reSearch_skipClear _ ("::item:selected".data) (blockMatcher_none ("::item:selected".data) ("background-color:".data)) (['#', h1, h2, h3, h4, h5, h6]) rr
      (clearB_hexToken ("::item:selected".data) ':' (":item:selected".data) rfl (by decide) (fun c hc => (isUpperHexCh_facts c hc).2.1) h1 h2 h3 h4 h5 h6 hh1 hh2 hh3 hh4 hh5 hh6)
  have skfs : ∀ rr, reSearch (blockMatcher ("::item:selected".data) ("background-color:".data)) (['#', s1, s2, s3, s4, s5, s6] ++ rr) = reSearch (blockMatcher ("::item:selected".data) ("background-color:".data)) rr :=
    fun rr => reSearch_skipClear _ ("::item:selected".data) (blockMatcher_none ("::item:selected".data) ("background-color:".data)) (['#', s1, s2, s3, s4, s5, s6]) rr
      (clearB_hexToken ("::item:selected".data) ':' (":item:selected".data) rfl (by decide) (fun c hc => (isUpperHexCh_facts c hc).2.1) s1 s2 s3 s4 s5 s6 hs1 hs2 hs3 hs4 hs5 hs6)
  have skfa : ∀ rr, reSearch (blockMatcher ("::item:selected".data) ("background-color:".data)) (['#', a1, a2, a3, a4, a5, a6] ++ rr) = reSearch (blockMatcher ("::item:selected".data) ("background-color:".data)) rr :=
    fun rr => reSearch_skipClear _ ("::item:selected".data) (blockMatcher_none ("::item:selected".data) ("background-color:".data)) (['#', a1, a2, a3, a4, a5, a6]) rr
      (clearB_hexToken ("::item:selected".data) ':' (":item:selected".data) rfl (by decide) (fun c hc => (isUpperHexCh_facts c hc).2.1) a1 a2 a3 a4 a5 a6 ha1 ha2 ha3 ha4 ha5 ha6)
  have fl0 : ∀ rr, reSearch (blockMatcher ("::item:selected".data) ("background-color:".data)) (qp38.data ++ (qp39.data ++ rr)) = reSearch (blockMatcher ("::item:selected".data) ("background-color:".data)) (qp39.data ++ rr) := fun rr => by
    have hf : blockMatcher ("::item:selected".data) ("background-color:".data) (':' :: (((":item:selected" : String).data) ++ (qp39.data ++ rr))) = none := by
      rw [show (':' :: (((":item:selected" : String).data) ++ (qp39.data ++ rr))) = (("::item:selected".data) ++ (',' :: (((" QTreeWidget" : String).data) ++ rr))) from rfl]
      exact blockMatcher_step_nonbrace ("::item:selected".data) ("background-color:".data) ',' _ (by decide) (by decide)
    rw [show (qp38.data ++ (qp39.data ++ rr)) = (':' :: (((":item:selected" : String).data) ++ (qp39.data ++ rr))) from rfl]
    rw [reSearch_step _ ':' _ hf]
    rw [reSearch_skipClear _ ("::item:selected".data) (blockMatcher_none ("::item:selected".data) ("background-color:".data)) (((":item:selected" : String).data)) _ (by decide)]
  have fl1 : ∀ rr, reSearch (blockMatcher ("::item:selected".data) ("background-color:".data)) (qp38.data ++ (qp40.data ++ rr)) = reSearch (blockMatcher ("::item:selected".data) ("background-color:".data)) (qp40.data ++ rr) := fun rr => by
    have hf : blockMatcher ("::item:selected".data) ("background-color:".data) (':' :: (((":item:selected" : String).data) ++ (qp40.data ++ rr))) = none := by
      rw [show (':' :: (((":item:selected" : String).data) ++ (qp40.data ++ rr))) = (("::item:selected".data) ++ (',' :: (((" QTableWidget" : String).data) ++ rr))) from rfl]
      exact blockMatcher_step_nonbrace ("::item:selected".data) ("background-color:".data) ',' _ (by decide) (by decide)
    rw [show (qp38.data ++ (qp40.data ++ rr)) = (':' :: (((":item:selected" : String).data) ++ (qp40.data ++ rr))) from rfl]
    rw [reSearch_step _ ':' _ hf]
    rw [reSearch_skipClear _ ("::item:selected".data) (blockMatcher_none ("::item:selected".data) ("background-color:".data)) (((":item:selected" : String).data)) _ (by decide)]
  have hdwU : ∀ rr, dropWs (qp2.data ++ rr) = '\x7b' :: ((("\n    background-color: " : String).data) ++ rr) := fun rr => by
    rw [show (qp2.data ++ rr) = (' ' :: ('\x7b' :: ((("\n    background-color: " : String).data) ++ rr))) from rfl]
    rw [dropWs_cons_ws ' ' _ (by decide), dropWs_cons_not '\x7b' _ (by decide)]
  have hitU : ∀ rr, scanBlockLast ("background-color:".data) rr = none →
      scanBlockLast ("background-color:".data) ((("\n    background-color: " : String).data) ++ (['#', s1, s2, s3, s4, s5, s6] ++ rr)) = some ['#', s1, s2, s3, s4, s5, s6] := fun rr hrr => by
    have hnone : scanBlockLast ("background-color:".data) ((("ackground-color:" : String).data) ++ (' ' :: (['#', s1, s2, s3, s4, s5, s6] ++ rr))) = none := by
      rw [show ((("ackground-color:" : String).data) ++ (' ' :: (['#', s1, s2, s3, s4, s5, s6] ++ rr))) = ((("ackground-color: " : String).data) ++ (['#', s1, s2, s3, s4, s5, s6] ++ rr)) from rfl]
      rw [scanBlockLast_skip_piece ("background-color:".data) ((("ackground-color: " : String).data)) _ (by decide) (by decide)]
      rw [scanBlockLast_skip_piece ("background-color:".data) (['#', s1, s2, s3, s4, s5, s6]) _
        (clearB_hexToken ("background-color:".data) 'b' ("ackground-color:".data) rfl (by decide) (fun c hc => (isUpperHexCh_facts c hc).2.2.1) s1 s2 s3 s4 s5 s6 hs1 hs2 hs3 hs4 hs5 hs6) (mem_hexToken_ne_rbrace s1 s2 s3 s4 s5 s6 hs1 hs2 hs3 hs4 hs5 hs6)]
      exact hrr
    have hatt : matchHex6 (dropWs (' ' :: (['#', s1, s2, s3, s4, s5, s6] ++ rr))) = some ['#', s1, s2, s3, s4, s5, s6] := by
      rw [dropWs_cons_ws ' ' _ (by decide)]
      rw [show (['#', s1, s2, s3, s4, s5, s6] ++ rr) = ('#' :: s1 :: s2 :: s3 :: s4 :: s5 :: s6 :: rr) from rfl]
      rw [dropWs_cons_not '#' _ (by decide)]
      exact matchHex6_token s1 s2 s3 s4 s5 s6 (isUpperHexCh_facts s1 hs1).2.2.2.2.2.2.2.1 (isUpperHexCh_facts s2 hs2).2.2.2.2.2.2.2.1 (isUpperHexCh_facts s3 hs3).2.2.2.2.2.2.2.1 (isUpperHexCh_facts s4 hs4).2.2.2.2.2.2.2.1 (isUpperHexCh_facts s5 hs5).2.2.2.2.2.2.2.1 (isUpperHexCh_facts s6 hs6).2.2.2.2.2.2.2.1 _
    have he0 : scanBlockLast ("background-color:".data) ("background-color:".data ++ (' ' :: (['#', s1, s2, s3, s4, s5, s6] ++ rr))) = some ['#', s1, s2, s3, s4, s5, s6] :=
      scanBlockLast_hit ("background-color:".data) (by decide) (by decide) _ hnone hatt
    have he1 : scanBlockLast ("background-color:".data) ((("\n    " : String).data) ++ ("background-color:".data ++ (' ' :: (['#', s1, s2, s3, s4, s5, s6] ++ rr)))) = some ['#', s1, s2, s3, s4, s5, s6] :=
      scanBlockLast_some_extend ("background-color:".data) _ _ _ (by decide) he0
    rw [show ((("\n    background-color: " : String).data) ++ (['#', s1, s2, s3, s4, s5, s6] ++ rr)) = ((("\n    " : String).data) ++ ("background-color:".data ++ (' ' :: (['#', s1, s2, s3, s4, s5, s6] ++ rr)))) from rfl]
    exact he1
  simp only [sk0, sk1, sk2, sk3, sk4, sk5, sk6, sk7, sk8, sk9, sk10, sk11, sk12, sk13, sk14, sk15, sk16, sk17, sk18, sk19, sk20, sk21, sk22, sk23, sk24, sk25, sk26, sk27, sk28, sk29, sk30, sk31, sk32, sk33, sk34, sk35, sk36, sk37, sk39, sk40, skfb, skff, skfp, skfr, skfh, skfs, skfa, fl0, fl1]
  refine reSearch_hit _ _ _ ?_
  refine blockMatcher_hit ("::item:selected".data) ("background-color:".data) _ _ _ (hdwU _) (hitU _ ?_)
  have tl3 : ∀ rr, scanBlockLast ("background-color:".data) (qp3.data ++ rr) = scanBlockLast ("background-color:".data) rr := fun rr =>
    scanBlockLast_skip_piece ("background-color:".data) _ rr (by decide) (by decide)
  have tlfb : ∀ rr, scanBlockLast ("background-color:".data) (['#', b1, b2, b3, b4, b5, b6] ++ rr) = scanBlockLast ("background-color:".data) rr := fun rr =>
    scanBlockLast_skip_piece ("background-color:".data) _ rr
      (clearB_hexToken ("background-color:".data) 'b' ("ackground-color:".data) rfl (by decide) (fun c hc => (isUpperHexCh_facts c hc).2.2.1) b1 b2 b3 b4 b5 b6 hb1 hb2 hb3 hb4 hb5 hb6) (mem_hexToken_ne_rbrace b1 b2 b3 b4 b5 b6 hb1 hb2 hb3 hb4 hb5 hb6)
  have tlend : ∀ rr, scanBlockLast ("background-color:".data) (qp41.data ++ rr) = none := fun rr => by
    rw [show (qp41.data ++ rr) = (((";\n" : String).data) ++ ('\x7d' :: ((("\n\n/* TabWidget */\nQTabWidget::pane \x7b\n    " : String).data) ++ rr))) from rfl]
    exact scanBlockLast_none_piece ("background-color:".data) _ _ (by decide) (scanBlockLast_rbrace _ _)
  simp only [tl3, tlfb, tlend]

set_option maxHeartbeats 1000000 in
theorem searchBorder_gen
    (b1 b2 b3 b4 b5 b6 f1 f2 f3 f4 f5 f6 p1 p2 p3 p4 p5 p6 r1 r2 r3 r4 r5 r6 h1 h2 h3 h4 h5 h6 s1 s2 s3 s4 s5 s6 a1 a2 a3 a4 a5 a6 : Char)
    (hb1 : isUpperHexCh b1 = true) (hb2 : isUpperHexCh b2 = true) (hb3 : isUpperHexCh b3 = true) (hb4 : isUpperHexCh b4 = true) (hb5 : isUpperHexCh b5 = true) (hb6 : isUpperHexCh b6 = true)
    (hf1 : isUpperHexCh f1 = true) (hf2 : isUpperHexCh f2 = true) (hf3 : isUpperHexCh f3 = true) (hf4 : isUpperHexCh f4 = true) (hf5 : isUpperHexCh f5 = true) (hf6 : isUpperHexCh f6 = true)
    (hp1 : isUpperHexCh p1 = true) (hp2 : isUpperHexCh p2 = true) (hp3 : isUpperHexCh p3 = true) (hp4 : isUpperHexCh p4 = true) (hp5 : isUpperHexCh p5 = true) (hp6 : isUpperHexCh p6 = true)
    (hr1 : isUpperHexCh r1 = true) (hr2 : isUpperHexCh r2 = true) (hr3 : isUpperHexCh r3 = true) (hr4 : isUpperHexCh r4 = true) (hr5 : isUpperHexCh r5 = true) (hr6 : isUpperHexCh r6 = true)
    (hh1 : isUpperHexCh h1 = true) (hh2 : isUpperHexCh h2 = true) (hh3 : isUpperHexCh h3 = true) (hh4 : isUpperHexCh h4 = true) (hh5 : isUpperHexCh h5 = true) (hh6 : isUpperHexCh h6 = true)
    (hs1 : isUpperHexCh s1 = true) (hs2 : isUpperHexCh s2 = true) (hs3 : isUpperHexCh s3 = true) (hs4 : isUpperHexCh s4 = true) (hs5 : isUpperHexCh s5 = true) (hs6 : isUpperHexCh s6 = true)
    (ha1 : isUpperHexCh a1 = true) (ha2 : isUpperHexCh a2 = true) (ha3 : isUpperHexCh a3 = true) (ha4 : isUpperHexCh a4 = true) (ha5 : isUpperHexCh a5 = true) (ha6 : isUpperHexCh a6 = true)
    : searchBorder (qssDocData b1 b2 b3 b4 b5 b6 f1 f2 f3 f4 f5 f6 p1 p2 p3 p4 p5 p6 r1 r2 r3 r4 r5 r6 h1 h2 h3 h4 h5 h6 s1 s2 s3 s4 s5 s6 a1 a2 a3 a4 a5 a6) = none := by
  unfold qssDocData searchBorder
  have sk0 : ∀ rr, reSearch borderMatcher (qp0.data ++ rr) = reSearch borderMatcher rr :=
    fun rr => reSearch_skipClear _ ("border".data) borderMatcher_none (qp0.data) rr (by decide)
  have sk1 : ∀ rr, reSearch borderMatcher (qp1.data ++ rr) = reSearch borderMatcher rr :=
    fun rr => reSearch_skipClear _ ("border".data) borderMatcher_none (qp1.data) rr (by decide)
  have sk2 : ∀ rr, reSearch borderMatcher (qp2.data ++ rr) = reSearch borderMatcher rr :=
    fun rr => reSearch_skipClear _ ("border".data) borderMatcher_none (qp2.data) rr (by decide)
  have sk3 : ∀ rr, reSearch borderMatcher (qp3.data ++ rr) = reSearch borderMatcher rr :=
    fun rr => reSearch_skipClear _ ("border".data) borderMatcher_none (qp3.data) rr (by decide)
  have sk4 : ∀ rr, reSearch borderMatcher (qp4.data ++ rr) = reSearch borderMatcher rr :=
    fun rr => reSearch_skipClear _ ("border".data) borderMatcher_none (qp4.data) rr (by decide)
  have sk5 : ∀ rr, reSearch borderMatcher (qp5.data ++ rr) = reSearch borderMatcher rr :=
    fun rr => reSearch_skipClear _ ("border".data) borderMatcher_none (qp5.data) rr (by decide)
  have sk6 : ∀ rr, reSearch borderMatcher (qp6.data ++ rr) = reSearch borderMatcher rr :=
    fun rr => reSearch_skipClear _ ("border".data) borderMatcher_none (qp6.data) rr (by decide)
  have sk8 : ∀ rr, reSearch borderMatcher (qp8.data ++ rr) = reSearch borderMatcher rr :=
    fun rr => reSearch_skipClear _ ("border".data) borderMatcher_none (qp8.data) rr (by decide)
  have sk9 : ∀ rr, reSearch borderMatcher (qp9.data ++ rr) = reSearch borderMatcher rr :=
    fun rr => reSearch_skipClear _ ("border".data) borderMatcher_none (qp9.data) rr (by decide)
  have sk10 : ∀ rr, reSearch borderMatcher (qp10.data ++ rr) = reSearch borderMatcher rr :=
    fun rr => reSearch_skipClear _ ("border".data) borderMatcher_none (qp10.data) rr (by decide)
  have sk11 : ∀ rr, reSearch borderMatcher (qp11.data ++ rr) = reSearch borderMatcher rr :=
    fun rr => reSearch_skipClear _ ("border".data) borderMatcher_none (qp11.data) rr (by decide)
  have sk12 : ∀ rr, reSearch borderMatcher (qp12.data ++ rr) = reSearch borderMatcher rr :=
    fun rr => reSearch_skipClear _ ("border".data) borderMatcher_none (qp12.data) rr (by decide)
  have sk13 : ∀ rr, reSearch borderMatcher (qp13.data ++ rr) = reSearch borderMatcher rr :=
    fun rr => reSearch_skipClear _ ("border".data) borderMatcher_none (qp13.data) rr (by decide)
  have sk14 : ∀ rr, reSearch borderMatcher (qp14.data ++ rr) = reSearch borderMatcher rr :=
    fun rr => reSearch_skipClear _ ("border".data) borderMatcher_none (qp14.data) rr (by decide)
  have sk15 : ∀ rr, reSearch borderMatcher (qp15.data ++ rr) = reSearch borderMatcher rr :=
    fun rr => reSearch_skipClear _ ("border".data) borderMatcher_none (qp15.data) rr (by decide)
  have sk16 : ∀ rr, reSearch borderMatcher (qp16.data ++ rr) = reSearch borderMatcher rr :=
    fun rr => reSearch_skipClear _ ("border".data) borderMatcher_none (qp16.data) rr (by decide)
  have sk17 : ∀ rr, reSearch borderMatcher (qp17.data ++ rr) = reSearch borderMatcher rr :=
    fun rr => reSearch_skipClear _ ("border".data) borderMatcher_none (qp17.data) rr (by decide)
  have sk18 : ∀ rr, reSearch borderMatcher (qp18.data ++ rr) = reSearch borderMatcher rr :=
    fun rr => reSearch_skipClear _ ("border".data) borderMatcher_none (qp18.data) rr (by decide)
  have sk19 : ∀ rr, reSearch borderMatcher (qp19.data ++ rr) = reSearch borderMatcher rr :=
    fun rr => reSearch_skipClear _ ("border".data) borderMatcher_none (qp19.data) rr (by decide)
  have sk20 : ∀ rr, reSearch borderMatcher (qp20.data ++ rr) = reSearch borderMatcher rr :=
    fun rr => reSearch_skipClear _ ("border".data) borderMatcher_none (qp20.data) rr (by decide)
  have sk21 : ∀ rr, reSearch borderMatcher (qp21.data ++ rr) = reSearch borderMatcher rr :=
    fun rr => reSearch_skipClear _ ("border".data) borderMatcher_none (qp21.data) rr (by decide)
  have sk22 : ∀ rr, reSearch borderMatcher (qp22.data ++ rr) = reSearch borderMatcher rr :=
    fun rr => reSearch_skipClear _ ("border".data) borderMatcher_none (qp22.data) rr (by decide)
  have sk23 : ∀ rr, reSearch borderMatcher (qp23.data ++ rr) = reSearch borderMatcher rr :=
    fun rr => reSearch_skipClear _ ("border".data) borderMatcher_none (qp23.data) rr (by decide)
  have sk24 : ∀ rr, reSearch borderMatcher (qp24.data ++ rr) = reSearch borderMatcher rr :=
    fun rr => reSearch_skipClear _ ("border".data) borderMatcher_none (qp24.data) rr (by decide)
  have sk25 : ∀ rr, reSearch borderMatcher (qp25.data ++ rr) = reSearch borderMatcher rr :=
    fun rr => reSearch_skipClear _ ("border".data) borderMatcher_none (qp25.data) rr (by decide)
  have sk26 : ∀ rr, reSearch borderMatcher (qp26.data ++ rr) = reSearch borderMatcher rr :=
    fun rr => reSearch_skipClear _ ("border".data) borderMatcher_none (qp26.data) rr (by decide)
  have sk27 : ∀ rr, reSearch borderMatcher (qp27.data ++ rr) = reSearch borderMatcher rr :=
    fun rr => reSearch_skipClear _ ("border".data) borderMatcher_none (qp27.data) rr (by decide)
  have sk28 : ∀ rr, reSearch borderMatcher (qp28.data ++ rr) = reSearch borderMatcher rr :=
    fun rr => reSearch_skipClear _ ("border".data) borderMatcher_none (qp28.data) rr (by decide)
  have sk29 : ∀ rr, reSearch borderMatcher (qp29.data ++ rr) = reSearch borderMatcher rr :=
    fun rr => reSearch_skipClear _ ("border".data) borderMatcher_none (qp29.data) rr (by decide)
  have sk30 : ∀ rr, reSearch borderMatcher (qp30.data ++ rr) = reSearch borderMatcher rr :=
    fun rr => reSearch_skipClear _ ("border".data) borderMatcher_none (qp30.data) rr (by decide)
  have sk31 : ∀ rr, reSearch borderMatcher (qp31.data ++ rr) = reSearch borderMatcher rr :=
    fun rr => reSearch_skipClear _ ("border".data) borderMatcher_none (qp31.data) rr (by decide)
  have sk32 : ∀ rr, reSearch borderMatcher (qp32.data ++ rr) = reSearch borderMatcher rr :=
    fun rr => reSearch_skipClear _ ("border".data) borderMatcher_none (qp32.data) rr (by decide)
  have sk33 : ∀ rr, reSearch borderMatcher (qp33.data ++ rr) = reSearch borderMatcher rr :=
    fun rr => reSearch_skipClear _ ("border".data) borderMatcher_none (qp33.data) rr (by decide)
  have sk34 : ∀ rr, reSearch borderMatcher (qp34.data ++ rr) = reSearch borderMatcher rr :=
    fun rr => reSearch_skipClear _ ("border".data) borderMatcher_none (qp34.data) rr (by decide)
  have sk35 : ∀ rr, reSearch borderMatcher (qp35.data ++ rr) = reSearch borderMatcher rr :=
    fun rr => reSearch_skipClear _ ("border".data) borderMatcher_none (qp35.data) rr (by decide)
  have sk36 : ∀ rr, reSearch borderMatcher (qp36.data ++ rr) = reSearch borderMatcher rr :=
    fun rr => reSearch_skipClear _ ("border".data) borderMatcher_none (qp36.data) rr (by decide)
  have sk37 : ∀ rr, reSearch borderMatcher (qp37.data ++ rr) = reSearch borderMatcher rr :=
    fun rr => reSearch_skipClear _ ("border".data) borderMatcher_none (qp37.data) rr (by decide)
  have sk38 : ∀ rr, reSearch borderMatcher (qp38.data ++ rr) = reSearch borderMatcher rr :=
    fun rr => reSearch_skipClear _ ("border".data) borderMatcher_none (qp38.data) rr (by decide)
  have sk39 : ∀ rr, reSearch borderMatcher (qp39.data ++ rr) = reSearch borderMatcher rr :=
    fun rr => reSearch_skipClear _ ("border".data) borderMatcher_none (qp39.data) rr (by decide)
  have sk40 : ∀ rr, reSearch borderMatcher (qp40.data ++ rr) = reSearch borderMatcher rr :=
    fun rr => reSearch_skipClear _ ("border".data) borderMatcher_none (qp40.data) rr (by decide)
  have sk41 : ∀ rr, reSearch borderMatcher (qp41.data ++ rr) = reSearch borderMatcher rr :=
    fun rr => reSearch_skipClear _ ("border".data) borderMatcher_none (qp41.data) rr (by decide)
  have sk42 : ∀ rr, reSearch borderMatcher (qp42.data ++ rr) = reSearch borderMatcher rr :=
    fun rr => reSearch_skipClear _ ("border".data) borderMatcher_none (qp42.data) rr (by decide)
  have sk43 : ∀ rr, reSearch borderMatcher (qp43.data ++ rr) = reSearch borderMatcher rr :=
    fun rr => reSearch_skipClear _ ("border".data) borderMatcher_none (qp43.data) rr (by decide)
  have sk44 : ∀ rr, reSearch borderMatcher (qp44.data ++ rr) = reSearch borderMatcher rr :=
    fun rr => reSearch_skipClear _ ("border".data) borderMatcher_none (qp44.data) rr (by decide)
  have sk45 : ∀ rr, reSearch borderMatcher (qp45.data ++ rr) = reSearch borderMatcher rr :=
    fun rr => reSearch_skipClear _ ("border".data) borderMatcher_none (qp45.data) rr (by decide)
  have sk46 : ∀ rr, reSearch borderMatcher (qp46.data ++ rr) = reSearch borderMatcher rr :=
    fun rr => reSearch_skipClear _ ("border".data) borderMatcher_none (qp46.data) rr (by decide)
  have sk47 : ∀ rr, reSearch borderMatcher (qp47.data ++ rr) = reSearch borderMatcher rr :=
    fun rr => reSearch_skipClear _ ("border".data) borderMatcher_none (qp47.data) rr (by decide)
  have sk48 : ∀ rr, reSearch borderMatcher (qp48.data ++ rr) = reSearch borderMatcher rr :=
    fun rr => reSearch_skipClear _ ("border".data) borderMatcher_none (qp48.data) rr (by decide)
  have sk49 : ∀ rr, reSearch borderMatcher (qp49.data ++ rr) = reSearch borderMatcher rr :=
    fun rr => reSearch_skipClear _ ("border".data) borderMatcher_none (qp49.data) rr (by decide)
  have sk50 : ∀ rr, reSearch borderMatcher (qp50.data ++ rr) = reSearch borderMatcher rr :=
    fun rr => reSearch_skipClear _ ("border".data) borderMatcher_none (qp50.data) rr (by decide)
  have sk51 : ∀ rr, reSearch borderMatcher (qp51.data ++ rr) = reSearch borderMatcher rr :=
    fun rr => reSearch_skipClear _ ("border".data) borderMatcher_none (qp51.data) rr (by decide)
  have sk52 : ∀ rr, reSearch borderMatcher (qp52.data ++ rr) = reSearch borderMatcher rr :=
    fun rr => reSearch_skipClear _ ("border".data) borderMatcher_none (qp52.data) rr (by decide)
  have sk53 : ∀ rr, reSearch borderMatcher (qp53.data ++ rr) = reSearch borderMatcher rr :=
    fun rr => reSearch_skipClear _ ("border".data) borderMatcher_none (qp53.data) rr (by decide)
  have sk54 : ∀ rr, reSearch borderMatcher (qp54.data ++ rr) = reSearch borderMatcher rr :=
    fun rr => reSearch_skipClear _ ("border".data) borderMatcher_none (qp54.data) rr (by decide)
  have sk55 : ∀ rr, reSearch borderMatcher (qp55.data ++ rr) = reSearch borderMatcher rr :=
    fun rr => reSearch_skipClear _ ("border".data) borderMatcher_none (qp55.data) rr (by decide)
  have sk56 : ∀ rr, reSearch borderMatcher (qp56.data ++ rr) = reSearch borderMatcher rr :=
    fun rr => reSearch_skipClear _ ("border".data) borderMatcher_none (qp56.data) rr (by decide)
  have skfb : ∀ rr, reSearch borderMatcher (['#', b1, b2, b3, b4, b5, b6] ++ rr) = reSearch borderMatcher rr :=
    fun rr => reSearch_skipClear _ ("border".data) borderMatcher_none (['#', b1, b2, b3, b4, b5, b6]) rr
      (clearB_hexToken ("border".data) 'b' ("order".data) rfl (by decide) (fun c hc => (isUpperHexCh_facts c hc).2.2.1) b1 b2 b3 b4 b5 b6 hb1 hb2 hb3 hb4 hb5 hb6)
  have skff : ∀ rr, reSearch borderMatcher (['#', f1, f2, f3, f4, f5, f6] ++ rr) = reSearch borderMatcher rr :=
    fun rr => reSearch_skipClear _ ("border".data) borderMatcher_none (['#', f1, f2, f3, f4, f5, f6]) rr
      (clearB_hexToken ("border".data) 'b' ("order".data) rfl (by decide) (fun c hc => (isUpperHexCh_facts c hc).2.2.1) f1 f2 f3 f4 f5 f6 hf1 hf2 hf3 hf4 hf5 hf6)
  have skfp : ∀ rr, reSearch borderMatcher (['#', p1, p2, p3, p4, p5, p6] ++ rr) = reSearch borderMatcher rr :=
    fun rr => reSearch_skipClear _ ("border".data) borderMatcher_none (['#', p1, p2, p3, p4, p5, p6]) rr
      (clearB_hexToken ("border".data) 'b' ("order".data) rfl (by decide) (fun c hc => (isUpperHexCh_facts c hc).2.2.1) p1 p2 p3 p4 p5 p6 hp1 hp2 hp3 hp4 hp5 hp6)
  have skfr : ∀ rr, reSearch borderMatcher (['#', r1, r2, r3, r4, r5, r6] ++ rr) = reSearch borderMatcher rr :=
    fun rr => reSearch_skipClear _ ("border".data) borderMatcher_none (['#', r1, r2, r3, r4, r5, r6]) rr
      (clearB_hexToken ("border".data) 'b' ("order".data) rfl (by decide) (fun c hc => (isUpperHexCh_facts c hc).2.2.1) r1 r2 r3 r4 r5 r6 hr1 hr2 hr3 hr4 hr5 hr6)
  have skfh : ∀ rr, reSearch borderMatcher (['#', h1, h2, h3, h4, h5, h6] ++ rr) = reSearch borderMatcher rr :=
    fun rr => reSearch_skipClear _ ("border".data) borderMatcher_none (['#', h1, h2, h3, h4, h5, h6]) rr
      (clearB_hexToken ("border".data) 'b' ("order".data) rfl (by decide) (fun c hc => (isUpperHexCh_facts c hc).2.2.1) h1 h2 h3 h4 h5 h6 hh1 hh2 hh3 hh4 hh5 hh6)
  have skfs : ∀ rr, reSearch borderMatcher (['#', s1, s2, s3, s4, s5, s6] ++ rr) = reSearch borderMatcher rr :=
    fun rr => reSearch_skipClear _ ("border".data) borderMatcher_none (['#', s1, s2, s3, s4, s5, s6]) rr
      (clearB_hexToken ("border".data) 'b' ("order".data) rfl (by decide) (fun c hc => (isUpperHexCh_facts c hc).2.2.1) s1 s2 s3 s4 s5 s6 hs1 hs2 hs3 hs4 hs5 hs6)
  have skfa : ∀ rr, reSearch borderMatcher (['#', a1, a2, a3, a4, a5, a6] ++ rr) = reSearch borderMatcher rr :=
    fun rr => reSearch_skipClear _ ("border".data) borderMatcher_none (['#', a1, a2, a3, a4, a5, a6]) rr
      (clearB_hexToken ("border".data) 'b' ("order".data) rfl (by decide) (fun c hc => (isUpperHexCh_facts c hc).2.2.1) a1 a2 a3 a4 a5 a6 ha1 ha2 ha3 ha4 ha5 ha6)
  have sl8 : ∀ rr, scanLineLast (qp8.data ++ rr) = scanLineLast rr :=
    fun rr => scanLineLast_skipMid (qp8.data) (by decide) (by decide) rr
  have sl16 : ∀ rr, scanLineLast (qp16.data ++ rr) = scanLineLast rr :=
    fun rr => scanLineLast_skipMid (qp16.data) (by decide) (by decide) rr
  have sl52 : ∀ rr, scanLineLast (qp52.data ++ rr) = scanLineLast rr :=
    fun rr => scanLineLast_skipMid (qp52.data) (by decide) (by decide) rr
  have slfr : ∀ rr, scanLineLast (['#', r1, r2, r3, r4, r5, r6] ++ rr) = scanLineLast rr :=
    fun rr => scanLineLast_skip_hexToken r1 r2 r3 r4 r5 r6 hr1 hr2 hr3 hr4 hr5 hr6 rr
  have slfp : ∀ rr, scanLineLast (['#', p1, p2, p3, p4, p5, p6] ++ rr) = scanLineLast rr :=
    fun rr => scanLineLast_skip_hexToken p1 p2 p3 p4 p5 p6 hp1 hp2 hp3 hp4 hp5 hp6 rr
  have sln6 : ∀ rr, scanLineLast (qp6.data ++ rr) = none := fun rr => by
    rw [show (qp6.data ++ rr) = (((";" : String).data) ++ ('\n' :: ((("    " : String).data) ++ rr))) from rfl]
    rw [scanLineLast_skipMid (((";" : String).data)) (by decide) (by decide)]
    exact scanLineLast_newline _
  have sln9 : ∀ rr, scanLineLast (qp9.data ++ rr) = none := fun rr => by
    rw [show (qp9.data ++ rr) = ((("-radius: 4px;" : String).data) ++ ('\n' :: ((("    padding: 5px 15px;\n    min-width: 80px;\n\x7d\n\n" : String).data) ++ rr))) from rfl]
    rw [scanLineLast_skipMid ((("-radius: 4px;" : String).data)) (by decide) (by decide)]
    exact scanLineLast_newline _
  have sln15 : ∀ rr, scanLineLast (qp15.data ++ rr) = none := fun rr => by
    rw [show (qp15.data ++ rr) = ((("-radius: 3px;" : String).data) ++ ('\n' :: ((("    padding: 4px;\n\x7d\n\nQLineEdit:focus, QTextEdit:focus, QPlainTextEdit:focus \x7b\n    " : String).data) ++ rr))) from rfl]
    rw [scanLineLast_skipMid ((("-radius: 3px;" : String).data)) (by decide) (by decide)]
    exact scanLineLast_newline _
  have sln17 : ∀ rr, scanLineLast (qp17.data ++ rr) = none := fun rr => by
    rw [show (qp17.data ++ rr) = (((";" : String).data) ++ ('\n' :: ((("\x7d\n\n/* ComboBox */\nQComboBox \x7b\n    background-color: " : String).data) ++ rr))) from rfl]
    rw [scanLineLast_skipMid (((";" : String).data)) (by decide) (by decide)]
    exact scanLineLast_newline _
  have sln18 : ∀ rr, scanLineLast (qp18.data ++ rr) = none := fun rr => by
    rw [show (qp18.data ++ rr) = ((("-radius: 3px;" : String).data) ++ ('\n' :: ((("    padding: 4px;\n\x7d\n\nQComboBox" : String).data) ++ rr))) from rfl]
    rw [scanLineLast_skipMid ((("-radius: 3px;" : String).data)) (by decide) (by decide)]
    exact scanLineLast_newline _
  have sln20 : ∀ rr, scanLineLast (qp20.data ++ rr) = none := fun rr => by
    rw [show (qp20.data ++ rr) = (((";" : String).data) ++ ('\n' :: ((("\x7d\n\nQComboBox::drop-down \x7b\n    " : String).data) ++ rr))) from rfl]
    rw [scanLineLast_skipMid (((";" : String).data)) (by decide) (by decide)]
    exact scanLineLast_newline _
  have sln21 : ∀ rr, scanLineLast (qp21.data ++ rr) = none := fun rr => by
    rw [show (qp21.data ++ rr) = (((": none;" : String).data) ++ ('\n' :: ((("\x7d\n\nQComboBox QAbstractItemView \x7b\n    background-color: " : String).data) ++ rr))) from rfl]
    rw [scanLineLast_skipMid (((": none;" : String).data)) (by decide) (by decide)]
    exact scanLineLast_newline _
  have sln25 : ∀ rr, scanLineLast (qp25.data ++ rr) = none := fun rr => by
    rw [show (qp25.data ++ rr) = ((("-radius: 3px;" : String).data) ++ ('\n' :: ((("    padding: 3px;\n\x7d\n\n/* CheckBox and RadioButton */\nQCheckBox, QRadioButton \x7b\n    color: " : String).data) ++ rr))) from rfl]
    rw [scanLineLast_skipMid ((("-radius: 3px;" : String).data)) (by decide) (by decide)]
    exact scanLineLast_newline _
  have sln27 : ∀ rr, scanLineLast (qp27.data ++ rr) = none := fun rr => by
    rw [show (qp27.data ++ rr) = (((";" : String).data) ++ ('\n' :: ((("    background-color: " : String).data) ++ rr))) from rfl]
    rw [scanLineLast_skipMid (((";" : String).data)) (by decide) (by decide)]
    exact scanLineLast_newline _
  have sln30 : ∀ rr, scanLineLast (qp30.data ++ rr) = none := fun rr => by
    rw [show (qp30.data ++ rr) = ((("-radius: 3px;" : String).data) ++ ('\n' :: ((("    text-align: center;\n\x7d\n\nQProgressBar::chunk \x7b\n    background-color: " : String).data) ++ rr))) from rfl]
    rw [scanLineLast_skipMid ((("-radius: 3px;" : String).data)) (by decide) (by decide)]
    exact scanLineLast_newline _
  have sln31 : ∀ rr, scanLineLast (qp31.data ++ rr) = none := fun rr => by
    rw [show (qp31.data ++ rr) = ((("-radius: 2px;" : String).data) ++ ('\n' :: ((("\x7d\n\n/* Slider */\nQSlider::groove:horizontal \x7b\n    background: " : String).data) ++ rr))) from rfl]
    rw [scanLineLast_skipMid ((("-radius: 2px;" : String).data)) (by decide) (by decide)]
    exact scanLineLast_newline _
  have sln33 : ∀ rr, scanLineLast (qp33.data ++ rr) = none := fun rr => by
    rw [show (qp33.data ++ rr) = ((("-radius: 3px;" : String).data) ++ ('\n' :: ((("\x7d\n\nQSlider::handle:horizontal \x7b\n    background: " : String).data) ++ rr))) from rfl]
    rw [scanLineLast_skipMid ((("-radius: 3px;" : String).data)) (by decide) (by decide)]
    exact scanLineLast_newline _
  have sln35 : ∀ rr, scanLineLast (qp35.data ++ rr) = none := fun rr => by
    rw [show (qp35.data ++ rr) = ((("-radius: 8px;" : String).data) ++ ('\n' :: ((("\x7d\n\n/* List, Tree, Table */\nQListWidget, QTreeWidget, QTableWidget \x7b\n    background-color: " : String).data) ++ rr))) from rfl]
    rw [scanLineLast_skipMid ((("-radius: 8px;" : String).data)) (by decide) (by decide)]
    exact scanLineLast_newline _
  have sln36 : ∀ rr, scanLineLast (qp36.data ++ rr) = none := fun rr => by
    rw [show (qp36.data ++ rr) = (((";" : String).data) ++ ('\n' :: ((("    alternate-background-color: " : String).data) ++ rr))) from rfl]
    rw [scanLineLast_skipMid (((";" : String).data)) (by decide) (by decide)]
    exact scanLineLast_newline _
  have sln43 : ∀ rr, scanLineLast (qp43.data ++ rr) = none := fun rr => by
    rw [show (qp43.data ++ rr) = (((";" : String).data) ++ ('\n' :: ((("    padding: 6px 12px;\n\x7d\n\nQTabBar::tab:selected \x7b\n    background-color: " : String).data) ++ rr))) from rfl]
    rw [scanLineLast_skipMid (((";" : String).data)) (by decide) (by decide)]
    exact scanLineLast_newline _
  have sln45 : ∀ rr, scanLineLast (qp45.data ++ rr) = none := fun rr => by
    rw [show (qp45.data ++ rr) = ((("-radius: 4px;" : String).data) ++ ('\n' :: ((("    margin-top: 10px;\n    padding-top: 10px;\n    color: " : String).data) ++ rr))) from rfl]
    rw [scanLineLast_skipMid ((("-radius: 4px;" : String).data)) (by decide) (by decide)]
    exact scanLineLast_newline _
  have sln50 : ∀ rr, scanLineLast (qp50.data ++ rr) = none := fun rr => by
    rw [show (qp50.data ++ rr) = (((";" : String).data) ++ ('\n' :: ((("\x7d\n\nQMenu" : String).data) ++ rr))) from rfl]
    rw [scanLineLast_skipMid (((";" : String).data)) (by decide) (by decide)]
    exact scanLineLast_newline _
  have sln53 : ∀ rr, scanLineLast (qp53.data ++ rr) = none := fun rr => by
    rw [show (qp53.data ++ rr) = (((";" : String).data) ++ ('\n' :: ((("\x7d\n\n/* ScrollBar */\nQScrollBar:vertical \x7b\n    background: " : String).data) ++ rr))) from rfl]
    rw [scanLineLast_skipMid (((";" : String).data)) (by decide) (by decide)]
    exact scanLineLast_newline _
  have sln55 : ∀ rr, scanLineLast (qp55.data ++ rr) = none := fun rr => by
    rw [show (qp55.data ++ rr) = (((";" : String).data) ++ ('\n' :: ((("\x7d\n\nQScrollBar::handle:vertical \x7b\n    background: " : String).data) ++ rr))) from rfl]
    rw [scanLineLast_skipMid (((";" : String).data)) (by decide) (by decide)]
    exact scanLineLast_newline _
  have slnL : scanLineLast (qp57.data) = none := by
    rw [show ((qp57 : String).data) = ((("-radius: 4px;" : String).data) ++ ('\n' :: (("\x7d\n\nQScrollBar::add-line:vertical, QScrollBar::sub-line:vertical \x7b\n    height: 0px;\n\x7d\n" : String).data))) from rfl]
    rw [scanLineLast_skipMid ((("-radius: 4px;" : String).data)) (by decide) (by decide)]
    exact scanLineLast_newline _
  have bst : ∀ rr, scanLineLast rr = none → reSearch borderMatcher (qp7.data ++ rr) = reSearch borderMatcher (("order".data) ++ rr) := fun rr hrr => by
    have hf : borderMatcher ('b' :: (("order".data) ++ rr)) = none := by
      rw [show ('b' :: (("order".data) ++ rr)) = (("border".data) ++ rr) from rfl]
      exact borderMatcher_step rr hrr
    rw [show (qp7.data ++ rr) = ('b' :: (("order".data) ++ rr)) from rfl]
    rw [reSearch_step _ 'b' _ hf]
  have sko : ∀ rr, reSearch borderMatcher (("order".data) ++ rr) = reSearch borderMatcher rr :=
    fun rr => reSearch_skipClear _ ("border".data) borderMatcher_none (("order".data)) rr (by decide)
  simp only [sk0, sk1, sk2, sk3, sk4, sk5, sk6, sk8, sk9, sk10, sk11, sk12, sk13, sk14, sk15, sk16, sk17, sk18, sk19, sk20, sk21, sk22, sk23, sk24, sk25, sk26, sk27, sk28, sk29, sk30, sk31, sk32, sk33, sk34, sk35, sk36, sk37, sk38, sk39, sk40, sk41, sk42, sk43, sk44, sk45, sk46, sk47, sk48, sk49, sk50, sk51, sk52, sk53, sk54, sk55, sk56, skfb, skff, skfp, skfr, skfh, skfs, skfa, sl8, sl16, sl52, slfr, slfp, sln6, sln9, sln15, sln17, sln18, sln20, sln21, sln25, sln27, sln30, sln31, sln33, sln35, sln36, sln43, sln45, sln50, sln53, sln55, slnL, bst, sko]
  exact reSearch_none_clear _ ("border".data) borderMatcher_none rfl _ (by decide)

theorem hasHexColor_gen
    (b1 b2 b3 b4 b5 b6 f1 f2 f3 f4 f5 f6 p1 p2 p3 p4 p5 p6 r1 r2 r3 r4 r5 r6 h1 h2 h3 h4 h5 h6 s1 s2 s3 s4 s5 s6 a1 a2 a3 a4 a5 a6 : Char)
    (hb1 : isUpperHexCh b1 = true) (hb2 : isUpperHexCh b2 = true) (hb3 : isUpperHexCh b3 = true) (hb4 : isUpperHexCh b4 = true) (hb5 : isUpperHexCh b5 = true) (hb6 : isUpperHexCh b6 = true)
    (hf1 : isUpperHexCh f1 = true) (hf2 : isUpperHexCh f2 = true) (hf3 : isUpperHexCh f3 = true) (hf4 : isUpperHexCh f4 = true) (hf5 : isUpperHexCh f5 = true) (hf6 : isUpperHexCh f6 = true)
    (hp1 : isUpperHexCh p1 = true) (hp2 : isUpperHexCh p2 = true) (hp3 : isUpperHexCh p3 = true) (hp4 : isUpperHexCh p4 = true) (hp5 : isUpperHexCh p5 = true) (hp6 : isUpperHexCh p6 = true)
    (hr1 : isUpperHexCh r1 = true) (hr2 : isUpperHexCh r2 = true) (hr3 : isUpperHexCh r3 = true) (hr4 : isUpperHexCh r4 = true) (hr5 : isUpperHexCh r5 = true) (hr6 : isUpperHexCh r6 = true)
    (hh1 : isUpperHexCh h1 = true) (hh2 : isUpperHexCh h2 = true) (hh3 : isUpperHexCh h3 = true) (hh4 : isUpperHexCh h4 = true) (hh5 : isUpperHexCh h5 = true) (hh6 : isUpperHexCh h6 = true)
    (hs1 : isUpperHexCh s1 = true) (hs2 : isUpperHexCh s2 = true) (hs3 : isUpperHexCh s3 = true) (hs4 : isUpperHexCh s4 = true) (hs5 : isUpperHexCh s5 = true) (hs6 : isUpperHexCh s6 = true)
    (ha1 : isUpperHexCh a1 = true) (ha2 : isUpperHexCh a2 = true) (ha3 : isUpperHexCh a3 = true) (ha4 : isUpperHexCh a4 = true) (ha5 : isUpperHexCh a5 = true) (ha6 : isUpperHexCh a6 = true)
    : hasHexColor (qssDocData b1 b2 b3 b4 b5 b6 f1 f2 f3 f4 f5 f6 p1 p2 p3 p4 p5 p6 r1 r2 r3 r4 r5 r6 h1 h2 h3 h4 h5 h6 s1 s2 s3 s4 s5 s6 a1 a2 a3 a4 a5 a6) = true := by
  unfold qssDocData
  apply hasHexColor_append_right (qp0.data) _
  apply hasHexColor_append_right (qp1.data) _
  apply hasHexColor_append_right (qp2.data) _
  rw [show (['#', b1, b2, b3, b4, b5, b6] ++ (qp3.data ++ (['#', f1, f2, f3, f4, f5, f6] ++ ((qp4.data) ++ ((qp5.data) ++ ((qp2.data) ++ (['#', p1, p2, p3, p4, p5, p6] ++ ((qp3.data) ++ (['#', b1, b2, b3, b4, b5, b6] ++ ((qp6.data) ++ ((qp7.data) ++ ((qp8.data) ++ (['#', r1, r2, r3, r4, r5, r6] ++ ((qp6.data) ++ ((qp7.data) ++ ((qp9.data) ++ ((qp5.data) ++ ((qp10.data) ++ ((qp2.data) ++ (['#', h1, h2, h3, h4, h5, h6] ++ ((qp3.data) ++ (['#', f1, f2, f3, f4, f5, f6] ++ ((qp11.data) ++ ((qp5.data) ++ ((qp12.data) ++ (['#', s1, s2, s3, s4, s5, s6] ++ ((qp3.data) ++ (['#', b1, b2, b3, b4, b5, b6] ++ ((qp11.data) ++ ((qp5.data) ++ ((qp13.data) ++ (['#', a1, a2, a3, a4, a5, a6] ++ ((qp3.data) ++ (['#', r1, r2, r3, r4, r5, r6] ++ ((qp14.data) ++ (['#', b1, b2, b3, b4, b5, b6] ++ ((qp3.data) ++ (['#', f1, f2, f3, f4, f5, f6] ++ ((qp6.data) ++ ((qp7.data) ++ ((qp8.data) ++ (['#', r1, r2, r3, r4, r5, r6] ++ ((qp6.data) ++ ((qp7.data) ++ ((qp15.data) ++ ((qp7.data) ++ ((qp16.data) ++ (['#', p1, p2, p3, p4, p5, p6] ++ ((qp17.data) ++ (['#', b1, b2, b3, b4, b5, b6] ++ ((qp3.data) ++ (['#', f1, f2, f3, f4, f5, f6] ++ ((qp6.data) ++ ((qp7.data) ++ ((qp8.data) ++ (['#', r1, r2, r3, r4, r5, r6] ++ ((qp6.data) ++ ((qp7.data) ++ ((qp18.data) ++ ((qp10.data) ++ ((qp19.data) ++ ((qp7.data) ++ ((qp8.data) ++ (['#', p1, p2, p3, p4, p5, p6] ++ ((qp20.data) ++ ((qp7.data) ++ ((qp21.data) ++ (['#', b1, b2, b3, b4, b5, b6] ++ ((qp3.data) ++ (['#', f1, f2, f3, f4, f5, f6] ++ ((qp22.data) ++ (['#', s1, s2, s3, s4, s5, s6] ++ ((qp23.data) ++ (['#', b1, b2, b3, b4, b5, b6] ++ ((qp24.data) ++ (['#', b1, b2, b3, b4, b5, b6] ++ ((qp3.data) ++ (['#', f1, f2, f3, f4, f5, f6] ++ ((qp6.data) ++ ((qp7.data) ++ ((qp8.data) ++ (['#', r1, r2, r3, r4, r5, r6] ++ ((qp6.data) ++ ((qp7.data) ++ ((qp25.data) ++ (['#', f1, f2, f3, f4, f5, f6] ++ ((qp26.data) ++ ((qp7.data) ++ ((qp8.data) ++ (['#', r1, r2, r3, r4, r5, r6] ++ ((qp27.data) ++ (['#', b1, b2, b3, b4, b5, b6] ++ ((qp28.data) ++ (['#', p1, p2, p3, p4, p5, p6] ++ ((qp29.data) ++ (['#', b1, b2, b3, b4, b5, b6] ++ ((qp6.data) ++ ((qp7.data) ++ ((qp8.data) ++ (['#', r1, r2, r3, r4, r5, r6] ++ ((qp6.data) ++ ((qp7.data) ++ ((qp30.data) ++ (['#', p1, p2, p3, p4, p5, p6] ++ ((qp6.data) ++ ((qp7.data) ++ ((qp31.data) ++ (['#', r1, r2, r3, r4, r5, r6] ++ ((qp32.data) ++ ((qp7.data) ++ ((qp33.data) ++ (['#', p1, p2, p3, p4, p5, p6] ++ ((qp34.data) ++ ((qp7.data) ++ ((qp35.data) ++ (['#', b1, b2, b3, b4, b5, b6] ++ ((qp3.data) ++ (['#', f1, f2, f3, f4, f5, f6] ++ ((qp6.data) ++ ((qp7.data) ++ ((qp8.data) ++ (['#', r1, r2, r3, r4, r5, r6] ++ ((qp36.data) ++ (['#', h1, h2, h3, h4, h5, h6] ++ ((qp37.data) ++ ((qp38.data) ++ ((qp39.data) ++ ((qp38.data) ++ ((qp40.data) ++ ((qp38.data) ++ ((qp2.data) ++ (['#', s1, s2, s3, s4, s5, s6] ++ ((qp3.data) ++ (['#', b1, b2, b3, b4, b5, b6] ++ ((qp41.data) ++ ((qp7.data) ++ ((qp8.data) ++ (['#', r1, r2, r3, r4, r5, r6] ++ ((qp27.data) ++ (['#', b1, b2, b3, b4, b5, b6] ++ ((qp42.data) ++ (['#', h1, h2, h3, h4, h5, h6] ++ ((qp3.data) ++ (['#', f1, f2, f3, f4, f5, f6] ++ ((qp6.data) ++ ((qp7.data) ++ ((qp8.data) ++ (['#', r1, r2, r3, r4, r5, r6] ++ ((qp43.data) ++ (['#', p1, p2, p3, p4, p5, p6] ++ ((qp3.data) ++ (['#', b1, b2, b3, b4, b5, b6] ++ ((qp44.data) ++ ((qp7.data) ++ ((qp8.data) ++ (['#', r1, r2, r3, r4, r5, r6] ++ ((qp6.data) ++ ((qp7.data) ++ ((qp45.data) ++ (['#', f1, f2, f3, f4, f5, f6] ++ ((qp46.data) ++ (['#', f1, f2, f3, f4, f5, f6] ++ ((qp47.data) ++ (['#', b1, b2, b3, b4, b5, b6] ++ ((qp3.data) ++ (['#', f1, f2, f3, f4, f5, f6] ++ ((qp48.data) ++ ((qp38.data) ++ ((qp2.data) ++ (['#', h1, h2, h3, h4, h5, h6] ++ ((qp49.data) ++ (['#', b1, b2, b3, b4, b5, b6] ++ ((qp3.data) ++ (['#', f1, f2, f3, f4, f5, f6] ++ ((qp6.data) ++ ((qp7.data) ++ ((qp8.data) ++ (['#', r1, r2, r3, r4, r5, r6] ++ ((qp50.data) ++ ((qp38.data) ++ ((qp2.data) ++ (['#', s1, s2, s3, s4, s5, s6] ++ ((qp3.data) ++ (['#', b1, b2, b3, b4, b5, b6] ++ ((qp51.data) ++ (['#', b1, b2, b3, b4, b5, b6] ++ ((qp3.data) ++ (['#', f1, f2, f3, f4, f5, f6] ++ ((qp6.data) ++ ((qp7.data) ++ ((qp52.data) ++ (['#', r1, r2, r3, r4, r5, r6] ++ ((qp53.data) ++ (['#', b1, b2, b3, b4, b5, b6] ++ ((qp54.data) ++ ((qp7.data) ++ ((qp8.data) ++ (['#', r1, r2, r3, r4, r5, r6] ++ ((qp55.data) ++ (['#', p1, p2, p3, p4, p5, p6] ++ ((qp56.data) ++ ((qp7.data) ++ ((qp57.data)))))))))))))))))))))))))))))))))))))))))))))))))))))))))))))))))))))))))))))))))))))))))))))))))))))))))))))))))))))))))))))))))))))))))))))))))))))))))))))))))))))))))))))))))))))))))))))))))))))))))))) = ('#' :: b1 :: b2 :: b3 :: b4 :: b5 :: b6 :: (';' :: ((("\n    color: " : String).data) ++ (['#', f1, f2, f3, f4, f5, f6] ++ ((qp4.data) ++ ((qp5.data) ++ ((qp2.data) ++ (['#', p1, p2, p3, p4, p5, p6] ++ ((qp3.data) ++ (['#', b1, b2, b3, b4, b5, b6] ++ ((qp6.data) ++ ((qp7.data) ++ ((qp8.data) ++ (['#', r1, r2, r3, r4, r5, r6] ++ ((qp6.data) ++ ((qp7.data) ++ ((qp9.data) ++ ((qp5.data) ++ ((qp10.data) ++ ((qp2.data) ++ (['#', h1, h2, h3, h4, h5, h6] ++ ((qp3.data) ++ (['#', f1, f2, f3, f4, f5, f6] ++ ((qp11.data) ++ ((qp5.data) ++ ((qp12.data) ++ (['#', s1, s2, s3, s4, s5, s6] ++ ((qp3.data) ++ (['#', b1, b2, b3, b4, b5, b6] ++ ((qp11.data) ++ ((qp5.data) ++ ((qp13.data) ++ (['#', a1, a2, a3, a4, a5, a6] ++ ((qp3.data) ++ (['#', r1, r2, r3, r4, r5, r6] ++ ((qp14.data) ++ (['#', b1, b2, b3, b4, b5, b6] ++ ((qp3.data) ++ (['#', f1, f2, f3, f4, f5, f6] ++ ((qp6.data) ++ ((qp7.data) ++ ((qp8.data) ++ (['#', r1, r2, r3, r4, r5, r6] ++ ((qp6.data) ++ ((qp7.data) ++ ((qp15.data) ++ ((qp7.data) ++ ((qp16.data) ++ (['#', p1, p2, p3, p4, p5, p6] ++ ((qp17.data) ++ (['#', b1, b2, b3, b4, b5, b6] ++ ((qp3.data) ++ (['#', f1, f2, f3, f4, f5, f6] ++ ((qp6.data) ++ ((qp7.data) ++ ((qp8.data) ++ (['#', r1, r2, r3, r4, r5, r6] ++ ((qp6.data) ++ ((qp7.data) ++ ((qp18.data) ++ ((qp10.data) ++ ((qp19.data) ++ ((qp7.data) ++ ((qp8.data) ++ (['#', p1, p2, p3, p4, p5, p6] ++ ((qp20.data) ++ ((qp7.data) ++ ((qp21.data) ++ (['#', b1, b2, b3, b4, b5, b6] ++ ((qp3.data) ++ (['#', f1, f2, f3, f4, f5, f6] ++ ((qp22.data) ++ (['#', s1, s2, s3, s4, s5, s6] ++ ((qp23.data) ++ (['#', b1, b2, b3, b4, b5, b6] ++ ((qp24.data) ++ (['#', b1, b2, b3, b4, b5, b6] ++ ((qp3.data) ++ (['#', f1, f2, f3, f4, f5, f6] ++ ((qp6.data) ++ ((qp7.data) ++ ((qp8.data) ++ (['#', r1, r2, r3, r4, r5, r6] ++ ((qp6.data) ++ ((qp7.data) ++ ((qp25.data) ++ (['#', f1, f2, f3, f4, f5, f6] ++ ((qp26.data) ++ ((qp7.data) ++ ((qp8.data) ++ (['#', r1, r2, r3, r4, r5, r6] ++ ((qp27.data) ++ (['#', b1, b2, b3, b4, b5, b6] ++ ((qp28.data) ++ (['#', p1, p2, p3, p4, p5, p6] ++ ((qp29.data) ++ (['#', b1, b2, b3, b4, b5, b6] ++ ((qp6.data) ++ ((qp7.data) ++ ((qp8.data) ++ (['#', r1, r2, r3, r4, r5, r6] ++ ((qp6.data) ++ ((qp7.data) ++ ((qp30.data) ++ (['#', p1, p2, p3, p4, p5, p6] ++ ((qp6.data) ++ ((qp7.data) ++ ((qp31.data) ++ (['#', r1, r2, r3, r4, r5, r6] ++ ((qp32.data) ++ ((qp7.data) ++ ((qp33.data) ++ (['#', p1, p2, p3, p4, p5, p6] ++ ((qp34.data) ++ ((qp7.data) ++ ((qp35.data) ++ (['#', b1, b2, b3, b4, b5, b6] ++ ((qp3.data) ++ (['#', f1, f2, f3, f4, f5, f6] ++ ((qp6.data) ++ ((qp7.data) ++ ((qp8.data) ++ (['#', r1, r2, r3, r4, r5, r6] ++ ((qp36.data) ++ (['#', h1, h2, h3, h4, h5, h6] ++ ((qp37.data) ++ ((qp38.data) ++ ((qp39.data) ++ ((qp38.data) ++ ((qp40.data) ++ ((qp38.data) ++ ((qp2.data) ++ (['#', s1, s2, s3, s4, s5, s6] ++ ((qp3.data) ++ (['#', b1, b2, b3, b4, b5, b6] ++ ((qp41.data) ++ ((qp7.data) ++ ((qp8.data) ++ (['#', r1, r2, r3, r4, r5, r6] ++ ((qp27.data) ++ (['#', b1, b2, b3, b4, b5, b6] ++ ((qp42.data) ++ (['#', h1, h2, h3, h4, h5, h6] ++ ((qp3.data) ++ (['#', f1, f2, f3, f4, f5, f6] ++ ((qp6.data) ++ ((qp7.data) ++ ((qp8.data) ++ (['#', r1, r2, r3, r4, r5, r6] ++ ((qp43.data) ++ (['#', p1, p2, p3, p4, p5, p6] ++ ((qp3.data) ++ (['#', b1, b2, b3, b4, b5, b6] ++ ((qp44.data) ++ ((qp7.data) ++ ((qp8.data) ++ (['#', r1, r2, r3, r4, r5, r6] ++ ((qp6.data) ++ ((qp7.data) ++ ((qp45.data) ++ (['#', f1, f2, f3, f4, f5, f6] ++ ((qp46.data) ++ (['#', f1, f2, f3, f4, f5, f6] ++ ((qp47.data) ++ (['#', b1, b2, b3, b4, b5, b6] ++ ((qp3.data) ++ (['#', f1, f2, f3, f4, f5, f6] ++ ((qp48.data) ++ ((qp38.data) ++ ((qp2.data) ++ (['#', h1, h2, h3, h4, h5, h6] ++ ((qp49.data) ++ (['#', b1, b2, b3, b4, b5, b6] ++ ((qp3.data) ++ (['#', f1, f2, f3, f4, f5, f6] ++ ((qp6.data) ++ ((qp7.data) ++ ((qp8.data) ++ (['#', r1, r2, r3, r4, r5, r6] ++ ((qp50.data) ++ ((qp38.data) ++ ((qp2.data) ++ (['#', s1, s2, s3, s4, s5, s6] ++ ((qp3.data) ++ (['#', b1, b2, b3, b4, b5, b6] ++ ((qp51.data) ++ (['#', b1, b2, b3, b4, b5, b6] ++ ((qp3.data) ++ (['#', f1, f2, f3, f4, f5, f6] ++ ((qp6.data) ++ ((qp7.data) ++ ((qp52.data) ++ (['#', r1, r2, r3, r4, r5, r6] ++ ((qp53.data) ++ (['#', b1, b2, b3, b4, b5, b6] ++ ((qp54.data) ++ ((qp7.data) ++ ((qp8.data) ++ (['#', r1, r2, r3, r4, r5, r6] ++ ((qp55.data) ++ (['#', p1, p2, p3, p4, p5, p6] ++ ((qp56.data) ++ ((qp7.data) ++ ((qp57.data))))))))))))))))))))))))))))))))))))))))))))))))))))))))))))))))))))))))))))))))))))))))))))))))))))))))))))))))))))))))))))))))))))))))))))))))))))))))))))))))))))))))))))))))))))))))))))))))))))))))))))) from rfl]
  apply hasHexColor_of_tokenAt
  exact hexTokenAt_token b1 b2 b3 b4 b5 b6 (isUpperHexCh_facts b1 hb1).2.2.2.2.2.2.2.1 (isUpperHexCh_facts b2 hb2).2.2.2.2.2.2.2.1 (isUpperHexCh_facts b3 hb3).2.2.2.2.2.2.2.1 (isUpperHexCh_facts b4 hb4).2.2.2.2.2.2.2.1 (isUpperHexCh_facts b5 hb5).2.2.2.2.2.2.2.1 (isUpperHexCh_facts b6 hb6).2.2.2.2.2.2.2.1 ';' (by decide) _

end ThemeEd

namespace ThemeEd

/-- A field value that is already a canonical uppercase `#RRGGBB` colour. -/
def isUpperHexColor (s : String) : Bool :=
  match s.data with
  | ['#', a, b, c, d, e, f] =>
      isUpperHexCh a && isUpperHexCh b && isUpperHexCh c &&
      isUpperHexCh d && isUpperHexCh e && isUpperHexCh f
  | _ => false

theorem isUpperHexColor_elim (s : String) (h : isUpperHexColor s = true) :
    ∃ c1 c2 c3 c4 c5 c6, s.data = ['#', c1, c2, c3, c4, c5, c6] ∧
      isUpperHexCh c1 = true ∧ isUpperHexCh c2 = true ∧ isUpperHexCh c3 = true ∧
      isUpperHexCh c4 = true ∧ isUpperHexCh c5 = true ∧ isUpperHexCh c6 = true := by
  unfold isUpperHexColor at h
  split at h
  · rename_i c1 c2 c3 c4 c5 c6 heq
    simp only [Bool.and_eq_true] at h
    exact ⟨c1, c2, c3, c4, c5, c6, heq, h.1.1.1.1.1, h.1.1.1.1.2, h.1.1.1.2, h.1.1.2, h.1.2, h.2⟩
  · exact absurd h (by decide)

end ThemeEd

/-- `generate_qss()` with the default template argument just produces the
default stylesheet. -/
theorem QSSPalette.generate_qss_eq_default (p : QSSPalette) :
    p.generate_qss = p.generate_default_qss :=
  rfl

set_option maxRecDepth 16000 in
open ThemeEd in
/-- The generated stylesheet's character stream, for a palette whose spliced
fields are concrete uppercase hex colours. -/
theorem QSSPalette.generate_data_eq (p : QSSPalette)
    (b1 b2 b3 b4 b5 b6 f1 f2 f3 f4 f5 f6 p1 p2 p3 p4 p5 p6 r1 r2 r3 r4 r5 r6 h1 h2 h3 h4 h5 h6 s1 s2 s3 s4 s5 s6 a1 a2 a3 a4 a5 a6 : Char)
    (hbgd : p.background.data = ['#', b1, b2, b3, b4, b5, b6])
    (hfgd : p.foreground.data = ['#', f1, f2, f3, f4, f5, f6])
    (hprd : p.primary.data = ['#', p1, p2, p3, p4, p5, p6])
    (hbdd : p.border.data = ['#', r1, r2, r3, r4, r5, r6])
    (hhvd : p.hover.data = ['#', h1, h2, h3, h4, h5, h6])
    (hsld : p.selected.data = ['#', s1, s2, s3, s4, s5, s6])
    (hdid : p.disabled.data = ['#', a1, a2, a3, a4, a5, a6]) :
    (p.generate_default_qss).data = ThemeEd.qssDocData b1 b2 b3 b4 b5 b6 f1 f2 f3 f4 f5 f6 p1 p2 p3 p4 p5 p6 r1 r2 r3 r4 r5 r6 h1 h2 h3 h4 h5 h6 s1 s2 s3 s4 s5 s6 a1 a2 a3 a4 a5 a6 := by
  unfold QSSPalette.generate_default_qss ThemeEd.qssDocData
  simp only [String.data_append, hbgd, hfgd, hprd, hbdd, hhvd, hsld, hdid]

set_option maxRecDepth 16000 in
open ThemeEd in
/-- Extraction applied to the generated stylesheet, for any palette whose
seven spliced fields are uppercase hex colours: `background`, `foreground`,
`primary`, `hover` and `selected` are recovered verbatim; the `border` rule
finds nothing (no line of the template puts a colour directly after a colon
that follows the word `border`), so `border` comes back as the default
`#CCCCCC`; `secondary` and `disabled` keep their defaults. -/
theorem QSSPalette.from_qss_generate (p : QSSPalette)
    (hbg : isUpperHexColor p.background = true)
    (hfg : isUpperHexColor p.foreground = true)
    (hpr : isUpperHexColor p.primary = true)
    (hbd : isUpperHexColor p.border = true)
    (hhv : isUpperHexColor p.hover = true)
    (hsl : isUpperHexColor p.selected = true)
    (hdi : isUpperHexColor p.disabled = true) :
    QSSPalette.from_qss (p.generate_qss) =
      { background := p.background, foreground := p.foreground,
        primary := p.primary, secondary := "#6C757D", border := "#CCCCCC",
        hover := p.hover, selected := p.selected, disabled := "#999999" } := by
  obtain ⟨b1, b2, b3, b4, b5, b6, hbgd, hb1, hb2, hb3, hb4, hb5, hb6⟩ :=
    isUpperHexColor_elim _ hbg
  obtain ⟨f1, f2, f3, f4, f5, f6, hfgd, hf1, hf2, hf3, hf4, hf5, hf6⟩ :=
    isUpperHexColor_elim _ hfg
  obtain ⟨p1, p2, p3, p4, p5, p6, hprd, hp1, hp2, hp3, hp4, hp5, hp6⟩ :=
    isUpperHexColor_elim _ hpr
  obtain ⟨r1, r2, r3, r4, r5, r6, hbdd, hr1, hr2, hr3, hr4, hr5, hr6⟩ :=
    isUpperHexColor_elim _ hbd
  obtain ⟨h1, h2, h3, h4, h5, h6, hhvd, hh1, hh2, hh3, hh4, hh5, hh6⟩ :=
    isUpperHexColor_elim _ hhv
  obtain ⟨s1, s2, s3, s4, s5, s6, hsld, hs1, hs2, hs3, hs4, hs5, hs6⟩ :=
    isUpperHexColor_elim _ hsl
  obtain ⟨a1, a2, a3, a4, a5, a6, hdid, ha1, ha2, ha3, ha4, ha5, ha6⟩ :=
    isUpperHexColor_elim _ hdi
  have hdata : (p.generate_qss).data = ThemeEd.qssDocData b1 b2 b3 b4 b5 b6 f1 f2 f3 f4 f5 f6 p1 p2 p3 p4 p5 p6 r1 r2 r3 r4 r5 r6 h1 h2 h3 h4 h5 h6 s1 s2 s3 s4 s5 s6 a1 a2 a3 a4 a5 a6 := by
    rw [QSSPalette.generate_qss_eq_default]
    exact QSSPalette.generate_data_eq p b1 b2 b3 b4 b5 b6 f1 f2 f3 f4 f5 f6 p1 p2 p3 p4 p5 p6 r1 r2 r3 r4 r5 r6 h1 h2 h3 h4 h5 h6 s1 s2 s3 s4 s5 s6 a1 a2 a3 a4 a5 a6 hbgd hfgd hprd hbdd hhvd hsld hdid
  simp only [QSSPalette.from_qss]
  rw [hdata]
  rw [ThemeEd.hasHexColor_gen b1 b2 b3 b4 b5 b6 f1 f2 f3 f4 f5 f6 p1 p2 p3 p4 p5 p6 r1 r2 r3 r4 r5 r6 h1 h2 h3 h4 h5 h6 s1 s2 s3 s4 s5 s6 a1 a2 a3 a4 a5 a6
    (hb1 : ThemeEd.isUpperHexCh b1 = true) (hb2 : ThemeEd.isUpperHexCh b2 = true) (hb3 : ThemeEd.isUpperHexCh b3 = true) (hb4 : ThemeEd.isUpperHexCh b4 = true) (hb5 : ThemeEd.isUpperHexCh b5 = true) (hb6 : ThemeEd.isUpperHexCh b6 = true)
    (hf1 : ThemeEd.isUpperHexCh f1 = true) (hf2 : ThemeEd.isUpperHexCh f2 = true) (hf3 : ThemeEd.isUpperHexCh f3 = true) (hf4 : ThemeEd.isUpperHexCh f4 = true) (hf5 : ThemeEd.isUpperHexCh f5 = true) (hf6 : ThemeEd.isUpperHexCh f6 = true)
    (hp1 : ThemeEd.isUpperHexCh p1 = true) (hp2 : ThemeEd.isUpperHexCh p2 = true) (hp3 : ThemeEd.isUpperHexCh p3 = true) (hp4 : ThemeEd.isUpperHexCh p4 = true) (hp5 : ThemeEd.isUpperHexCh p5 = true) (hp6 : ThemeEd.isUpperHexCh p6 = true)
    (hr1 : ThemeEd.isUpperHexCh r1 = true) (hr2 : ThemeEd.isUpperHexCh r2 = true) (hr3 : ThemeEd.isUpperHexCh r3 = true) (hr4 : ThemeEd.isUpperHexCh r4 = true) (hr5 : ThemeEd.isUpperHexCh r5 = true) (hr6 : ThemeEd.isUpperHexCh r6 = true)
    (hh1 : ThemeEd.isUpperHexCh h1 = true) (hh2 : ThemeEd.isUpperHexCh h2 = true) (hh3 : ThemeEd.isUpperHexCh h3 = true) (hh4 : ThemeEd.isUpperHexCh h4 = true) (hh5 : ThemeEd.isUpperHexCh h5 = true) (hh6 : ThemeEd.isUpperHexCh h6 = true)
    (hs1 : ThemeEd.isUpperHexCh s1 = true) (hs2 : ThemeEd.isUpperHexCh s2 = true) (hs3 : ThemeEd.isUpperHexCh s3 = true) (hs4 : ThemeEd.isUpperHexCh s4 = true) (hs5 : ThemeEd.isUpperHexCh s5 = true) (hs6 : ThemeEd.isUpperHexCh s6 = true)
    (ha1 : ThemeEd.isUpperHexCh a1 = true) (ha2 : ThemeEd.isUpperHexCh a2 = true) (ha3 : ThemeEd.isUpperHexCh a3 = true) (ha4 : ThemeEd.isUpperHexCh a4 = true) (ha5 : ThemeEd.isUpperHexCh a5 = true) (ha6 : ThemeEd.isUpperHexCh a6 = true)]
  rw [if_pos rfl]
  rw [ThemeEd.searchWidgetBg_gen b1 b2 b3 b4 b5 b6 f1 f2 f3 f4 f5 f6 p1 p2 p3 p4 p5 p6 r1 r2 r3 r4 r5 r6 h1 h2 h3 h4 h5 h6 s1 s2 s3 s4 s5 s6 a1 a2 a3 a4 a5 a6
    (hb1 : ThemeEd.isUpperHexCh b1 = true) (hb2 : ThemeEd.isUpperHexCh b2 = true) (hb3 : ThemeEd.isUpperHexCh b3 = true) (hb4 : ThemeEd.isUpperHexCh b4 = true) (hb5 : ThemeEd.isUpperHexCh b5 = true) (hb6 : ThemeEd.isUpperHexCh b6 = true)
    (hf1 : ThemeEd.isUpperHexCh f1 = true) (hf2 : ThemeEd.isUpperHexCh f2 = true) (hf3 : ThemeEd.isUpperHexCh f3 = true) (hf4 : ThemeEd.isUpperHexCh f4 = true) (hf5 : ThemeEd.isUpperHexCh f5 = true) (hf6 : ThemeEd.isUpperHexCh f6 = true)
    (hp1 : ThemeEd.isUpperHexCh p1 = true) (hp2 : ThemeEd.isUpperHexCh p2 = true) (hp3 : ThemeEd.isUpperHexCh p3 = true) (hp4 : ThemeEd.isUpperHexCh p4 = true) (hp5 : ThemeEd.isUpperHexCh p5 = true) (hp6 : ThemeEd.isUpperHexCh p6 = true)
    (hr1 : ThemeEd.isUpperHexCh r1 = true) (hr2 : ThemeEd.isUpperHexCh r2 = true) (hr3 : ThemeEd.isUpperHexCh r3 = true) (hr4 : ThemeEd.isUpperHexCh r4 = true) (hr5 : ThemeEd.isUpperHexCh r5 = true) (hr6 : ThemeEd.isUpperHexCh r6 = true)
    (hh1 : ThemeEd.isUpperHexCh h1 = true) (hh2 : ThemeEd.isUpperHexCh h2 = true) (hh3 : ThemeEd.isUpperHexCh h3 = true) (hh4 : ThemeEd.isUpperHexCh h4 = true) (hh5 : ThemeEd.isUpperHexCh h5 = true) (hh6 : ThemeEd.isUpperHexCh h6 = true)
    (hs1 : ThemeEd.isUpperHexCh s1 = true) (hs2 : ThemeEd.isUpperHexCh s2 = true) (hs3 : ThemeEd.isUpperHexCh s3 = true) (hs4 : ThemeEd.isUpperHexCh s4 = true) (hs5 : ThemeEd.isUpperHexCh s5 = true) (hs6 : ThemeEd.isUpperHexCh s6 = true)
    (ha1 : ThemeEd.isUpperHexCh a1 = true) (ha2 : ThemeEd.isUpperHexCh a2 = true) (ha3 : ThemeEd.isUpperHexCh a3 = true) (ha4 : ThemeEd.isUpperHexCh a4 = true) (ha5 : ThemeEd.isUpperHexCh a5 = true) (ha6 : ThemeEd.isUpperHexCh a6 = true)]
  rw [ThemeEd.searchWidgetFg_gen b1 b2 b3 b4 b5 b6 f1 f2 f3 f4 f5 f6 p1 p2 p3 p4 p5 p6 r1 r2 r3 r4 r5 r6 h1 h2 h3 h4 h5 h6 s1 s2 s3 s4 s5 s6 a1 a2 a3 a4 a5 a6
    (hb1 : ThemeEd.isUpperHexCh b1 = true) (hb2 : ThemeEd.isUpperHexCh b2 = true) (hb3 : ThemeEd.isUpperHexCh b3 = true) (hb4 : ThemeEd.isUpperHexCh b4 = true) (hb5 : ThemeEd.isUpperHexCh b5 = true) (hb6 : ThemeEd.isUpperHexCh b6 = true)
    (hf1 : ThemeEd.isUpperHexCh f1 = true) (hf2 : ThemeEd.isUpperHexCh f2 = true) (hf3 : ThemeEd.isUpperHexCh f3 = true) (hf4 : ThemeEd.isUpperHexCh f4 = true) (hf5 : ThemeEd.isUpperHexCh f5 = true) (hf6 : ThemeEd.isUpperHexCh f6 = true)
    (hp1 : ThemeEd.isUpperHexCh p1 = true) (hp2 : ThemeEd.isUpperHexCh p2 = true) (hp3 : ThemeEd.isUpperHexCh p3 = true) (hp4 : ThemeEd.isUpperHexCh p4 = true) (hp5 : ThemeEd.isUpperHexCh p5 = true) (hp6 : ThemeEd.isUpperHexCh p6 = true)
    (hr1 : ThemeEd.isUpperHexCh r1 = true) (hr2 : ThemeEd.isUpperHexCh r2 = true) (hr3 : ThemeEd.isUpperHexCh r3 = true) (hr4 : ThemeEd.isUpperHexCh r4 = true) (hr5 : ThemeEd.isUpperHexCh r5 = true) (hr6 : ThemeEd.isUpperHexCh r6 = true)
    (hh1 : ThemeEd.isUpperHexCh h1 = true) (hh2 : ThemeEd.isUpperHexCh h2 = true) (hh3 : ThemeEd.isUpperHexCh h3 = true) (hh4 : ThemeEd.isUpperHexCh h4 = true) (hh5 : ThemeEd.isUpperHexCh h5 = true) (hh6 : ThemeEd.isUpperHexCh h6 = true)
    (hs1 : ThemeEd.isUpperHexCh s1 = true) (hs2 : ThemeEd.isUpperHexCh s2 = true) (hs3 : ThemeEd.isUpperHexCh s3 = true) (hs4 : ThemeEd.isUpperHexCh s4 = true) (hs5 : ThemeEd.isUpperHexCh s5 = true) (hs6 : ThemeEd.isUpperHexCh s6 = true)
    (ha1 : ThemeEd.isUpperHexCh a1 = true) (ha2 : ThemeEd.isUpperHexCh a2 = true) (ha3 : ThemeEd.isUpperHexCh a3 = true) (ha4 : ThemeEd.isUpperHexCh a4 = true) (ha5 : ThemeEd.isUpperHexCh a5 = true) (ha6 : ThemeEd.isUpperHexCh a6 = true)]
  rw [ThemeEd.searchButtonBg_gen b1 b2 b3 b4 b5 b6 f1 f2 f3 f4 f5 f6 p1 p2 p3 p4 p5 p6 r1 r2 r3 r4 r5 r6 h1 h2 h3 h4 h5 h6 s1 s2 s3 s4 s5 s6 a1 a2 a3 a4 a5 a6
    (hb1 : ThemeEd.isUpperHexCh b1 = true) (hb2 : ThemeEd.isUpperHexCh b2 = true) (hb3 : ThemeEd.isUpperHexCh b3 = true) (hb4 : ThemeEd.isUpperHexCh b4 = true) (hb5 : ThemeEd.isUpperHexCh b5 = true) (hb6 : ThemeEd.isUpperHexCh b6 = true)
    (hf1 : ThemeEd.isUpperHexCh f1 = true) (hf2 : ThemeEd.isUpperHexCh f2 = true) (hf3 : ThemeEd.isUpperHexCh f3 = true) (hf4 : ThemeEd.isUpperHexCh f4 = true) (hf5 : ThemeEd.isUpperHexCh f5 = true) (hf6 : ThemeEd.isUpperHexCh f6 = true)
    (hp1 : ThemeEd.isUpperHexCh p1 = true) (hp2 : ThemeEd.isUpperHexCh p2 = true) (hp3 : ThemeEd.isUpperHexCh p3 = true) (hp4 : ThemeEd.isUpperHexCh p4 = true) (hp5 : ThemeEd.isUpperHexCh p5 = true) (hp6 : ThemeEd.isUpperHexCh p6 = true)
    (hr1 : ThemeEd.isUpperHexCh r1 = true) (hr2 : ThemeEd.isUpperHexCh r2 = true) (hr3 : ThemeEd.isUpperHexCh r3 = true) (hr4 : ThemeEd.isUpperHexCh r4 = true) (hr5 : ThemeEd.isUpperHexCh r5 = true) (hr6 : ThemeEd.isUpperHexCh r6 = true)
    (hh1 : ThemeEd.isUpperHexCh h1 = true) (hh2 : ThemeEd.isUpperHexCh h2 = true) (hh3 : ThemeEd.isUpperHexCh h3 = true) (hh4 : ThemeEd.isUpperHexCh h4 = true) (hh5 : ThemeEd.isUpperHexCh h5 = true) (hh6 : ThemeEd.isUpperHexCh h6 = true)
    (hs1 : ThemeEd.isUpperHexCh s1 = true) (hs2 : ThemeEd.isUpperHexCh s2 = true) (hs3 : ThemeEd.isUpperHexCh s3 = true) (hs4 : ThemeEd.isUpperHexCh s4 = true) (hs5 : ThemeEd.isUpperHexCh s5 = true) (hs6 : ThemeEd.isUpperHexCh s6 = true)
    (ha1 : ThemeEd.isUpperHexCh a1 = true) (ha2 : ThemeEd.isUpperHexCh a2 = true) (ha3 : ThemeEd.isUpperHexCh a3 = true) (ha4 : ThemeEd.isUpperHexCh a4 = true) (ha5 : ThemeEd.isUpperHexCh a5 = true) (ha6 : ThemeEd.isUpperHexCh a6 = true)]
  rw [ThemeEd.searchHoverBg_gen b1 b2 b3 b4 b5 b6 f1 f2 f3 f4 f5 f6 p1 p2 p3 p4 p5 p6 r1 r2 r3 r4 r5 r6 h1 h2 h3 h4 h5 h6 s1 s2 s3 s4 s5 s6 a1 a2 a3 a4 a5 a6
    (hb1 : ThemeEd.isUpperHexCh b1 = true) (hb2 : ThemeEd.isUpperHexCh b2 = true) (hb3 : ThemeEd.isUpperHexCh b3 = true) (hb4 : ThemeEd.isUpperHexCh b4 = true) (hb5 : ThemeEd.isUpperHexCh b5 = true) (hb6 : ThemeEd.isUpperHexCh b6 = true)
    (hf1 : ThemeEd.isUpperHexCh f1 = true) (hf2 : ThemeEd.isUpperHexCh f2 = true) (hf3 : ThemeEd.isUpperHexCh f3 = true) (hf4 : ThemeEd.isUpperHexCh f4 = true) (hf5 : ThemeEd.isUpperHexCh f5 = true) (hf6 : ThemeEd.isUpperHexCh f6 = true)
    (hp1 : ThemeEd.isUpperHexCh p1 = true) (hp2 : ThemeEd.isUpperHexCh p2 = true) (hp3 : ThemeEd.isUpperHexCh p3 = true) (hp4 : ThemeEd.isUpperHexCh p4 = true) (hp5 : ThemeEd.isUpperHexCh p5 = true) (hp6 : ThemeEd.isUpperHexCh p6 = true)
    (hr1 : ThemeEd.isUpperHexCh r1 = true) (hr2 : ThemeEd.isUpperHexCh r2 = true) (hr3 : ThemeEd.isUpperHexCh r3 = true) (hr4 : ThemeEd.isUpperHexCh r4 = true) (hr5 : ThemeEd.isUpperHexCh r5 = true) (hr6 : ThemeEd.isUpperHexCh r6 = true)
    (hh1 : ThemeEd.isUpperHexCh h1 = true) (hh2 : ThemeEd.isUpperHexCh h2 = true) (hh3 : ThemeEd.isUpperHexCh h3 = true) (hh4 : ThemeEd.isUpperHexCh h4 = true) (hh5 : ThemeEd.isUpperHexCh h5 = true) (hh6 : ThemeEd.isUpperHexCh h6 = true)
    (hs1 : ThemeEd.isUpperHexCh s1 = true) (hs2 : ThemeEd.isUpperHexCh s2 = true) (hs3 : ThemeEd.isUpperHexCh s3 = true) (hs4 : ThemeEd.isUpperHexCh s4 = true) (hs5 : ThemeEd.isUpperHexCh s5 = true) (hs6 : ThemeEd.isUpperHexCh s6 = true)
    (ha1 : ThemeEd.isUpperHexCh a1 = true) (ha2 : ThemeEd.isUpperHexCh a2 = true) (ha3 : ThemeEd.isUpperHexCh a3 = true) (ha4 : ThemeEd.isUpperHexCh a4 = true) (ha5 : ThemeEd.isUpperHexCh a5 = true) (ha6 : ThemeEd.isUpperHexCh a6 = true)]
  rw [ThemeEd.searchSelectedBg_gen b1 b2 b3 b4 b5 b6 f1 f2 f3 f4 f5 f6 p1 p2 p3 p4 p5 p6 r1 r2 r3 r4 r5 r6 h1 h2 h3 h4 h5 h6 s1 s2 s3 s4 s5 s6 a1 a2 a3 a4 a5 a6
    (hb1 : ThemeEd.isUpperHexCh b1 = true) (hb2 : ThemeEd.isUpperHexCh b2 = true) (hb3 : ThemeEd.isUpperHexCh b3 = true) (hb4 : ThemeEd.isUpperHexCh b4 = true) (hb5 : ThemeEd.isUpperHexCh b5 = true) (hb6 : ThemeEd.isUpperHexCh b6 = true)
    (hf1 : ThemeEd.isUpperHexCh f1 = true) (hf2 : ThemeEd.isUpperHexCh f2 = true) (hf3 : ThemeEd.isUpperHexCh f3 = true) (hf4 : ThemeEd.isUpperHexCh f4 = true) (hf5 : ThemeEd.isUpperHexCh f5 = true) (hf6 : ThemeEd.isUpperHexCh f6 = true)
    (hp1 : ThemeEd.isUpperHexCh p1 = true) (hp2 : ThemeEd.isUpperHexCh p2 = true) (hp3 : ThemeEd.isUpperHexCh p3 = true) (hp4 : ThemeEd.isUpperHexCh p4 = true) (hp5 : ThemeEd.isUpperHexCh p5 = true) (hp6 : ThemeEd.isUpperHexCh p6 = true)
    (hr1 : ThemeEd.isUpperHexCh r1 = true) (hr2 : ThemeEd.isUpperHexCh r2 = true) (hr3 : ThemeEd.isUpperHexCh r3 = true) (hr4 : ThemeEd.isUpperHexCh r4 = true) (hr5 : ThemeEd.isUpperHexCh r5 = true) (hr6 : ThemeEd.isUpperHexCh r6 = true)
    (hh1 : ThemeEd.isUpperHexCh h1 = true) (hh2 : ThemeEd.isUpperHexCh h2 = true) (hh3 : ThemeEd.isUpperHexCh h3 = true) (hh4 : ThemeEd.isUpperHexCh h4 = true) (hh5 : ThemeEd.isUpperHexCh h5 = true) (hh6 : ThemeEd.isUpperHexCh h6 = true)
    (hs1 : ThemeEd.isUpperHexCh s1 = true) (hs2 : ThemeEd.isUpperHexCh s2 = true) (hs3 : ThemeEd.isUpperHexCh s3 = true) (hs4 : ThemeEd.isUpperHexCh s4 = true) (hs5 : ThemeEd.isUpperHexCh s5 = true) (hs6 : ThemeEd.isUpperHexCh s6 = true)
    (ha1 : ThemeEd.isUpperHexCh a1 = true) (ha2 : ThemeEd.isUpperHexCh a2 = true) (ha3 : ThemeEd.isUpperHexCh a3 = true) (ha4 : ThemeEd.isUpperHexCh a4 = true) (ha5 : ThemeEd.isUpperHexCh a5 = true) (ha6 : ThemeEd.isUpperHexCh a6 = true)]
  rw [ThemeEd.searchBorder_gen b1 b2 b3 b4 b5 b6 f1 f2 f3 f4 f5 f6 p1 p2 p3 p4 p5 p6 r1 r2 r3 r4 r5 r6 h1 h2 h3 h4 h5 h6 s1 s2 s3 s4 s5 s6 a1 a2 a3 a4 a5 a6
    (hb1 : ThemeEd.isUpperHexCh b1 = true) (hb2 : ThemeEd.isUpperHexCh b2 = true) (hb3 : ThemeEd.isUpperHexCh b3 = true) (hb4 : ThemeEd.isUpperHexCh b4 = true) (hb5 : ThemeEd.isUpperHexCh b5 = true) (hb6 : ThemeEd.isUpperHexCh b6 = true)
    (hf1 : ThemeEd.isUpperHexCh f1 = true) (hf2 : ThemeEd.isUpperHexCh f2 = true) (hf3 : ThemeEd.isUpperHexCh f3 = true) (hf4 : ThemeEd.isUpperHexCh f4 = true) (hf5 : ThemeEd.isUpperHexCh f5 = true) (hf6 : ThemeEd.isUpperHexCh f6 = true)
    (hp1 : ThemeEd.isUpperHexCh p1 = true) (hp2 : ThemeEd.isUpperHexCh p2 = true) (hp3 : ThemeEd.isUpperHexCh p3 = true) (hp4 : ThemeEd.isUpperHexCh p4 = true) (hp5 : ThemeEd.isUpperHexCh p5 = true) (hp6 : ThemeEd.isUpperHexCh p6 = true)
    (hr1 : ThemeEd.isUpperHexCh r1 = true) (hr2 : ThemeEd.isUpperHexCh r2 = true) (hr3 : ThemeEd.isUpperHexCh r3 = true) (hr4 : ThemeEd.isUpperHexCh r4 = true) (hr5 : ThemeEd.isUpperHexCh r5 = true) (hr6 : ThemeEd.isUpperHexCh r6 = true)
    (hh1 : ThemeEd.isUpperHexCh h1 = true) (hh2 : ThemeEd.isUpperHexCh h2 = true) (hh3 : ThemeEd.isUpperHexCh h3 = true) (hh4 : ThemeEd.isUpperHexCh h4 = true) (hh5 : ThemeEd.isUpperHexCh h5 = true) (hh6 : ThemeEd.isUpperHexCh h6 = true)
    (hs1 : ThemeEd.isUpperHexCh s1 = true) (hs2 : ThemeEd.isUpperHexCh s2 = true) (hs3 : ThemeEd.isUpperHexCh s3 = true) (hs4 : ThemeEd.isUpperHexCh s4 = true) (hs5 : ThemeEd.isUpperHexCh s5 = true) (hs6 : ThemeEd.isUpperHexCh s6 = true)
    (ha1 : ThemeEd.isUpperHexCh a1 = true) (ha2 : ThemeEd.isUpperHexCh a2 = true) (ha3 : ThemeEd.isUpperHexCh a3 = true) (ha4 : ThemeEd.isUpperHexCh a4 = true) (ha5 : ThemeEd.isUpperHexCh a5 = true) (ha6 : ThemeEd.isUpperHexCh a6 = true)]
  simp only [ThemeEd.updField, List.map_cons, List.map_nil,
    (isUpperHexCh_facts b1 hb1).2.2.2.2.2.2.2.2.1, (isUpperHexCh_facts b2 hb2).2.2.2.2.2.2.2.2.1,
    (isUpperHexCh_facts b3 hb3).2.2.2.2.2.2.2.2.1, (isUpperHexCh_facts b4 hb4).2.2.2.2.2.2.2.2.1,
    (isUpperHexCh_facts b5 hb5).2.2.2.2.2.2.2.2.1, (isUpperHexCh_facts b6 hb6).2.2.2.2.2.2.2.2.1,
    (isUpperHexCh_facts f1 hf1).2.2.2.2.2.2.2.2.1, (isUpperHexCh_facts f2 hf2).2.2.2.2.2.2.2.2.1,
    (isUpperHexCh_facts f3 hf3).2.2.2.2.2.2.2.2.1, (isUpperHexCh_facts f4 hf4).2.2.2.2.2.2.2.2.1,
    (isUpperHexCh_facts f5 hf5).2.2.2.2.2.2.2.2.1, (isUpperHexCh_facts f6 hf6).2.2.2.2.2.2.2.2.1,
    (isUpperHexCh_facts p1 hp1).2.2.2.2.2.2.2.2.1, (isUpperHexCh_facts p2 hp2).2.2.2.2.2.2.2.2.1,
    (isUpperHexCh_facts p3 hp3).2.2.2.2.2.2.2.2.1, (isUpperHexCh_facts p4 hp4).2.2.2.2.2.2.2.2.1,
    (isUpperHexCh_facts p5 hp5).2.2.2.2.2.2.2.2.1, (isUpperHexCh_facts p6 hp6).2.2.2.2.2.2.2.2.1,
    (isUpperHexCh_facts h1 hh1).2.2.2.2.2.2.2.2.1, (isUpperHexCh_facts h2 hh2).2.2.2.2.2.2.2.2.1,
    (isUpperHexCh_facts h3 hh3).2.2.2.2.2.2.2.2.1, (isUpperHexCh_facts h4 hh4).2.2.2.2.2.2.2.2.1,
    (isUpperHexCh_facts h5 hh5).2.2.2.2.2.2.2.2.1, (isUpperHexCh_facts h6 hh6).2.2.2.2.2.2.2.2.1,
    (isUpperHexCh_facts s1 hs1).2.2.2.2.2.2.2.2.1, (isUpperHexCh_facts s2 hs2).2.2.2.2.2.2.2.2.1,
    (isUpperHexCh_facts s3 hs3).2.2.2.2.2.2.2.2.1, (isUpperHexCh_facts s4 hs4).2.2.2.2.2.2.2.2.1,
    (isUpperHexCh_facts s5 hs5).2.2.2.2.2.2.2.2.1, (isUpperHexCh_facts s6 hs6).2.2.2.2.2.2.2.2.1]
  rw [show upperChar '#' = '#' from rfl]
  rw [← hbgd, ← hfgd, ← hprd, ← hhvd, ← hsld]

namespace ThemeEd

/-- A stylesheet with two `:hover`-scoped blocks, each declaring its own
`background-color`. -/
def twoHoverQss (c1 c2 : String) : String :=
  ":hover \x7b background-color: " ++ c1 ++ ("; \x7d :hover \x7b background-color: " ++ c2 ++ "; \x7d")

/-- On a stylesheet with two `:hover` blocks, `re.search` takes the FIRST
matching block (the leftmost starting position wins), so `from_qss` assigns
the first block's colour to `hover`. -/
theorem from_qss_twoHover (x1 x2 x3 x4 x5 x6 y1 y2 y3 y4 y5 y6 : Char)
    (hx1 : isUpperHexCh x1 = true) (hx2 : isUpperHexCh x2 = true)
    (hx3 : isUpperHexCh x3 = true) (hx4 : isUpperHexCh x4 = true)
    (hx5 : isUpperHexCh x5 = true) (hx6 : isUpperHexCh x6 = true)
    (hy1 : isUpperHexCh y1 = true) (hy2 : isUpperHexCh y2 = true)
    (hy3 : isUpperHexCh y3 = true) (hy4 : isUpperHexCh y4 = true)
    (hy5 : isUpperHexCh y5 = true) (hy6 : isUpperHexCh y6 = true) :
    (QSSPalette.from_qss
        (twoHoverQss ⟨['#', x1, x2, x3, x4, x5, x6]⟩ ⟨['#', y1, y2, y3, y4, y5, y6]⟩)).hover =
      ⟨['#', x1, x2, x3, x4, x5, x6]⟩ := by
  have hdata : (twoHoverQss ⟨['#', x1, x2, x3, x4, x5, x6]⟩ ⟨['#', y1, y2, y3, y4, y5, y6]⟩).data =
      ((":hover \x7b background-color: " : String).data) ++ (['#', x1, x2, x3, x4, x5, x6] ++
        ((("; \x7d :hover \x7b background-color: " : String).data) ++
          (['#', y1, y2, y3, y4, y5, y6] ++ (("; \x7d" : String).data)))) := by
    unfold twoHoverQss
    simp only [String.data_append]
    rfl
  have hHex : hasHexColor (((":hover \x7b background-color: " : String).data) ++
      (['#', x1, x2, x3, x4, x5, x6] ++
        ((("; \x7d :hover \x7b background-color: " : String).data) ++
          (['#', y1, y2, y3, y4, y5, y6] ++ (("; \x7d" : String).data))))) = true := by
    apply hasHexColor_append_right
    rw [show (['#', x1, x2, x3, x4, x5, x6] ++
        ((("; \x7d :hover \x7b background-color: " : String).data) ++
          (['#', y1, y2, y3, y4, y5, y6] ++ (("; \x7d" : String).data)))) =
      ('#' :: x1 :: x2 :: x3 :: x4 :: x5 :: x6 :: (';' ::
        (((" \x7d :hover \x7b background-color: " : String).data) ++
          (['#', y1, y2, y3, y4, y5, y6] ++ (("; \x7d" : String).data))))) from rfl]
    apply hasHexColor_of_tokenAt
    exact hexTokenAt_token x1 x2 x3 x4 x5 x6
      (isUpperHexCh_facts x1 hx1).2.2.2.2.2.2.2.1 (isUpperHexCh_facts x2 hx2).2.2.2.2.2.2.2.1
      (isUpperHexCh_facts x3 hx3).2.2.2.2.2.2.2.1 (isUpperHexCh_facts x4 hx4).2.2.2.2.2.2.2.1
      (isUpperHexCh_facts x5 hx5).2.2.2.2.2.2.2.1 (isUpperHexCh_facts x6 hx6).2.2.2.2.2.2.2.1
      ';' (by decide) _
  have hsearch : searchHoverBg (((":hover \x7b background-color: " : String).data) ++
      (['#', x1, x2, x3, x4, x5, x6] ++
        ((("; \x7d :hover \x7b background-color: " : String).data) ++
          (['#', y1, y2, y3, y4, y5, y6] ++ (("; \x7d" : String).data))))) =
      some ['#', x1, x2, x3, x4, x5, x6] := by
    unfold searchHoverBg
    have hnone : scanBlockLast ("background-color:".data)
        ((("ackground-color:" : String).data) ++ (' ' :: (['#', x1, x2, x3, x4, x5, x6] ++
          ((("; \x7d :hover \x7b background-color: " : String).data) ++
            (['#', y1, y2, y3, y4, y5, y6] ++ (("; \x7d" : String).data)))))) = none := by
      rw [show ((("ackground-color:" : String).data) ++ (' ' :: (['#', x1, x2, x3, x4, x5, x6] ++
          ((("; \x7d :hover \x7b background-color: " : String).data) ++
            (['#', y1, y2, y3, y4, y5, y6] ++ (("; \x7d" : String).data)))))) =
        ((("ackground-color: " : String).data) ++ (['#', x1, x2, x3, x4, x5, x6] ++
          ((("; " : String).data) ++ ('\x7d' ::
            (((" :hover \x7b background-color: " : String).data) ++
              (['#', y1, y2, y3, y4, y5, y6] ++ (("; \x7d" : String).data))))))) from rfl]
      rw [scanBlockLast_skip_piece ("background-color:".data) ((("ackground-color: " : String).data)) _ (by decide) (by decide)]
      rw [scanBlockLast_skip_piece ("background-color:".data) (['#', x1, x2, x3, x4, x5, x6]) _
        (clearB_hexToken ("background-color:".data) 'b' ("ackground-color:".data) rfl (by decide)
          (fun c hc => (isUpperHexCh_facts c hc).2.2.1) x1 x2 x3 x4 x5 x6 hx1 hx2 hx3 hx4 hx5 hx6)
        (mem_hexToken_ne_rbrace x1 x2 x3 x4 x5 x6 hx1 hx2 hx3 hx4 hx5 hx6)]
      exact scanBlockLast_none_piece ("background-color:".data) _ _ (by decide) (scanBlockLast_rbrace _ _)
    have hatt : matchHex6 (dropWs (' ' :: (['#', x1, x2, x3, x4, x5, x6] ++
        ((("; \x7d :hover \x7b background-color: " : String).data) ++
          (['#', y1, y2, y3, y4, y5, y6] ++ (("; \x7d" : String).data)))))) =
        some ['#', x1, x2, x3, x4, x5, x6] := by
      rw [dropWs_cons_ws ' ' _ (by decide)]
      rw [show (['#', x1, x2, x3, x4, x5, x6] ++
          ((("; \x7d :hover \x7b background-color: " : String).data) ++
            (['#', y1, y2, y3, y4, y5, y6] ++ (("; \x7d" : String).data)))) =
        ('#' :: x1 :: x2 :: x3 :: x4 :: x5 :: x6 ::
          ((("; \x7d :hover \x7b background-color: " : String).data) ++
            (['#', y1, y2, y3, y4, y5, y6] ++ (("; \x7d" : String).data)))) from rfl]
      rw [dropWs_cons_not '#' _ (by decide)]
      exact matchHex6_token x1 x2 x3 x4 x5 x6
        (isUpperHexCh_facts x1 hx1).2.2.2.2.2.2.2.1 (isUpperHexCh_facts x2 hx2).2.2.2.2.2.2.2.1
        (isUpperHexCh_facts x3 hx3).2.2.2.2.2.2.2.1 (isUpperHexCh_facts x4 hx4).2.2.2.2.2.2.2.1
        (isUpperHexCh_facts x5 hx5).2.2.2.2.2.2.2.1 (isUpperHexCh_facts x6 hx6).2.2.2.2.2.2.2.1 _
    have hhit : scanBlockLast ("background-color:".data)
        (("background-color:".data) ++ (' ' :: (['#', x1, x2, x3, x4, x5, x6] ++
          ((("; \x7d :hover \x7b background-color: " : String).data) ++
            (['#', y1, y2, y3, y4, y5, y6] ++ (("; \x7d" : String).data)))))) =
        some ['#', x1, x2, x3, x4, x5, x6] :=
      scanBlockLast_hit ("background-color:".data) (by decide) (by decide) _ hnone hatt
    have hbody : scanBlockLast ("background-color:".data)
        (((" " : String).data) ++ (("background-color:".data) ++ (' ' :: (['#', x1, x2, x3, x4, x5, x6] ++
          ((("; \x7d :hover \x7b background-color: " : String).data) ++
            (['#', y1, y2, y3, y4, y5, y6] ++ (("; \x7d" : String).data))))))) =
        some ['#', x1, x2, x3, x4, x5, x6] :=
      scanBlockLast_some_extend ("background-color:".data) _ _ _ (by decide) hhit
    have hdw : dropWs (((" \x7b background-color: " : String).data) ++
        (['#', x1, x2, x3, x4, x5, x6] ++
          ((("; \x7d :hover \x7b background-color: " : String).data) ++
            (['#', y1, y2, y3, y4, y5, y6] ++ (("; \x7d" : String).data))))) =
        '\x7b' :: (((" background-color: " : String).data) ++
          (['#', x1, x2, x3, x4, x5, x6] ++
            ((("; \x7d :hover \x7b background-color: " : String).data) ++
              (['#', y1, y2, y3, y4, y5, y6] ++ (("; \x7d" : String).data))))) := by
      rw [show (((" \x7b background-color: " : String).data) ++
          (['#', x1, x2, x3, x4, x5, x6] ++
            ((("; \x7d :hover \x7b background-color: " : String).data) ++
              (['#', y1, y2, y3, y4, y5, y6] ++ (("; \x7d" : String).data))))) =
        (' ' :: ('\x7b' :: (((" background-color: " : String).data) ++
          (['#', x1, x2, x3, x4, x5, x6] ++
            ((("; \x7d :hover \x7b background-color: " : String).data) ++
              (['#', y1, y2, y3, y4, y5, y6] ++ (("; \x7d" : String).data))))))) from rfl]
      rw [dropWs_cons_ws ' ' _ (by decide), dropWs_cons_not '\x7b' _ (by decide)]
    refine reSearch_hit _ _ _ ?_
    rw [show (((":hover \x7b background-color: " : String).data) ++
        (['#', x1, x2, x3, x4, x5, x6] ++
          ((("; \x7d :hover \x7b background-color: " : String).data) ++
            (['#', y1, y2, y3, y4, y5, y6] ++ (("; \x7d" : String).data))))) =
      ((":hover".data) ++ (((" \x7b background-color: " : String).data) ++
        (['#', x1, x2, x3, x4, x5, x6] ++
          ((("; \x7d :hover \x7b background-color: " : String).data) ++
            (['#', y1, y2, y3, y4, y5, y6] ++ (("; \x7d" : String).data)))))) from rfl]
    refine blockMatcher_hit (":hover".data) ("background-color:".data) _ _ _ hdw ?_
    rw [show (((" background-color: " : String).data) ++
        (['#', x1, x2, x3, x4, x5, x6] ++
          ((("; \x7d :hover \x7b background-color: " : String).data) ++
            (['#', y1, y2, y3, y4, y5, y6] ++ (("; \x7d" : String).data))))) =
      (((" " : String).data) ++ (("background-color:".data) ++ (' ' :: (['#', x1, x2, x3, x4, x5, x6] ++
        ((("; \x7d :hover \x7b background-color: " : String).data) ++
          (['#', y1, y2, y3, y4, y5, y6] ++ (("; \x7d" : String).data))))))) from rfl]
    exact hbody
  simp only [QSSPalette.from_qss]
  rw [hdata, hHex, if_pos rfl]
  show updField (searchHoverBg _) "#E5E5E5" = _
  rw [hsearch]
  simp only [updField, List.map_cons, List.map_nil,
    (isUpperHexCh_facts x1 hx1).2.2.2.2.2.2.2.2.1, (isUpperHexCh_facts x2 hx2).2.2.2.2.2.2.2.2.1,
    (isUpperHexCh_facts x3 hx3).2.2.2.2.2.2.2.2.1, (isUpperHexCh_facts x4 hx4).2.2.2.2.2.2.2.2.1,
    (isUpperHexCh_facts x5 hx5).2.2.2.2.2.2.2.2.1, (isUpperHexCh_facts x6 hx6).2.2.2.2.2.2.2.2.1]
  rw [show upperChar '#' = '#' from rfl]

end ThemeEd

namespace ThemeEd

/-- Everything `matchHex6` returns is a `#` followed by six hex digits. -/
def isHexToken (tok : List Char) : Prop :=
  ∃ a b c d e f, tok = ['#', a, b, c, d, e, f] ∧
    isHexDigitCh a = true ∧ isHexDigitCh b = true ∧ isHexDigitCh c = true ∧
    isHexDigitCh d = true ∧ isHexDigitCh e = true ∧ isHexDigitCh f = true

theorem matchHex6_shape (s tok : List Char) (h : matchHex6 s = some tok) :
    isHexToken tok := by
  unfold matchHex6 at h
  split at h
  · rename_i a b c d e f rest
    split at h
    · rename_i hall
      simp only [Bool.and_eq_true] at hall
      injection h with h'
      exact ⟨a, b, c, d, e, f, h'.symm,
        hall.1.1.1.1.1, hall.1.1.1.1.2, hall.1.1.1.2, hall.1.1.2, hall.1.2, hall.2⟩
    · exact absurd h (by simp)
  · exact absurd h (by simp)

theorem scanBlockLast_shape (lit s tok : List Char)
    (h : scanBlockLast lit s = some tok) : isHexToken tok := by
  induction s with
  | nil => simp [scanBlockLast] at h
  | cons c cs ih =>
    unfold scanBlockLast at h
    split at h
    · exact absurd h (by simp)
    · split at h
      · rename_i r hr
        injection h with h'
        exact ih (h' ▸ hr)
      · rw [Option.bind_eq_some] at h
        obtain ⟨rest, _, hmh⟩ := h
        exact matchHex6_shape _ _ hmh

theorem scanLineLast_shape (s tok : List Char)
    (h : scanLineLast s = some tok) : isHexToken tok := by
  induction s with
  | nil => simp [scanLineLast] at h
  | cons c cs ih =>
    unfold scanLineLast at h
    split at h
    · exact absurd h (by simp)
    · split at h
      · rename_i r hr
        injection h with h'
        exact ih (h' ▸ hr)
      · split at h
        · exact matchHex6_shape _ _ h
        · exact absurd h (by simp)

theorem blockMatcher_shape (sel lit s tok : List Char)
    (h : blockMatcher sel lit s = some tok) : isHexToken tok := by
  unfold blockMatcher at h
  rw [Option.bind_eq_some] at h
  obtain ⟨r, _, h2⟩ := h
  split at h2
  · exact scanBlockLast_shape _ _ _ h2
  · exact absurd h2 (by simp)

theorem borderMatcher_shape (s tok : List Char)
    (h : borderMatcher s = some tok) : isHexToken tok := by
  unfold borderMatcher at h
  rw [Option.bind_eq_some] at h
  obtain ⟨r, _, h2⟩ := h
  exact scanLineLast_shape _ _ h2

theorem reSearch_shape (m : List Char → Option (List Char))
    (hm : ∀ s tok, m s = some tok → isHexToken tok)
    (s tok : List Char) (h : reSearch m s = some tok) : isHexToken tok := by
  induction s with
  | nil => exact hm _ _ (by simpa [reSearch] using h)
  | cons c cs ih =>
    unfold reSearch at h
    split at h
    · rename_i r hr
      injection h with h'
      exact h' ▸ hm _ _ hr
    · exact ih h

/-- A hex digit stays a hex digit under uppercasing, and uppercasing a hex
digit is idempotent. -/
theorem upperChar_hexDigit (c : Char) (h : isHexDigitCh c = true) :
    isHexDigitCh (upperChar c) = true ∧ upperChar (upperChar c) = upperChar c := by
  simp [isHexDigitCh, hexDigitChars] at h
  rcases h with rfl|rfl|rfl|rfl|rfl|rfl|rfl|rfl|rfl|rfl|rfl|rfl|rfl|rfl|rfl|rfl|rfl|rfl|rfl|rfl|rfl|rfl <;>
    exact ⟨by decide, by decide⟩

/-- The two invariants of an extracted field: strict `#RRGGBB` validity and
fixedness under uppercasing. -/
def goodField (v : String) : Prop :=
  isFullHexAny v.data = true ∧ v.data.map upperChar = v.data

theorem goodField_updField (o : Option (List Char))
    (ho : ∀ tok, o = some tok → isHexToken tok)
    (d : String) (hd : goodField d) : goodField (updField o d) := by
  cases o with
  | none => exact hd
  | some tok =>
    obtain ⟨a, b, c, d', e, f, rfl, h1, h2, h3, h4, h5, h6⟩ := ho tok rfl
    unfold updField goodField
    simp only [List.map_cons, List.map_nil]
    rw [show upperChar '#' = '#' from rfl]
    refine ⟨?_, ?_⟩
    · simp only [isFullHexAny, (upperChar_hexDigit a h1).1, (upperChar_hexDigit b h2).1,
        (upperChar_hexDigit c h3).1, (upperChar_hexDigit d' h4).1,
        (upperChar_hexDigit e h5).1, (upperChar_hexDigit f h6).1, Bool.and_self]
    · simp only [List.map_cons, List.map_nil,
        (upperChar_hexDigit a h1).2, (upperChar_hexDigit b h2).2,
        (upperChar_hexDigit c h3).2, (upperChar_hexDigit d' h4).2,
        (upperChar_hexDigit e h5).2, (upperChar_hexDigit f h6).2]
      rw [show upperChar '#' = '#' from rfl]

theorem searchWidgetBg_shape (s tok : List Char) (h : searchWidgetBg s = some tok) :
    isHexToken tok :=
  reSearch_shape _ (fun s' t' h' => blockMatcher_shape _ _ s' t' h') s tok h

theorem searchWidgetFg_shape (s tok : List Char) (h : searchWidgetFg s = some tok) :
    isHexToken tok :=
  reSearch_shape _ (fun s' t' h' => blockMatcher_shape _ _ s' t' h') s tok h

theorem searchButtonBg_shape (s tok : List Char) (h : searchButtonBg s = some tok) :
    isHexToken tok :=
  reSearch_shape _ (fun s' t' h' => blockMatcher_shape _ _ s' t' h') s tok h

theorem searchHoverBg_shape (s tok : List Char) (h : searchHoverBg s = some tok) :
    isHexToken tok :=
  reSearch_shape _ (fun s' t' h' => blockMatcher_shape _ _ s' t' h') s tok h

theorem searchSelectedBg_shape (s tok : List Char) (h : searchSelectedBg s = some tok) :
    isHexToken tok :=
  reSearch_shape _ (fun s' t' h' => blockMatcher_shape _ _ s' t' h') s tok h

theorem searchBorder_shape (s tok : List Char) (h : searchBorder s = some tok) :
    isHexToken tok :=
  reSearch_shape _ (fun s' t' h' => borderMatcher_shape s' t' h') s tok h

end ThemeEd

open ThemeEd in
/-- Every palette produced by `from_qss` has all eight fields strictly valid
and fixed under uppercasing. -/
theorem QSSPalette.from_qss_goodFields (qss : String) :
    goodField (QSSPalette.from_qss qss).background ∧
    goodField (QSSPalette.from_qss qss).foreground ∧
    goodField (QSSPalette.from_qss qss).primary ∧
    goodField (QSSPalette.from_qss qss).secondary ∧
    goodField (QSSPalette.from_qss qss).border ∧
    goodField (QSSPalette.from_qss qss).hover ∧
    goodField (QSSPalette.from_qss qss).selected ∧
    goodField (QSSPalette.from_qss qss).disabled := by
  simp only [QSSPalette.from_qss]
  split
  · refine ⟨?_, ?_, ?_, ?_, ?_, ?_, ?_, ?_⟩
    · exact goodField_updField _ (fun t h => searchWidgetBg_shape _ t h) _ (by constructor <;> decide)
    · exact goodField_updField _ (fun t h => searchWidgetFg_shape _ t h) _ (by constructor <;> decide)
    · exact goodField_updField _ (fun t h => searchButtonBg_shape _ t h) _ (by constructor <;> decide)
    · exact (by constructor <;> decide : goodField ("#6C757D" : String))
    · exact goodField_updField _ (fun t h => searchBorder_shape _ t h) _ (by constructor <;> decide)
    · exact goodField_updField _ (fun t h => searchHoverBg_shape _ t h) _ (by constructor <;> decide)
    · exact goodField_updField _ (fun t h => searchSelectedBg_shape _ t h) _ (by constructor <;> decide)
    · exact (by constructor <;> decide : goodField ("#999999" : String))
  · refine ⟨?_, ?_, ?_, ?_, ?_, ?_, ?_, ?_⟩ <;> constructor <;> decide

/-- A palette whose eight fields are strictly valid passes `validate`. -/
theorem QSSPalette.validate_of_valid (p : QSSPalette)
    (h1 : isValidHexStr p.background = true) (h2 : isValidHexStr p.foreground = true)
    (h3 : isValidHexStr p.primary = true) (h4 : isValidHexStr p.secondary = true)
    (h5 : isValidHexStr p.border = true) (h6 : isValidHexStr p.hover = true)
    (h7 : isValidHexStr p.selected = true) (h8 : isValidHexStr p.disabled = true) :
    p.validate = (true, "") := by
  unfold QSSPalette.validate
  rw [h1, h2, h3, h4, h5, h6, h7, h8]
  rfl

namespace ThemeEd

theorem hexDig_upperHex (n : Nat) : isUpperHexCh (hexDig n) = true := by
  unfold hexDig
  split <;> decide

theorem hexStr_small (n : Nat) (h : n < 16) : hexStr n = [hexDig n] := by
  rw [hexStr]
  simp [h]

theorem hexStr_two (n : Nat) (h1 : 16 ≤ n) (h2 : n ≤ 255) :
    hexStr n = [hexDig (n / 16), hexDig (n % 16)] := by
  rw [hexStr]
  rw [if_neg (by omega)]
  rw [hexStr_small (n / 16) (by omega)]
  rfl

theorem hex2_shape (n : Nat) (h : n ≤ 255) :
    ∃ d1 d2, hex2 n = [d1, d2] ∧ isUpperHexCh d1 = true ∧ isUpperHexCh d2 = true := by
  unfold hex2
  by_cases h16 : n < 16
  · rw [if_pos h16]
    exact ⟨'0', hexDig n, rfl, by decide, hexDig_upperHex n⟩
  · rw [if_neg h16]
    rw [hexStr_two n (by omega) h]
    exact ⟨hexDig (n / 16), hexDig (n % 16), rfl, hexDig_upperHex _, hexDig_upperHex _⟩

theorem isShortHex_elim (l : List Char) (h : isShortHex l = true) :
    ∃ a b c, l = ['#', a, b, c] ∧
      isUpperHexCh a = true ∧ isUpperHexCh b = true ∧ isUpperHexCh c = true := by
  unfold isShortHex at h
  split at h
  · rename_i a b c
    simp only [Bool.and_eq_true] at h
    exact ⟨a, b, c, rfl, h.1.1, h.1.2, h.2⟩
  · exact absurd h (by decide)

theorem isFullHex_elim (l : List Char) (h : isFullHex l = true) :
    ∃ a b c d e f, l = ['#', a, b, c, d, e, f] ∧
      isUpperHexCh a = true ∧ isUpperHexCh b = true ∧ isUpperHexCh c = true ∧
      isUpperHexCh d = true ∧ isUpperHexCh e = true ∧ isUpperHexCh f = true := by
  unfold isFullHex at h
  split at h
  · rename_i a b c d e f
    simp only [Bool.and_eq_true] at h
    exact ⟨a, b, c, d, e, f, rfl, h.1.1.1.1.1, h.1.1.1.1.2, h.1.1.1.2, h.1.1.2, h.1.2, h.2⟩
  · exact absurd h (by decide)

/-- All three `rgb(...)` components, if the `rgb` pattern matches the
(stripped, case-adjusted) input at all, fit in one byte. -/
def rgbArgsOk (s : String) : Prop :=
  match parseRgb (((stripCh s.data).map upperChar).map lowerChar) with
  | some (r, g, b) => r ≤ 255 ∧ g ≤ 255 ∧ b ≤ 255
  | none => True

end ThemeEd

namespace ColorPickerButton

open ThemeEd

/-- Under in-range `rgb()` components, `_normalize_color` always returns a
`#` followed by six uppercase hex digits. -/
theorem normalize_color_canonical (s : String) (h : rgbArgsOk s) :
    ∃ c1 c2 c3 c4 c5 c6, (normalize_color s).data = ['#', c1, c2, c3, c4, c5, c6] ∧
      isUpperHexCh c1 = true ∧ isUpperHexCh c2 = true ∧ isUpperHexCh c3 = true ∧
      isUpperHexCh c4 = true ∧ isUpperHexCh c5 = true ∧ isUpperHexCh c6 = true := by
  unfold normalize_color
  by_cases hs : isShortHex ((stripCh s.data).map upperChar)
  · rw [if_pos hs]
    obtain ⟨a, b, c, heq, ha, hb, hc⟩ := isShortHex_elim _ hs
    rw [heq]
    exact ⟨a, a, b, b, c, c, rfl, ha, ha, hb, hb, hc, hc⟩
  · rw [if_neg hs]
    by_cases hf : isFullHex ((stripCh s.data).map upperChar)
    · rw [if_pos hf]
      obtain ⟨a, b, c, d, e, f, heq, ha, hb, hc, hd, he, hf'⟩ := isFullHex_elim _ hf
      exact ⟨a, b, c, d, e, f, heq, ha, hb, hc, hd, he, hf'⟩
    · rw [if_neg hf]
      unfold rgbArgsOk at h
      cases hp : parseRgb (((stripCh s.data).map upperChar).map lowerChar) with
      | none =>
        exact ⟨'0', '0', '0', '0', '0', '0', rfl, by decide, by decide, by decide,
          by decide, by decide, by decide⟩
      | some rgb =>
        obtain ⟨r, g, b⟩ := rgb
        rw [hp] at h
        obtain ⟨hr, hg, hb⟩ := h
        obtain ⟨r1, r2, hr2, hru1, hru2⟩ := hex2_shape r hr
        obtain ⟨g1, g2, hg2, hgu1, hgu2⟩ := hex2_shape g hg
        obtain ⟨b1, b2, hb2, hbu1, hbu2⟩ := hex2_shape b hb
        refine ⟨r1, r2, g1, g2, b1, b2, ?_, hru1, hru2, hgu1, hgu2, hbu1, hbu2⟩
        show ('#' :: (hex2 r ++ hex2 g ++ hex2 b)) = _
        rw [hr2, hg2, hb2]
        rfl

/-- A canonical `#RRGGBB` uppercase colour is a fixed point of
`_normalize_color`. -/
theorem normalize_color_of_canonical (v : String)
    (c1 c2 c3 c4 c5 c6 : Char) (hv : v.data = ['#', c1, c2, c3, c4, c5, c6])
    (h1 : isUpperHexCh c1 = true) (h2 : isUpperHexCh c2 = true)
    (h3 : isUpperHexCh c3 = true) (h4 : isUpperHexCh c4 = true)
    (h5 : isUpperHexCh c5 = true) (h6 : isUpperHexCh c6 = true) :
    normalize_color v = v := by
  have hstrip : stripCh v.data = v.data := by
    rw [hv]
    unfold stripCh
    rw [show List.dropWhile isWsCh ['#', c1, c2, c3, c4, c5, c6] =
        ['#', c1, c2, c3, c4, c5, c6] from by
      simp [List.dropWhile_cons, isWsCh]]
    rw [show List.reverse ['#', c1, c2, c3, c4, c5, c6] = [c6, c5, c4, c3, c2, c1, '#'] from by
      simp]
    rw [show List.dropWhile isWsCh [c6, c5, c4, c3, c2, c1, '#'] =
        [c6, c5, c4, c3, c2, c1, '#'] from by
      simp only [List.dropWhile_cons, (isUpperHexCh_facts c6 h6).2.2.2.2.2.2.2.2.2]
      rfl]
    simp
  have hmap : ((stripCh v.data).map upperChar) = ['#', c1, c2, c3, c4, c5, c6] := by
    rw [hstrip, hv]
    simp only [List.map_cons, List.map_nil,
      (isUpperHexCh_facts c1 h1).2.2.2.2.2.2.2.2.1, (isUpperHexCh_facts c2 h2).2.2.2.2.2.2.2.2.1,
      (isUpperHexCh_facts c3 h3).2.2.2.2.2.2.2.2.1, (isUpperHexCh_facts c4 h4).2.2.2.2.2.2.2.2.1,
      (isUpperHexCh_facts c5 h5).2.2.2.2.2.2.2.2.1, (isUpperHexCh_facts c6 h6).2.2.2.2.2.2.2.2.1]
    rw [show upperChar '#' = '#' from rfl]
  unfold normalize_color
  rw [hmap]
  rw [if_neg (by simp [isShortHex])]
  rw [if_pos (by simp [isFullHex, h1, h2, h3, h4, h5, h6])]
  rw [← hv]

end ColorPickerButton

namespace QtWidgetThemeEditor

open ThemeEd

/-- Python `text.split(';')`: split on every `;`, keeping empty segments
(`"".split(';') == ['']`). -/
def splitSemi : List Char → List (List Char)
  | [] => [[]]
  | c :: cs =>
    if c = ';' then [] :: splitSemi cs
    else
      match splitSemi cs with
      | s :: rest => (c :: s) :: rest
      | [] => [[c]]

/-- Python `part.split(':', 1)` when a colon is present: split at the first
colon. -/
def splitFirstColon : List Char → List Char × List Char
  | [] => ([], [])
  | c :: cs =>
    if c = ':' then ([], cs)
    else ((c :: (splitFirstColon cs).1), (splitFirstColon cs).2)

/-- Python dict assignment `properties[k] = v`: replace in place when the
key exists, else append, preserving insertion order. -/
def dictInsert (properties : List (String × String)) (kv : String × String) :
    List (String × String) :=
  if (properties.map Prod.fst).contains kv.1 then
    properties.map fun e => if e.1 = kv.1 then (e.1, kv.2) else e
  else properties ++ [kv]

/-- `QtWidgetThemeEditor._parse_css_properties` (modules/qt_widget_theme_editor.py,
lines 1160-1174): empty input gives the empty dict; otherwise split on `;`,
strip, drop empty segments, and for each segment containing a `:` split at
the first colon, strip both sides and assign into the ordered dict. -/
def parse_css_properties (style : String) : List (String × String) :=
  if style = "" then []
  else
    (((splitSemi style.data).map stripCh).filter fun p => !p.isEmpty).foldl
      (fun properties part =>
        if part.contains ':' then
          dictInsert properties
            (⟨stripCh (splitFirstColon part).1⟩, ⟨stripCh (splitFirstColon part).2⟩)
        else properties) []

/-- Python `"; ".join(strings)`. -/
def joinSemiSp : List String → String
  | [] => ""
  | [x] => x
  | x :: xs => x ++ "; " ++ joinSemiSp xs

/-- The `"; ".join(f"{k}: {v}" for k, v in properties.items())` serializer of
`QtWidgetThemeEditor._update_css_property` (lines 1280-1284). -/
def serialize_css_properties (properties : List (String × String)) : String :=
  joinSemiSp (properties.map fun kv => kv.1 ++ ": " ++ kv.2)

/-- The in-order sequence of key/value pairs read off the declaration text
(before dict semantics are applied): segments without a colon are dropped. -/
def cssPairs (style : String) : List (String × String) :=
  (((splitSemi style.data).map stripCh).filter fun p => !p.isEmpty).filterMap
    fun part =>
      if part.contains ':' then
        some (⟨stripCh (splitFirstColon part).1⟩, ⟨stripCh (splitFirstColon part).2⟩)
      else none

/-- Ordered-dict lookup: the value of the first (unique) entry with key `k`. -/
def lookupProp (k : String) (d : List (String × String)) : Option String :=
  (d.find? fun e => e.1 == k).map Prod.snd

/-- The value of the last pair with key `k` in a pair sequence. -/
def lastAssoc (ps : List (String × String)) (k : String) : Option String :=
  ps.foldl (fun acc e => if e.1 = k then some e.2 else acc) none

/-- The pattern `#[0-9A-Fa-f]{6}(?:[0-9A-Fa-f]{2})?` at one position: six hex
digits after `#`, greedily extended by two more when present. -/
def matchHex68 : List Char → Option (List Char)
  | '#' :: a :: b :: c :: d :: e :: f :: rest =>
      if isHexDigitCh a && isHexDigitCh b && isHexDigitCh c &&
         isHexDigitCh d && isHexDigitCh e && isHexDigitCh f then
        match rest with
        | g :: h :: _ =>
          if isHexDigitCh g && isHexDigitCh h then
            some ['#', a, b, c, d, e, f, g, h]
          else
            some ['#', a, b, c, d, e, f]
        | _ => some ['#', a, b, c, d, e, f]
      else none
  | _ => none

/-- Python's substring test `needle in hay`. -/
def containsSub (needle : List Char) : List Char → Bool
  | [] => startsWithL needle []
  | c :: cs => startsWithL needle (c :: cs) || containsSub needle cs

/-- The `named_colors` table of `_extract_color_from_value` (lines
1195-1212), in source insertion order. -/
def named_colors : List (String × String) :=
  [("transparent", "#000000"), ("none", "#000000"), ("black", "#000000"),
   ("white", "#FFFFFF"), ("red", "#FF0000"), ("green", "#00FF00"),
   ("blue", "#0000FF"), ("yellow", "#FFFF00"), ("cyan", "#00FFFF"),
   ("magenta", "#FF00FF"), ("gray", "#808080"), ("grey", "#808080"),
   ("darkgray", "#A9A9A9"), ("darkgrey", "#A9A9A9"),
   ("lightgray", "#D3D3D3"), ("lightgrey", "#D3D3D3")]

/-- `QtWidgetThemeEditor._extract_color_from_value` (lines 1176-1223): first
hex token (6 digits, optional 2-digit alpha) uppercased when present, else
the table value when the lowercased input is exactly a colour name, else the
first table entry whose name occurs as a substring of the lowercased input,
else `None`. -/
def extract_color_from_value (value : String) : Option String :=
  let value_lower := value.data.map lowerChar
  match reSearch matchHex68 value.data with
  | some tok => some ⟨tok.map upperChar⟩
  | none =>
    match named_colors.find? fun e => e.1.data == value_lower with
    | some e => some e.2
    | none =>
      match named_colors.find? fun e => containsSub e.1.data value_lower with
      | some e => some e.2
      | none => none

end QtWidgetThemeEditor

namespace QtWidgetThemeEditor

open ThemeEd

theorem splitSemi_no_semi (a r s : List Char) (rest : List (List Char))
    (ha : ∀ x ∈ a, x ≠ ';') (hr : splitSemi r = s :: rest) :
    splitSemi (a ++ r) = (a ++ s) :: rest := by
  induction a with
  | nil => simpa using hr
  | cons c cs ih =>
    have hc : ¬ c = ';' := ha c (by simp)
    have ih' := ih fun x hx => ha x (by simp [hx])
    simp only [List.cons_append, splitSemi, List.append_eq, if_neg hc, ih']

theorem splitSemi_single (a : List Char) (ha : ∀ x ∈ a, x ≠ ';') :
    splitSemi a = [a] := by
  have h := splitSemi_no_semi a [] [] [] ha rfl
  simpa using h

theorem stripCh_ws_cons (c : Char) (x : List Char) (hc : isWsCh c = true) :
    stripCh (c :: x) = stripCh x := by
  unfold stripCh
  rw [List.dropWhile_cons, if_pos hc]

theorem stripCh_parts (l : List Char) (h : stripCh l = l) :
    l.dropWhile isWsCh = l ∧ l.reverse.dropWhile isWsCh = l.reverse := by
  have h2 : (l.dropWhile isWsCh).length ≤ l.length := (List.dropWhile_suffix _).length_le
  have h1 : ((l.dropWhile isWsCh).reverse.dropWhile isWsCh).length ≤
      (l.dropWhile isWsCh).reverse.length := (List.dropWhile_suffix _).length_le
  have hlen : (stripCh l).length = l.length := by rw [h]
  unfold stripCh at hlen
  simp only [List.length_reverse] at hlen h1
  have e1 : (l.dropWhile isWsCh).length = l.length := by omega
  have hd : l.dropWhile isWsCh = l := (List.dropWhile_suffix _).eq_of_length e1
  refine ⟨hd, ?_⟩
  rw [hd] at hlen
  exact (List.dropWhile_suffix _).eq_of_length (by simp only [List.length_reverse]; omega)

theorem head_not_ws_of_stripped (c : Char) (cs : List Char)
    (h : stripCh (c :: cs) = c :: cs) : isWsCh c = false := by
  have hd := (stripCh_parts _ h).1
  by_contra hb
  rw [Bool.not_eq_false] at hb
  rw [List.dropWhile_cons, if_pos hb] at hd
  have hle : (cs.dropWhile isWsCh).length ≤ cs.length := (List.dropWhile_suffix _).length_le
  rw [hd] at hle
  simp only [List.length_cons] at hle
  omega

theorem last_not_ws_of_stripped (l : List Char) (c : Char)
    (h : stripCh l = l) (hc : l.getLast? = some c) : isWsCh c = false := by
  have hr := (stripCh_parts _ h).2
  have hh : l.reverse.head? = some c := by rw [List.head?_reverse]; exact hc
  rcases he : l.reverse with _ | ⟨d, ds⟩
  · rw [he] at hh; exact absurd hh (by simp)
  · rw [he] at hh hr
    have hdc : d = c := by simpa using hh
    by_contra hb
    rw [Bool.not_eq_false] at hb
    rw [List.dropWhile_cons, if_pos (by rw [hdc]; exact hb)] at hr
    have hle : (ds.dropWhile isWsCh).length ≤ ds.length := (List.dropWhile_suffix _).length_le
    rw [hr] at hle
    simp only [List.length_cons] at hle
    omega

theorem stripCh_eq_self_of_ends (l : List Char)
    (hh : ∀ c cs, l = c :: cs → isWsCh c = false)
    (hl : ∀ c, l.getLast? = some c → isWsCh c = false) :
    stripCh l = l := by
  unfold stripCh
  have h1 : l.dropWhile isWsCh = l := by
    cases l with
    | nil => rfl
    | cons c cs =>
      rw [List.dropWhile_cons]
      simp [hh c cs rfl]
  rw [h1]
  have h2 : l.reverse.dropWhile isWsCh = l.reverse := by
    cases he : l.reverse with
    | nil => rfl
    | cons d ds =>
      have hgl : l.getLast? = some d := by
        rw [← List.head?_reverse, he]; rfl
      rw [List.dropWhile_cons]
      simp [hl d hgl]
  rw [h2, List.reverse_reverse]

theorem stripCh_segment (k v : List Char) (hk : k ≠ []) (hv : v ≠ [])
    (hks : stripCh k = k) (hvs : stripCh v = v) :
    stripCh (k ++ ':' :: ' ' :: v) = k ++ ':' :: ' ' :: v := by
  apply stripCh_eq_self_of_ends
  · intro c cs hc
    cases k with
    | nil => exact absurd rfl hk
    | cons a as =>
      rw [List.cons_append] at hc
      have hac : a = c := by injection hc
      exact hac ▸ head_not_ws_of_stripped a as hks
  · intro c hc
    have h1 : (k ++ ':' :: ' ' :: v).getLast? = v.getLast? := by
      rw [List.getLast?_append_of_ne_nil k (by simp)]
      rw [show (':' :: ' ' :: v) = [':', ' '] ++ v from rfl,
          List.getLast?_append_of_ne_nil [':', ' '] hv]
    rw [h1] at hc
    exact last_not_ws_of_stripped v c hvs hc

/-- The character segment a `(key, value)` entry contributes between two
semicolons of the serialized declaration text. -/
def segOf (kv : String × String) : List Char := kv.1.data ++ ':' :: ' ' :: kv.2.data

theorem data_pair (kv : String × String) : (kv.1 ++ ": " ++ kv.2).data = segOf kv := by
  show (kv.1 ++ ": " ++ kv.2).data = kv.1.data ++ ':' :: ' ' :: kv.2.data
  rw [String.data_append, String.data_append, List.append_assoc]
  rfl

theorem segOf_no_semi (kv : String × String) (h1 : ';' ∉ kv.1.data) (h2 : ';' ∉ kv.2.data) :
    ∀ x ∈ segOf kv, x ≠ ';' := by
  intro x hx he
  subst he
  unfold segOf at hx
  rcases List.mem_append.mp hx with h | h
  · exact h1 h
  · simp only [List.mem_cons] at h
    rcases h with h | h | h
    · exact absurd h (by decide)
    · exact absurd h (by decide)
    · exact h2 h

theorem segOf_ne_nil (kv : String × String) (h : kv.1.data ≠ []) : segOf kv ≠ [] := by
  unfold segOf
  intro hc
  exact h (List.append_eq_nil.mp hc).1

theorem splitSemi_serialize_cons (kv : String × String) (rest : List (String × String))
    (h : ∀ e ∈ kv :: rest, (';' ∉ e.1.data) ∧ (';' ∉ e.2.data)) :
    splitSemi (serialize_css_properties (kv :: rest)).data
      = segOf kv :: rest.map fun e => ' ' :: segOf e := by
  induction rest generalizing kv with
  | nil =>
    show splitSemi (joinSemiSp [kv.1 ++ ": " ++ kv.2]).data = [segOf kv]
    rw [show joinSemiSp [kv.1 ++ ": " ++ kv.2] = kv.1 ++ ": " ++ kv.2 from rfl, data_pair]
    exact splitSemi_single _
      (segOf_no_semi kv (h kv (by simp)).1 (h kv (by simp)).2)
  | cons kv2 rest2 ih =>
    have hstep : serialize_css_properties (kv :: kv2 :: rest2)
        = (kv.1 ++ ": " ++ kv.2) ++ "; " ++ serialize_css_properties (kv2 :: rest2) := rfl
    rw [hstep]
    have hdata : ((kv.1 ++ ": " ++ kv.2) ++ "; " ++ serialize_css_properties (kv2 :: rest2)).data
        = segOf kv ++ ';' :: ' ' :: (serialize_css_properties (kv2 :: rest2)).data := by
      rw [String.data_append, String.data_append, data_pair, List.append_assoc]
      rfl
    rw [hdata]
    have ih' := ih kv2 fun e he => h e (List.mem_cons_of_mem kv he)
    have hsp : splitSemi (' ' :: (serialize_css_properties (kv2 :: rest2)).data)
        = (' ' :: segOf kv2) :: rest2.map fun e => ' ' :: segOf e := by
      have hx := splitSemi_no_semi [' '] _ _ _
        (by intro x hx; simp at hx; subst hx; decide) ih'
      simpa using hx
    have hsemi : splitSemi (';' :: ' ' :: (serialize_css_properties (kv2 :: rest2)).data)
        = [] :: (' ' :: segOf kv2) :: rest2.map (fun e => ' ' :: segOf e) := by
      rw [show ∀ r : List Char, splitSemi (';' :: r) = [] :: splitSemi r from fun r => rfl, hsp]
    have hfin := splitSemi_no_semi (segOf kv) _ _ _
      (segOf_no_semi kv (h kv (List.mem_cons_self kv _)).1 (h kv (List.mem_cons_self kv _)).2)
      hsemi
    simpa using hfin

/-- Well-formedness of one dict entry for the round-trip law: key and value
nonempty and already stripped, no `;` in either, no `:` in the key. -/
def wfEntry (kv : String × String) : Prop :=
  kv.1.data ≠ [] ∧ kv.2.data ≠ [] ∧
  stripCh kv.1.data = kv.1.data ∧ stripCh kv.2.data = kv.2.data ∧
  (';' ∉ kv.1.data) ∧ (';' ∉ kv.2.data) ∧ (':' ∉ kv.1.data)

instance (kv : String × String) : Decidable (wfEntry kv) := by
  unfold wfEntry
  infer_instance

theorem strippedParts_serialize (m : List (String × String)) (hm : ∀ e ∈ m, wfEntry e) :
    (((splitSemi (serialize_css_properties m).data).map stripCh).filter fun p => !p.isEmpty)
      = m.map segOf := by
  cases m with
  | nil => rfl
  | cons kv rest =>
    rw [splitSemi_serialize_cons kv rest
      (fun e he => ⟨(hm e he).2.2.2.2.1, (hm e he).2.2.2.2.2.1⟩)]
    rw [List.map_cons, List.map_map]
    have hkv := hm kv (List.mem_cons_self kv rest)
    have h1 : stripCh (segOf kv) = segOf kv :=
      stripCh_segment kv.1.data kv.2.data hkv.1 hkv.2.1 hkv.2.2.1 hkv.2.2.2.1
    rw [h1]
    have h2 : rest.map (stripCh ∘ fun e => ' ' :: segOf e) = rest.map segOf := by
      apply List.map_congr_left
      intro e he
      have hew := hm e (List.mem_cons_of_mem kv he)
      show stripCh (' ' :: segOf e) = segOf e
      rw [stripCh_ws_cons _ _ (by decide)]
      exact stripCh_segment e.1.data e.2.data hew.1 hew.2.1 hew.2.2.1 hew.2.2.2.1
    rw [h2, List.map_cons]
    apply List.filter_eq_self.mpr
    intro a ha
    have hane : a ≠ [] := by
      simp only [List.mem_cons, List.mem_map] at ha
      rcases ha with rfl | ⟨e, he, rfl⟩
      · exact segOf_ne_nil kv hkv.1
      · exact segOf_ne_nil e (hm e (List.mem_cons_of_mem kv he)).1
    cases a with
    | nil => exact absurd rfl hane
    | cons y ys => rfl

theorem contains_colon_mid (k v : List Char) : (k ++ ':' :: v).contains ':' = true := by
  induction k with
  | nil => rfl
  | cons c cs ih =>
    rw [List.cons_append]
    rw [show ((c :: (cs ++ ':' :: v)).contains ':')
        = (':' == c || (cs ++ ':' :: v).contains ':') from rfl, ih, Bool.or_true]

theorem splitFirstColon_mid (k v : List Char) (hk : ':' ∉ k) :
    splitFirstColon (k ++ ':' :: v) = (k, v) := by
  induction k with
  | nil => simp [splitFirstColon]
  | cons c cs ih =>
    have hc : ¬ c = ':' := fun h => hk (by simp [h])
    have ih' := ih fun h => hk (List.mem_cons_of_mem c h)
    rw [List.cons_append]
    simp only [splitFirstColon, if_neg hc, ih']

theorem filterMap_id_of {α : Type} (f : α → Option α) (l : List α)
    (h : ∀ a ∈ l, f a = some a) : l.filterMap f = l := by
  induction l with
  | nil => rfl
  | cons a as ih =>
    rw [List.filterMap_cons, h a (List.mem_cons_self a as),
        ih fun x hx => h x (List.mem_cons_of_mem a hx)]

theorem cssPairs_serialize (m : List (String × String)) (hm : ∀ e ∈ m, wfEntry e) :
    cssPairs (serialize_css_properties m) = m := by
  unfold cssPairs
  rw [strippedParts_serialize m hm, List.filterMap_map]
  apply filterMap_id_of
  intro kv hkv
  have hw := hm kv hkv
  show (if (segOf kv).contains ':' then
      some ((⟨stripCh (splitFirstColon (segOf kv)).1⟩ : String),
            (⟨stripCh (splitFirstColon (segOf kv)).2⟩ : String))
    else none) = some kv
  rw [if_pos (show ((segOf kv).contains ':') = true from
    contains_colon_mid kv.1.data (' ' :: kv.2.data))]
  have hsfc : splitFirstColon (segOf kv) = (kv.1.data, ' ' :: kv.2.data) :=
    splitFirstColon_mid kv.1.data (' ' :: kv.2.data) hw.2.2.2.2.2.2
  rw [hsfc]
  show some ((⟨stripCh kv.1.data⟩ : String), (⟨stripCh (' ' :: kv.2.data)⟩ : String)) = some kv
  rw [stripCh_ws_cons ' ' kv.2.data (by decide), hw.2.2.1, hw.2.2.2.1]

theorem foldl_guard (parts : List (List Char)) (acc : List (String × String)) :
    parts.foldl (fun properties part =>
        if part.contains ':' then
          dictInsert properties
            (⟨stripCh (splitFirstColon part).1⟩, ⟨stripCh (splitFirstColon part).2⟩)
        else properties) acc
      = (parts.filterMap fun part =>
          if part.contains ':' then
            some ((⟨stripCh (splitFirstColon part).1⟩ : String),
                  (⟨stripCh (splitFirstColon part).2⟩ : String))
          else none).foldl dictInsert acc := by
  induction parts generalizing acc with
  | nil => rfl
  | cons p ps ih =>
    by_cases hp : p.contains ':' = true
    · simp only [List.foldl_cons, List.filterMap_cons, hp, if_true]
      exact ih _
    · simp only [List.foldl_cons, List.filterMap_cons, hp, if_false, Bool.false_eq_true]
      exact ih _

theorem parse_eq_foldl (style : String) :
    parse_css_properties style = (cssPairs style).foldl dictInsert [] := by
  unfold parse_css_properties cssPairs
  by_cases h : style = ""
  · rw [if_pos h, h]
    rfl
  · rw [if_neg h]
    exact foldl_guard _ []

end QtWidgetThemeEditor

namespace QtWidgetThemeEditor

open ThemeEd

theorem lookup_map_replace_ne (d : List (String × String)) (kv : String × String) (k : String)
    (hk : ¬ k = kv.1) :
    lookupProp k (d.map fun e => if e.1 = kv.1 then (e.1, kv.2) else e) = lookupProp k d := by
  induction d with
  | nil => rfl
  | cons e es ih =>
    unfold lookupProp at *
    rw [List.map_cons, List.find?_cons, List.find?_cons]
    have h1 : (if e.1 = kv.1 then (e.1, kv.2) else e).1 = e.1 := by split <;> rfl
    rw [h1]
    by_cases hek : (e.1 == k) = true
    · have hek' : e.1 = k := by simpa using hek
      have hne : ¬ e.1 = kv.1 := fun h => hk (by rw [← hek', h])
      rw [if_neg hne, hek]
    · have hekf : (e.1 == k) = false := by
        rw [Bool.not_eq_true] at hek; exact hek
      rw [hekf]
      exact ih

theorem lookup_map_replace_eq (d : List (String × String)) (kv : String × String)
    (hc : (d.map Prod.fst).contains kv.1 = true) :
    lookupProp kv.1 (d.map fun e => if e.1 = kv.1 then (e.1, kv.2) else e) = some kv.2 := by
  induction d with
  | nil => exact Bool.noConfusion hc
  | cons e es ih =>
    unfold lookupProp at *
    rw [List.map_cons, List.find?_cons]
    have h1 : (if e.1 = kv.1 then (e.1, kv.2) else e).1 = e.1 := by split <;> rfl
    rw [h1]
    by_cases he : e.1 = kv.1
    · have ht : (e.1 == kv.1) = true := by rw [he]; exact beq_self_eq_true kv.1
      rw [ht, if_pos he]
      rfl
    · have hf : (e.1 == kv.1) = false := by rw [beq_eq_false_iff_ne]; exact he
      rw [hf]
      apply ih
      have hcc : (kv.1 == e.1 || (es.map Prod.fst).contains kv.1) = true := hc
      have hne : (kv.1 == e.1) = false := by
        rw [beq_eq_false_iff_ne]; exact fun h => he h.symm
      rw [hne, Bool.false_or] at hcc
      exact hcc

theorem lookupProp_append_single (d : List (String × String)) (kv : String × String)
    (k : String) :
    lookupProp k (d ++ [kv]) = match lookupProp k d with
      | some v => some v
      | none => if kv.1 = k then some kv.2 else none := by
  induction d with
  | nil =>
    show lookupProp k [kv] = _
    unfold lookupProp
    rw [List.find?_cons]
    by_cases h : (kv.1 == k) = true
    · have h' : kv.1 = k := by simpa using h
      rw [h]
      show some kv.2 = _
      rw [List.find?_nil]
      show some kv.2 = if kv.1 = k then some kv.2 else none
      rw [if_pos h']
    · have hf : (kv.1 == k) = false := by rw [Bool.not_eq_true] at h; exact h
      have h' : ¬ kv.1 = k := by
        rw [beq_eq_false_iff_ne] at hf; exact hf
      rw [hf]
      show none = _
      rw [List.find?_nil]
      show (none : Option String) = if kv.1 = k then some kv.2 else none
      rw [if_neg h']
  | cons e es ih =>
    unfold lookupProp at *
    rw [List.cons_append, List.find?_cons, List.find?_cons]
    by_cases h : (e.1 == k) = true
    · rw [h]
      rfl
    · have hf : (e.1 == k) = false := by rw [Bool.not_eq_true] at h; exact h
      rw [hf]
      exact ih

theorem lookup_none_of_not_contains (d : List (String × String)) (k : String)
    (hc : (d.map Prod.fst).contains k = false) : lookupProp k d = none := by
  induction d with
  | nil => rfl
  | cons e es ih =>
    unfold lookupProp at *
    rw [List.find?_cons]
    have hcc : (k == e.1 || (es.map Prod.fst).contains k) = false := hc
    rw [Bool.or_eq_false_iff] at hcc
    have h1 : (e.1 == k) = false := by
      rw [beq_eq_false_iff_ne]
      intro h
      exact (beq_eq_false_iff_ne.mp hcc.1) h.symm
    rw [h1]
    exact ih hcc.2

theorem lookup_dictInsert (d : List (String × String)) (kv : String × String) (k : String) :
    lookupProp k (dictInsert d kv) = if k = kv.1 then some kv.2 else lookupProp k d := by
  unfold dictInsert
  by_cases hc : ((d.map Prod.fst).contains kv.1) = true
  · rw [if_pos hc]
    by_cases hk : k = kv.1
    · rw [if_pos hk]
      subst hk
      exact lookup_map_replace_eq d kv hc
    · rw [if_neg hk]
      exact lookup_map_replace_ne d kv k hk
  · rw [if_neg hc, lookupProp_append_single]
    by_cases hk : k = kv.1
    · subst hk
      have hln := lookup_none_of_not_contains d kv.1 (by rwa [Bool.not_eq_true] at hc)
      rw [hln]
    · rw [if_neg hk]
      rw [if_neg (fun h => hk h.symm)]
      cases lookupProp k d <;> rfl

theorem lastAssoc_append_single (ps : List (String × String)) (e : String × String)
    (k : String) :
    lastAssoc (ps ++ [e]) k = if e.1 = k then some e.2 else lastAssoc ps k := by
  unfold lastAssoc
  rw [List.foldl_append]
  rfl

theorem lookup_foldl_dictInsert (ps : List (String × String)) (acc : List (String × String))
    (k : String) :
    lookupProp k (ps.foldl dictInsert acc)
      = match lastAssoc ps k with
        | some v => some v
        | none => lookupProp k acc := by
  induction ps using List.reverseRecOn generalizing acc with
  | nil => rfl
  | append_singleton ps e ih =>
    rw [List.foldl_append]
    show lookupProp k (dictInsert (ps.foldl dictInsert acc) e) = _
    rw [lookup_dictInsert, ih, lastAssoc_append_single]
    by_cases hk : k = e.1
    · rw [if_pos hk, if_pos hk.symm]
    · rw [if_neg hk, if_neg (fun h => hk h.symm)]

theorem contains_append (l1 l2 : List String) (a : String) :
    (l1 ++ l2).contains a = (l1.contains a || l2.contains a) := by
  induction l1 with
  | nil => rfl
  | cons c cs ih =>
    rw [List.cons_append]
    show (a == c || (cs ++ l2).contains a) = ((a == c || cs.contains a) || l2.contains a)
    rw [ih, Bool.or_assoc]

theorem foldl_dictInsert_nodup (ps : List (String × String)) (acc : List (String × String))
    (hnd : (ps.map Prod.fst).Nodup)
    (hdisj : ∀ e ∈ ps, ((acc.map Prod.fst).contains e.1) = false) :
    ps.foldl dictInsert acc = acc ++ ps := by
  induction ps generalizing acc with
  | nil => simp
  | cons e es ih =>
    simp only [List.map_cons, List.nodup_cons] at hnd
    rw [List.foldl_cons]
    have hce := hdisj e (List.mem_cons_self e es)
    have h1 : dictInsert acc e = acc ++ [e] := by
      unfold dictInsert
      exact if_neg (fun h => Bool.false_ne_true (hce ▸ h))
    rw [h1]
    have hdisj2 : ∀ x ∈ es, (((acc ++ [e]).map Prod.fst).contains x.1) = false := by
      intro x hx
      rw [List.map_append, contains_append, hdisj x (List.mem_cons_of_mem e hx),
          Bool.false_or]
      show (x.1 == e.1 || false) = false
      rw [Bool.or_false, beq_eq_false_iff_ne]
      intro h
      exact hnd.1 (h ▸ List.mem_map_of_mem Prod.fst hx)
    rw [ih (acc ++ [e]) hnd.2 hdisj2, List.append_assoc]
    rfl

theorem parse_serialize (m : List (String × String)) (hm : ∀ e ∈ m, wfEntry e)
    (hnd : (m.map Prod.fst).Nodup) :
    parse_css_properties (serialize_css_properties m) = m := by
  rw [parse_eq_foldl, cssPairs_serialize m hm]
  have h := foldl_dictInsert_nodup m [] hnd (fun e _ => rfl)
  simpa using h

end QtWidgetThemeEditor

namespace ThemeEd

theorem reSearch_eq_none_iff (m : List Char → Option (List Char)) (l : List Char) :
    reSearch m l = none ↔ ∀ i, m (l.drop i) = none := by
  induction l with
  | nil =>
    show m [] = none ↔ _
    constructor
    · intro h i
      cases i <;> exact h
    · intro h
      exact h 0
  | cons c cs ih =>
    show (match m (c :: cs) with
      | some r => some r
      | none => reSearch m cs) = none ↔ _
    constructor
    · intro h i
      cases hm : m (c :: cs) with
      | some r => rw [hm] at h; exact Option.noConfusion h
      | none =>
        rw [hm] at h
        cases i with
        | zero => exact hm
        | succ n => exact (ih.mp h) n
    · intro h
      have h0 := h 0
      rw [show ((c :: cs).drop 0) = c :: cs from rfl] at h0
      rw [h0]
      exact ih.mpr fun i => h (i + 1)

theorem reSearch_first (m : List Char → Option (List Char)) (l : List Char)
    (i : Nat) (tok : List Char)
    (hnone : ∀ j, j < i → m (l.drop j) = none)
    (hi : m (l.drop i) = some tok) :
    reSearch m l = some tok := by
  induction l generalizing i with
  | nil =>
    show m [] = some tok
    rw [show (([] : List Char).drop i) = [] from by simp] at hi
    exact hi
  | cons c cs ih =>
    show (match m (c :: cs) with
      | some r => some r
      | none => reSearch m cs) = some tok
    cases i with
    | zero =>
      rw [show ((c :: cs).drop 0) = c :: cs from rfl] at hi
      rw [hi]
    | succ n =>
      have h0 := hnone 0 (Nat.succ_pos n)
      rw [show ((c :: cs).drop 0) = c :: cs from rfl] at h0
      rw [h0]
      exact ih n (fun j hj => hnone (j + 1) (Nat.succ_lt_succ hj)) hi

end ThemeEd

namespace ColorPickerButton

open ThemeEd

instance (s : String) : Decidable (rgbArgsOk s) := by
  unfold rgbArgsOk
  rcases parseRgb (((stripCh s.data).map upperChar).map lowerChar) with _ | ⟨r, g, b⟩
  · exact inferInstance
  · exact inferInstance

/-- Under in-range `rgb()` components, the result of `_normalize_color`
passes the strict `^#[0-9A-Fa-f]{6}$` validation. -/
theorem normalize_color_valid (s : String) (h : rgbArgsOk s) :
    isValidHexStr (normalize_color s) = true := by
  obtain ⟨c1, c2, c3, c4, c5, c6, heq, h1, h2, h3, h4, h5, h6⟩ :=
    normalize_color_canonical s h
  unfold isValidHexStr
  rw [heq]
  show isFullHexAny ['#', c1, c2, c3, c4, c5, c6] = true
  simp [isFullHexAny,
    (isUpperHexCh_facts c1 h1).2.2.2.2.2.2.2.1, (isUpperHexCh_facts c2 h2).2.2.2.2.2.2.2.1,
    (isUpperHexCh_facts c3 h3).2.2.2.2.2.2.2.1, (isUpperHexCh_facts c4 h4).2.2.2.2.2.2.2.1,
    (isUpperHexCh_facts c5 h5).2.2.2.2.2.2.2.1, (isUpperHexCh_facts c6 h6).2.2.2.2.2.2.2.1]

/-- Under in-range `rgb()` components, `_normalize_color` is idempotent. -/
theorem normalize_color_idem (s : String) (h : rgbArgsOk s) :
    normalize_color (normalize_color s) = normalize_color s := by
  obtain ⟨c1, c2, c3, c4, c5, c6, heq, h1, h2, h3, h4, h5, h6⟩ :=
    normalize_color_canonical s h
  exact normalize_color_of_canonical _ c1 c2 c3 c4 c5 c6 heq h1 h2 h3 h4 h5 h6

end ColorPickerButton


namespace ThemeEd

theorem hexStr_300 : hexStr 300 = ['1', '2', 'C'] := by
  rw [hexStr, if_neg (by decide), show (300 : Nat) / 16 = 18 from rfl,
      show (300 : Nat) % 16 = 12 from rfl,
      hexStr, if_neg (by decide), show (18 : Nat) / 16 = 1 from rfl,
      show (18 : Nat) % 16 = 2 from rfl,
      hexStr, if_pos (by decide)]
  rfl

theorem hexStr_999 : hexStr 999 = ['3', 'E', '7'] := by
  rw [hexStr, if_neg (by decide), show (999 : Nat) / 16 = 62 from rfl,
      show (999 : Nat) % 16 = 7 from rfl,
      hexStr, if_neg (by decide), show (62 : Nat) / 16 = 3 from rfl,
      show (62 : Nat) % 16 = 14 from rfl,
      hexStr, if_pos (by decide)]
  rfl

end ThemeEd

namespace ColorPickerButton

open ThemeEd

theorem normalize_color_rgb_eval (s : String) (r g b : Nat)
    (hns : isShortHex ((stripCh s.data).map upperChar) = false)
    (hnf : isFullHex ((stripCh s.data).map upperChar) = false)
    (hp : parseRgb (((stripCh s.data).map upperChar).map lowerChar) = some (r, g, b)) :
    normalize_color s = ⟨'#' :: (hex2 r ++ hex2 g ++ hex2 b)⟩ := by
  simp only [normalize_color]
  rw [if_neg (by rw [hns]; exact Bool.false_ne_true),
      if_neg (by rw [hnf]; exact Bool.false_ne_true), hp]

theorem normalize_color_rgb300 : normalize_color "rgb(300, 0, 0)" = "#12C0000" := by
  rw [normalize_color_rgb_eval "rgb(300, 0, 0)" 300 0 0 (by decide) (by decide) (by decide)]
  show (⟨'#' :: (hex2 300 ++ hex2 0 ++ hex2 0)⟩ : String) = "#12C0000"
  rw [show hex2 300 = ['1', '2', 'C'] from by
    unfold hex2; rw [if_neg (by decide)]; exact hexStr_300]
  rfl

theorem normalize_color_rgb999 : normalize_color "rgb(999,0,0)" = "#3E70000" := by
  rw [normalize_color_rgb_eval "rgb(999,0,0)" 999 0 0 (by decide) (by decide) (by decide)]
  show (⟨'#' :: (hex2 999 ++ hex2 0 ++ hex2 0)⟩ : String) = "#3E70000"
  rw [show hex2 999 = ['3', 'E', '7'] from by
    unfold hex2; rw [if_neg (by decide)]; exact hexStr_999]
  rfl

end ColorPickerButton

open ThemeEd in
/-- Claim C1 (corrected): for every palette whose spliced fields are valid
UPPERCASE 6-hex-digit colours, extraction from the generated stylesheet
recovers `background`, `foreground`, `primary`, `hover` and `selected`
exactly, but NOT `border`: the border rule `border.*:\s*(#[0-9A-Fa-f]{6})`
never matches a line of the generated template, so `border` always comes
back as the default `#CCCCCC`; `secondary` and `disabled` also keep their
defaults. -/
theorem C1_roundtrip (p : QSSPalette)
    (hbg : isUpperHexColor p.background = true)
    (hfg : isUpperHexColor p.foreground = true)
    (hpr : isUpperHexColor p.primary = true)
    (hbd : isUpperHexColor p.border = true)
    (hhv : isUpperHexColor p.hover = true)
    (hsl : isUpperHexColor p.selected = true)
    (hdi : isUpperHexColor p.disabled = true) :
    (QSSPalette.from_qss p.generate_qss).background = p.background ∧
    (QSSPalette.from_qss p.generate_qss).foreground = p.foreground ∧
    (QSSPalette.from_qss p.generate_qss).primary = p.primary ∧
    (QSSPalette.from_qss p.generate_qss).hover = p.hover ∧
    (QSSPalette.from_qss p.generate_qss).selected = p.selected ∧
    (QSSPalette.from_qss p.generate_qss).border = "#CCCCCC" ∧
    (QSSPalette.from_qss p.generate_qss).secondary = "#6C757D" ∧
    (QSSPalette.from_qss p.generate_qss).disabled = "#999999" := by
  have h := QSSPalette.from_qss_generate p hbg hfg hpr hbd hhv hsl hdi
  rw [h]
  exact ⟨rfl, rfl, rfl, rfl, rfl, rfl, rfl, rfl⟩

/-- Concrete instance of the corrected C1 round-trip law. -/
theorem C1_roundtrip_witness :
    (QSSPalette.from_qss (QSSPalette.generate_qss
      { background := "#0A1B2C", foreground := "#3C4D5E", primary := "#A1B2C3",
        secondary := "#000001", border := "#D4E5F6", hover := "#112233",
        selected := "#445566", disabled := "#778899" })).background = "#0A1B2C" ∧
    (QSSPalette.from_qss (QSSPalette.generate_qss
      { background := "#0A1B2C", foreground := "#3C4D5E", primary := "#A1B2C3",
        secondary := "#000001", border := "#D4E5F6", hover := "#112233",
        selected := "#445566", disabled := "#778899" })).foreground = "#3C4D5E" ∧
    (QSSPalette.from_qss (QSSPalette.generate_qss
      { background := "#0A1B2C", foreground := "#3C4D5E", primary := "#A1B2C3",
        secondary := "#000001", border := "#D4E5F6", hover := "#112233",
        selected := "#445566", disabled := "#778899" })).primary = "#A1B2C3" ∧
    (QSSPalette.from_qss (QSSPalette.generate_qss
      { background := "#0A1B2C", foreground := "#3C4D5E", primary := "#A1B2C3",
        secondary := "#000001", border := "#D4E5F6", hover := "#112233",
        selected := "#445566", disabled := "#778899" })).hover = "#112233" ∧
    (QSSPalette.from_qss (QSSPalette.generate_qss
      { background := "#0A1B2C", foreground := "#3C4D5E", primary := "#A1B2C3",
        secondary := "#000001", border := "#D4E5F6", hover := "#112233",
        selected := "#445566", disabled := "#778899" })).selected = "#445566" ∧
    (QSSPalette.from_qss (QSSPalette.generate_qss
      { background := "#0A1B2C", foreground := "#3C4D5E", primary := "#A1B2C3",
        secondary := "#000001", border := "#D4E5F6", hover := "#112233",
        selected := "#445566", disabled := "#778899" })).border = "#CCCCCC" ∧
    (QSSPalette.from_qss (QSSPalette.generate_qss
      { background := "#0A1B2C", foreground := "#3C4D5E", primary := "#A1B2C3",
        secondary := "#000001", border := "#D4E5F6", hover := "#112233",
        selected := "#445566", disabled := "#778899" })).secondary = "#6C757D" ∧
    (QSSPalette.from_qss (QSSPalette.generate_qss
      { background := "#0A1B2C", foreground := "#3C4D5E", primary := "#A1B2C3",
        secondary := "#000001", border := "#D4E5F6", hover := "#112233",
        selected := "#445566", disabled := "#778899" })).disabled = "#999999" :=
  C1_roundtrip
    { background := "#0A1B2C", foreground := "#3C4D5E", primary := "#A1B2C3",
      secondary := "#000001", border := "#D4E5F6", hover := "#112233",
      selected := "#445566", disabled := "#778899" }
    (by decide) (by decide) (by decide) (by decide) (by decide) (by decide) (by decide)

/-- Refutation of C1 as stated: a palette with pairwise-distinct valid
uppercase colours and border `#555555` round-trips to border `#CCCCCC`. -/
theorem C1_counterexample :
    (QSSPalette.from_qss (QSSPalette.generate_qss
      { background := "#111111", foreground := "#222222", primary := "#333333",
        secondary := "#444444", border := "#555555", hover := "#666666",
        selected := "#777777", disabled := "#888888" })).border = "#CCCCCC" ∧
    ("#555555" : String) ≠ "#CCCCCC" := by
  constructor
  · have h := QSSPalette.from_qss_generate
      { background := "#111111", foreground := "#222222", primary := "#333333",
        secondary := "#444444", border := "#555555", hover := "#666666",
        selected := "#777777", disabled := "#888888" }
      (by decide) (by decide) (by decide) (by decide) (by decide) (by decide) (by decide)
    rw [h]
  · decide

open ThemeEd in
/-- Claim C2 (corrected): `_normalize_color` tries, on the stripped and
uppercased input, `#RGB`, then `#RRGGBB`, then `rgb(r,g,b)`, and returns
`"#000000"` for anything else; it has NO `#RRGGBBAA` handling and NO
named-colour table, and its result is a valid canonical colour only when
every matched `rgb()` component fits in a byte; `TerminalTheme.normalize_hex`
differs in its fallback, returning the stripped uppercased input as-is. -/
theorem C2_normalization :
    (∀ s : String, rgbArgsOk s →
      isValidHexStr (ColorPickerButton.normalize_color s) = true) ∧
    ColorPickerButton.normalize_color "red" = "#000000" ∧
    ColorPickerButton.normalize_color "#AABBCCDD" = "#000000" ∧
    TerminalTheme.normalize_hex "not-a-color" = "NOT-A-COLOR" :=
  ⟨fun s h => ColorPickerButton.normalize_color_valid s h,
   by decide, by decide, by decide⟩

/-- Concrete instance of the corrected C2 validity statement. -/
theorem C2_normalization_witness :
    isValidHexStr (ColorPickerButton.normalize_color "rgb(0, 120, 212)") = true :=
  C2_normalization.1 "rgb(0, 120, 212)" (by decide)

/-- Refutation of C2 as stated: the fallback of `normalize_hex` is not
`#000000`, named colours are not mapped, and an out-of-range `rgb()`
produces an invalid result. -/
theorem C2_counterexample :
    TerminalTheme.normalize_hex "hello" = "HELLO" ∧
    ColorPickerButton.normalize_color "blue" = "#000000" ∧
    ColorPickerButton.normalize_color "rgb(999,0,0)" = "#3E70000" ∧
    isValidHexStr (ColorPickerButton.normalize_color "rgb(999,0,0)") = false := by
  refine ⟨by decide, by decide, ColorPickerButton.normalize_color_rgb999, ?_⟩
  rw [ColorPickerButton.normalize_color_rgb999]
  decide

open ThemeEd in
/-- Claim C3 (corrected): `re.search` returns the LEFTMOST match, so when
two `:hover` blocks each declare a `background-color`, `from_qss` assigns
the FIRST block's colour to `hover`, not the last one's. -/
theorem C3_first_match (x1 x2 x3 x4 x5 x6 y1 y2 y3 y4 y5 y6 : Char)
    (hx1 : isUpperHexCh x1 = true) (hx2 : isUpperHexCh x2 = true)
    (hx3 : isUpperHexCh x3 = true) (hx4 : isUpperHexCh x4 = true)
    (hx5 : isUpperHexCh x5 = true) (hx6 : isUpperHexCh x6 = true)
    (hy1 : isUpperHexCh y1 = true) (hy2 : isUpperHexCh y2 = true)
    (hy3 : isUpperHexCh y3 = true) (hy4 : isUpperHexCh y4 = true)
    (hy5 : isUpperHexCh y5 = true) (hy6 : isUpperHexCh y6 = true) :
    (QSSPalette.from_qss
        (twoHoverQss ⟨['#', x1, x2, x3, x4, x5, x6]⟩ ⟨['#', y1, y2, y3, y4, y5, y6]⟩)).hover =
      ⟨['#', x1, x2, x3, x4, x5, x6]⟩ :=
  from_qss_twoHover x1 x2 x3 x4 x5 x6 y1 y2 y3 y4 y5 y6
    hx1 hx2 hx3 hx4 hx5 hx6 hy1 hy2 hy3 hy4 hy5 hy6

/-- Concrete instance of the corrected C3 first-match statement. -/
theorem C3_first_match_witness :
    (QSSPalette.from_qss (ThemeEd.twoHoverQss "#AAAAAA" "#BBBBBB")).hover = "#AAAAAA" :=
  C3_first_match 'A' 'A' 'A' 'A' 'A' 'A' 'B' 'B' 'B' 'B' 'B' 'B'
    (by decide) (by decide) (by decide) (by decide) (by decide) (by decide)
    (by decide) (by decide) (by decide) (by decide) (by decide) (by decide)

/-- Refutation of C3 as stated: with two `:hover` blocks the extracted
`hover` is the first block's colour, not the last one's. -/
theorem C3_counterexample :
    (QSSPalette.from_qss (ThemeEd.twoHoverQss "#ABCDEF" "#123456")).hover = "#ABCDEF" ∧
    ("#ABCDEF" : String) ≠ "#123456" :=
  ⟨ThemeEd.from_qss_twoHover 'A' 'B' 'C' 'D' 'E' 'F' '1' '2' '3' '4' '5' '6'
    (by decide) (by decide) (by decide) (by decide) (by decide) (by decide)
    (by decide) (by decide) (by decide) (by decide) (by decide) (by decide),
   by decide⟩

open ThemeEd in
/-- Claim C4 (corrected): whenever every matched `rgb()` component fits in a
byte (in particular whenever the `rgb` branch is not taken),
`is_valid_hex(normalize(s))` holds and normalization is idempotent; for
out-of-range components both properties fail. -/
theorem C4_valid_idem (s : String) (h : rgbArgsOk s) :
    isValidHexStr (ColorPickerButton.normalize_color s) = true ∧
    ColorPickerButton.normalize_color (ColorPickerButton.normalize_color s)
      = ColorPickerButton.normalize_color s :=
  ⟨ColorPickerButton.normalize_color_valid s h,
   ColorPickerButton.normalize_color_idem s h⟩

/-- Concrete instance of the corrected C4 statement. -/
theorem C4_valid_idem_witness :
    isValidHexStr (ColorPickerButton.normalize_color "rgb(16, 32, 48)") = true ∧
    ColorPickerButton.normalize_color (ColorPickerButton.normalize_color "rgb(16, 32, 48)")
      = ColorPickerButton.normalize_color "rgb(16, 32, 48)" :=
  C4_valid_idem "rgb(16, 32, 48)" (by decide)

/-- Refutation of C4 as stated: `rgb(300, 0, 0)` normalizes to the invalid
`#12C0000`, which renormalizes to `#000000`, so neither validity nor
idempotence holds unconditionally. -/
theorem C4_counterexample :
    ColorPickerButton.normalize_color "rgb(300, 0, 0)" = "#12C0000" ∧
    isValidHexStr (ColorPickerButton.normalize_color "rgb(300, 0, 0)") = false ∧
    ColorPickerButton.normalize_color (ColorPickerButton.normalize_color "rgb(300, 0, 0)")
      ≠ ColorPickerButton.normalize_color "rgb(300, 0, 0)" := by
  refine ⟨ColorPickerButton.normalize_color_rgb300, ?_, ?_⟩
  · rw [ColorPickerButton.normalize_color_rgb300]
    decide
  · rw [ColorPickerButton.normalize_color_rgb300]
    decide

/-- Claim C5: on any input without a 6-hex-digit colour occurrence,
`from_qss` returns the all-defaults palette (and, being a total function,
raises nothing on malformed input). -/
theorem C5_default (qss : String) (h : ThemeEd.hasHexColor qss.data = false) :
    QSSPalette.from_qss qss =
      { background := "#FFFFFF", foreground := "#000000", primary := "#0078D4",
        secondary := "#6C757D", border := "#CCCCCC", hover := "#E5E5E5",
        selected := "#0078D4", disabled := "#999999" } := by
  simp only [QSSPalette.from_qss, h, Bool.false_eq_true, if_false]

/-- Concrete instance of C5 at the empty stylesheet. -/
theorem C5_default_witness :
    QSSPalette.from_qss "" =
      { background := "#FFFFFF", foreground := "#000000", primary := "#0078D4",
        secondary := "#6C757D", border := "#CCCCCC", hover := "#E5E5E5",
        selected := "#0078D4", disabled := "#999999" } :=
  C5_default "" (by decide)

/-- Claim C6: no extraction rule writes `secondary` or `disabled`; both
always come back with their default values. -/
theorem C6_frame (qss : String) :
    (QSSPalette.from_qss qss).secondary = "#6C757D" ∧
    (QSSPalette.from_qss qss).disabled = "#999999" := by
  simp only [QSSPalette.from_qss]
  split
  · exact ⟨rfl, rfl⟩
  · exact ⟨rfl, rfl⟩

open QtWidgetThemeEditor in
/-- Claim C7: serializing a well-formed ordered property map as
`key: value` pairs joined by `"; "` and parsing the result yields the map
back, entries and order intact. -/
theorem C7_parse_serialize (m : List (String × String))
    (hm : ∀ e ∈ m, wfEntry e) (hnd : (m.map Prod.fst).Nodup) :
    parse_css_properties (serialize_css_properties m) = m :=
  parse_serialize m hm hnd

open QtWidgetThemeEditor in
/-- Concrete instance of the C7 round-trip law. -/
theorem C7_parse_serialize_witness :
    parse_css_properties (serialize_css_properties
      [("background-color", "#FF0000"), ("border", "1px solid #000000")])
      = [("background-color", "#FF0000"), ("border", "1px solid #000000")] :=
  C7_parse_serialize
    [("background-color", "#FF0000"), ("border", "1px solid #000000")]
    (by decide) (by decide)

open QtWidgetThemeEditor in
/-- Claim C8: the empty string parses to the empty map, parsing is the
left fold of dict insertion over the in-order `key: value` pairs obtained by
splitting on `;`, stripping, dropping empty and colon-less segments and
splitting each survivor at its first `:`, and a duplicated key ends up with
its LAST occurrence's value. -/
theorem C8_parse_garbage :
    parse_css_properties "" = [] ∧
    (∀ style : String, parse_css_properties style = (cssPairs style).foldl dictInsert []) ∧
    (∀ (style : String) (k : String),
      lookupProp k (parse_css_properties style) = lastAssoc (cssPairs style) k) := by
  refine ⟨rfl, parse_eq_foldl, ?_⟩
  intro style k
  rw [parse_eq_foldl, lookup_foldl_dictInsert]
  cases lastAssoc (cssPairs style) k <;> rfl

open QtWidgetThemeEditor ThemeEd in
/-- Claim C9: `_extract_color_from_value` returns the first (leftmost) hex
token uppercased when one occurs, else the table value of an exact or
substring named-colour match on the lowercased input, else none; in
particular `"5px solid #D5A200"` gives `#D5A200`, `"1px solid transparent"`
gives the black-equivalent `#000000`, and `"6px"` gives none. -/
theorem C9_extract :
    extract_color_from_value "5px solid #D5A200" = some "#D5A200" ∧
    extract_color_from_value "1px solid transparent" = some "#000000" ∧
    extract_color_from_value "6px" = none ∧
    (∀ (value : String) (i : Nat) (tok : List Char),
      (∀ j, j < i → matchHex68 (value.data.drop j) = none) →
      matchHex68 (value.data.drop i) = some tok →
      extract_color_from_value value = some ⟨tok.map upperChar⟩) ∧
    (∀ value : String, extract_color_from_value value = none ↔
      ((∀ i, matchHex68 (value.data.drop i) = none) ∧
       (∀ e ∈ named_colors, e.1.data ≠ value.data.map lowerChar) ∧
       (∀ e ∈ named_colors, containsSub e.1.data (value.data.map lowerChar) = false))) := by
  refine ⟨by decide, by decide, by decide, ?_, ?_⟩
  · intro value i tok hnone hi
    simp only [extract_color_from_value]
    rw [reSearch_first matchHex68 value.data i tok hnone hi]
  · intro value
    simp only [extract_color_from_value]
    constructor
    · intro h
      cases hs : reSearch matchHex68 value.data with
      | some tok => rw [hs] at h; exact Option.noConfusion h
      | none =>
        rw [hs] at h
        cases hf1 : named_colors.find? (fun e => e.1.data == value.data.map lowerChar) with
        | some e => rw [hf1] at h; exact Option.noConfusion h
        | none =>
          rw [hf1] at h
          cases hf2 : named_colors.find? (fun e => containsSub e.1.data (value.data.map lowerChar)) with
          | some e => rw [hf2] at h; exact Option.noConfusion h
          | none =>
            refine ⟨(reSearch_eq_none_iff _ _).mp hs, ?_, ?_⟩
            · intro e he hcontra
              have hne := List.find?_eq_none.mp hf1 e he
              exact hne (by simp [hcontra])
            · intro e he
              have hne := List.find?_eq_none.mp hf2 e he
              rwa [Bool.not_eq_true] at hne
    · rintro ⟨hh, hn, hsub⟩
      rw [(reSearch_eq_none_iff _ _).mpr hh]
      rw [List.find?_eq_none.mpr fun e he => by simpa using hn e he]
      rw [List.find?_eq_none.mpr fun e he => by
        rw [Bool.not_eq_true]; exact hsub e he]

open QtWidgetThemeEditor ThemeEd in
/-- Concrete instance of the C9 first-hex-token statement. -/
theorem C9_extract_witness :
    extract_color_from_value "a #AbCdEf z"
      = some ⟨['#', 'A', 'b', 'C', 'd', 'E', 'f'].map upperChar⟩ :=
  C9_extract.2.2.2.1 "a #AbCdEf z" 2 ['#', 'A', 'b', 'C', 'd', 'E', 'f']
    (by decide) (by decide)

open ThemeEd in
/-- Claim C10: every palette `from_qss` returns passes `validate`, and every
extracted field is fixed under uppercasing (each rule captures a 6-hex-digit
token and uppercases it; unmatched fields keep valid uppercase defaults). -/
theorem C10_valid_upper (qss : String) :
    (QSSPalette.from_qss qss).validate = (true, "") ∧
    (QSSPalette.from_qss qss).background.data.map upperChar
      = (QSSPalette.from_qss qss).background.data ∧
    (QSSPalette.from_qss qss).foreground.data.map upperChar
      = (QSSPalette.from_qss qss).foreground.data ∧
    (QSSPalette.from_qss qss).primary.data.map upperChar
      = (QSSPalette.from_qss qss).primary.data ∧
    (QSSPalette.from_qss qss).border.data.map upperChar
      = (QSSPalette.from_qss qss).border.data ∧
    (QSSPalette.from_qss qss).hover.data.map upperChar
      = (QSSPalette.from_qss qss).hover.data ∧
    (QSSPalette.from_qss qss).selected.data.map upperChar
      = (QSSPalette.from_qss qss).selected.data := by
  obtain ⟨h1, h2, h3, h4, h5, h6, h7, h8⟩ := QSSPalette.from_qss_goodFields qss
  exact ⟨QSSPalette.validate_of_valid _ h1.1 h2.1 h3.1 h4.1 h5.1 h6.1 h7.1 h8.1,
    h1.2, h2.2, h3.2, h5.2, h6.2, h7.2⟩
